import Mathlib

/-!
Residential complex dashboard: the API gateway client and the pages.

A shallow embedding of `frontend/src/services/api.js` (the request
interceptor, the response interceptor and the resource convenience functions)
and of the state handling, list filters and presentation helpers of the five
pages under `frontend/src/pages`, followed by the properties proved about
them.

JavaScript values are modelled by `JsVal`.  An object is the list of its own
enumerable properties in insertion order, which is what property reads, the
object spread and property assignment of the source observe.  An array is the
list of its items.  Numbers are the integer-valued ones (HTTP statuses, ids);
`toStr` is the decimal rendering a template literal gives them below
`10 ^ 21`.  A raised exception is `Except.error`.  The case mappings of the
JavaScript engine (`toLowerCase`, `toUpperCase`) are parameters of the
definitions that use them.
-/

namespace ResidentialComplex

/-! ## JavaScript values -/

/-- JavaScript values as far as the API client inspects them. -/
inductive JsVal where
  | undefined
  | null
  | bool (b : Bool)
  | num (n : Int)
  | str (s : String)
  | obj (props : List (String × JsVal))
  | arr (items : List JsVal)

/-- Own enumerable properties of an object, in insertion order. -/
abbrev JsObj := List (String × JsVal)

/-- Property read on an object: `o[k]`, `undefined` when `k` is not a property. -/
def lookup : JsObj → String → JsVal
  | [], _ => .undefined
  | (k', v) :: rest, k => if k' = k then v else lookup rest k

/-- Property write `o[k] = v`: an existing key keeps its place, a new one goes last. -/
def setProp : JsObj → String → JsVal → JsObj
  | [], k, v => [(k, v)]
  | (k', v') :: rest, k, v =>
      if k' = k then (k', v) :: rest else (k', v') :: setProp rest k v

/-- Names of the properties of an object. -/
def keys (o : JsObj) : List String := o.map Prod.fst

/-- Truthiness, as tested by `if (x)`, `x || y` and `x ? a : b`. -/
def truthy : JsVal → Bool
  | .undefined => false
  | .null => false
  | .bool b => b
  | .num n => n != 0
  | .str s => s != ""
  | .obj _ => true
  | .arr _ => true

/-- The operator `a || b`. -/
def jsOr (a b : JsVal) : JsVal := if truthy a then a else b

mutual
/-- String conversion performed by a template literal. -/
def toStr : JsVal → String
  | .undefined => "undefined"
  | .null => "null"
  | .bool true => "true"
  | .bool false => "false"
  | .num n => toString n
  | .str s => s
  | .obj _ => "[object Object]"
  | .arr items => joinItems items
/-- String conversion of an array: its items joined by commas, `undefined`
and `null` items rendered empty. -/
def joinItems : List JsVal → String
  | [] => ""
  | [.undefined] => ""
  | [.null] => ""
  | [v] => toStr v
  | .undefined :: rest => "," ++ joinItems rest
  | .null :: rest => "," ++ joinItems rest
  | v :: rest => toStr v ++ "," ++ joinItems rest
end

/-- Read `v.k` on a value known not to be `undefined` or `null`; the names read
by the client (`status`, `data`, `error`, `message`, ...) are not defined on
primitives, so only objects yield a value. -/
def prop : JsVal → String → JsVal
  | .obj o, k => lookup o k
  | _, _ => .undefined

/-- Optional chaining `v?.k`. -/
def optChain : JsVal → String → JsVal
  | .undefined, _ => .undefined
  | .null, _ => .undefined
  | v, k => prop v k

/-- Strict equality `v === n` against a number literal. -/
def strictEqNum : JsVal → Int → Bool
  | .num m, n => m == n
  | _, _ => false

/-- Strict equality `v === s` against a string literal. -/
def strictEqStr : JsVal → String → Bool
  | .str t, s => t == s
  | _, _ => false

/-! ## Browser state touched by the client -/

/-- The part of the browser the client reads and writes: local storage, the
current pathname, and the assignments made to `window.location.href`
(oldest first). -/
structure Browser where
  localStorage : List (String × String)
  pathname : String
  hrefAssignments : List String

/-- Storage read `localStorage.getItem(k)`: the stored string, or `null`. -/
def getItem : List (String × String) → String → JsVal
  | [], _ => .null
  | (k', v) :: rest, k => if k' = k then .str v else getItem rest k

/-- Storage removal `localStorage.removeItem(k)`. -/
def removeItem (store : List (String × String)) (k : String) : List (String × String) :=
  store.filter (fun kv => kv.1 != k)

/-! ## Response interceptor (api.js, lines 28-82) -/

/-- Outcome of the `switch (status)` and the network branch: the value bound to
`errorMessage` together with the browser state after the side effects. -/
def mapError (error : JsObj) (w : Browser) : JsVal × Browser :=
  let errorMessage := JsVal.str "Ha ocurrido un error inesperado"
  if truthy (lookup error "response") then
    let status := prop (lookup error "response") "status"
    let data := prop (lookup error "response") "data"
    if strictEqNum status 400 then
      (jsOr (optChain data "error") (.str "Datos inválidos"), w)
    else if strictEqNum status 401 then
      let w1 := { w with localStorage := removeItem w.localStorage "token" }
      let w2 := { w1 with localStorage := removeItem w1.localStorage "user" }
      let w3 := if w2.pathname ≠ "/login"
        then { w2 with hrefAssignments := w2.hrefAssignments ++ ["/login"] }
        else w2
      (.str "Sesión expirada. Por favor, inicia sesión nuevamente", w3)
    else if strictEqNum status 403 then
      (.str "No tienes permisos para realizar esta acción", w)
    else if strictEqNum status 404 then
      (.str "Recurso no encontrado", w)
    else if strictEqNum status 422 then
      (jsOr (optChain data "error") (.str "Datos de entrada inválidos"), w)
    else if strictEqNum status 500 then
      (.str "Error interno del servidor. Inténtalo más tarde", w)
    else
      (jsOr (optChain data "error") (.str ("Error " ++ toStr status)), w)
  else if truthy (lookup error "request") then
    if strictEqStr (lookup error "code") "ECONNABORTED" then
      (.str "La solicitud ha tardado demasiado. Verifica tu conexión", w)
    else
      (.str "Error de conexión. Verifica tu conexión a internet", w)
  else
    (errorMessage, w)

/-- The object `{ ...error, userMessage: errorMessage, originalError: error }`. -/
def enhancedError (error : JsObj) (errorMessage : JsVal) : JsObj :=
  setProp (setProp error "userMessage" errorMessage) "originalError" (.obj error)

/-- The error handler of the response interceptor: `.error r` is
`Promise.reject(r)`, `.ok v` would be a resolved value. -/
def onResponseError (error : JsObj) (w : Browser) : Except JsVal JsVal × Browser :=
  let r := mapError error w
  (.error (.obj (enhancedError error r.1)), r.2)

/-- The `userMessage` carried by the settled result of the error handler. -/
def userMessageOf : Except JsVal JsVal → JsVal
  | .error v => prop v "userMessage"
  | .ok v => prop v "userMessage"

/-- The failure carries a server response: `error.response` is truthy. -/
def hasResponse (error : JsObj) : Bool := truthy (lookup error "response")

/-- The failure carries a request: `error.request` is truthy. -/
def hasRequest (error : JsObj) : Bool := truthy (lookup error "request")

/-- The `status` destructured from `error.response`. -/
def statusOf (error : JsObj) : JsVal := prop (lookup error "response") "status"

/-- The `data` destructured from `error.response`: the response body. -/
def bodyOf (error : JsObj) : JsVal := prop (lookup error "response") "data"

/-- The expression `data?.error`: the error field of the response body. -/
def serverError (error : JsObj) : JsVal := optChain (bodyOf error) "error"

/-- A failed response with the given status and body, as axios reports it. -/
def httpFailure (status : Int) (body : JsVal) : JsObj :=
  [("message", .str "Request failed"),
   ("response", .obj [("status", .num status), ("data", body)]),
   ("request", .obj [])]

/-- A browser holding a session, on the dashboard view. -/
def loggedIn : Browser :=
  { localStorage := [("token", "abc"), ("user", "ana"), ("theme", "dark")],
    pathname := "/dashboard",
    hrefAssignments := [] }

/-! ## Request interceptor (api.js, lines 14-25) -/

/-- An outgoing request configuration as handed to the request interceptor:
its `headers` object (axios always supplies one) and its other fields
(`url`, `method`, `data`, ...). -/
structure RequestConfig where
  headers : JsObj
  others : JsObj

/-- The request interceptor: reads the token and attaches it when truthy. -/
def onRequest (w : Browser) (config : RequestConfig) : RequestConfig :=
  let token := getItem w.localStorage "token"
  if truthy token then
    { config with
      headers := setProp config.headers "Authorization" (.str ("Bearer " ++ toStr token)) }
  else
    config

/-! ## Resource convenience functions (api.js, lines 84-390) -/

/-- HTTP verbs used by the client. -/
inductive Verb where
  | GET | POST | PUT | DELETE

/-- One call on the client instance: `api.get(path)`, `api.post(path, body)`,
`api.put(path, body)` or `api.delete(path)`; `body` is `undefined` when the
call passes none. -/
structure HttpCall where
  verb : Verb
  path : String
  body : JsVal

/-- The configured client instance as the convenience functions see it: an
awaited call either yields the response object or throws the rejection. -/
abbrev Api := HttpCall → Except JsVal JsVal

/-- What one invocation of a convenience function does: the HTTP calls it
issued, the lines it wrote with `console.error`, and its settled result
(`.ok` is the returned value, `.error` the thrown one). -/
structure Outcome where
  calls : List HttpCall
  console : List (String × JsVal)
  result : Except JsVal JsVal

/-- The TypeError raised by a property read on `undefined` or `null`, as
property reads see it (the message text is engine specific). -/
def typeError : JsVal :=
  .obj [("name", .str "TypeError"), ("message", .str "Cannot read properties")]

/-- Plain member access `v.k`, which throws on `undefined` and `null`. -/
def member : JsVal → String → Except JsVal JsVal
  | .undefined, _ => .error typeError
  | .null, _ => .error typeError
  | v, k => .ok (prop v k)

/-- The expression `res.data.data`. -/
def resDataData (res : JsVal) : Except JsVal JsVal :=
  (member res "data").bind (fun body => member body "data")

/-- The expression `res.data`. -/
def resData (res : JsVal) : Except JsVal JsVal :=
  member res "data"

/-- The object literal `{ error: "Error de conexión" }`. -/
def connectionError : JsVal := .obj [("error", .str "Error de conexión")]

/-- The `catch (err)` block shared by the functions: the optional
`console.error(label, err.response?.data || err.message)` followed by
`throw err.response?.data || { error: "Error de conexión" }`. -/
def catchBlock (label : Option String) (err : JsVal) :
    List (String × JsVal) × Except JsVal JsVal :=
  match member err "response" with
  | .error e => ([], .error e)
  | .ok response =>
    let body := optChain response "data"
    let console := match label with
      | some l => [(l, jsOr body (prop err "message"))]
      | none => []
    (console, .error (jsOr body connectionError))

/-- The body every convenience function shares: `try { const res = await
<call>; return <unwrap res>; } catch (err) { ... }`. -/
def resourceCall (api : Api) (call : HttpCall) (unwrap : JsVal → Except JsVal JsVal)
    (label : Option String) : Outcome :=
  match (api call).bind unwrap with
  | .ok v => { calls := [call], console := [], result := .ok v }
  | .error err =>
    { calls := [call], console := (catchBlock label err).1, result := (catchBlock label err).2 }

def login (api : Api) (email password : JsVal) : Outcome :=
  resourceCall api ⟨.POST, "/auth/login", .obj [("email", email), ("password", password)]⟩
    resDataData (some "Error en login:")

def getApartments (api : Api) : Outcome :=
  resourceCall api ⟨.GET, "/apartments", .undefined⟩
    resDataData (some "Error al obtener apartamentos:")

def createApartment (api : Api) (apartmentData : JsVal) : Outcome :=
  resourceCall api ⟨.POST, "/apartments", apartmentData⟩
    resDataData (some "Error al crear apartamento:")

def updateApartment (api : Api) (id apartmentData : JsVal) : Outcome :=
  resourceCall api ⟨.PUT, "/apartments/" ++ toStr id, apartmentData⟩
    resDataData (some "Error al actualizar apartamento:")

def deleteApartment (api : Api) (id : JsVal) : Outcome :=
  resourceCall api ⟨.DELETE, "/apartments/" ++ toStr id, .undefined⟩
    resData (some "Error al eliminar apartamento:")

def createPayment (api : Api) (paymentData : JsVal) : Outcome :=
  resourceCall api ⟨.POST, "/payments", paymentData⟩ resDataData none

def getPayments (api : Api) (month : JsVal) : Outcome :=
  resourceCall api
    ⟨.GET, "/payments" ++ (if truthy month then "?month=" ++ toStr month else ""), .undefined⟩
    resDataData none

def registerPaymentAsPaid (api : Api) (paymentId : JsVal) : Outcome :=
  resourceCall api ⟨.PUT, "/payments/" ++ toStr paymentId ++ "/pay", .obj []⟩ resDataData none

def updatePayment (api : Api) (id paymentData : JsVal) : Outcome :=
  resourceCall api ⟨.PUT, "/payments/" ++ toStr id, paymentData⟩
    resDataData (some "Error al actualizar pago:")

def deletePayment (api : Api) (id : JsVal) : Outcome :=
  resourceCall api ⟨.DELETE, "/payments/" ++ toStr id, .undefined⟩
    resData (some "Error al eliminar pago:")

def getUsers (api : Api) : Outcome :=
  resourceCall api ⟨.GET, "/users", .undefined⟩ resDataData (some "Error al obtener usuarios:")

def getEvents (api : Api) : Outcome :=
  resourceCall api ⟨.GET, "/maintenance", .undefined⟩
    resDataData (some "Error al obtener eventos:")

def createEvent (api : Api) (payload : JsVal) : Outcome :=
  resourceCall api ⟨.POST, "/maintenance", payload⟩ resDataData (some "Error al crear evento:")

def deleteEvent (api : Api) (id : JsVal) : Outcome :=
  resourceCall api ⟨.DELETE, "/maintenance/" ++ toStr id, .undefined⟩
    resData (some "Error al eliminar evento:")

def updateEvent (api : Api) (id payload : JsVal) : Outcome :=
  resourceCall api ⟨.PUT, "/maintenance/" ++ toStr id, payload⟩
    resDataData (some "Error al actualizar evento:")

def createUser (api : Api) (userData : JsVal) : Outcome :=
  resourceCall api ⟨.POST, "/users", userData⟩ resDataData (some "Error al crear usuario:")

def getNotifications (api : Api) : Outcome :=
  resourceCall api ⟨.GET, "/notifications", .undefined⟩
    resDataData (some "Error al obtener notificaciones:")

def createNotification (api : Api) (notificationData : JsVal) : Outcome :=
  resourceCall api ⟨.POST, "/notifications", notificationData⟩
    resDataData (some "Error al crear notificación:")

def updateNotification (api : Api) (id notificationData : JsVal) : Outcome :=
  resourceCall api ⟨.PUT, "/notifications/" ++ toStr id, notificationData⟩
    resDataData (some "Error al actualizar notificación:")

def deleteNotification (api : Api) (id : JsVal) : Outcome :=
  resourceCall api ⟨.DELETE, "/notifications/" ++ toStr id, .undefined⟩
    resData (some "Error al eliminar notificación:")

def getDamageReports (api : Api) : Outcome :=
  resourceCall api ⟨.GET, "/damage-reports/my-reports", .undefined⟩
    resDataData (some "Error al obtener reportes de daños:")

def createDamageReport (api : Api) (reportData : JsVal) : Outcome :=
  resourceCall api ⟨.POST, "/damage-reports", reportData⟩
    resDataData (some "Error al crear reporte de daño:")

def updateDamageReport (api : Api) (id reportData : JsVal) : Outcome :=
  resourceCall api ⟨.PUT, "/damage-reports/" ++ toStr id, reportData⟩
    resDataData (some "Error al actualizar reporte de daño:")

def deleteDamageReport (api : Api) (id : JsVal) : Outcome :=
  resourceCall api ⟨.DELETE, "/damage-reports/" ++ toStr id, .undefined⟩
    resData (some "Error al eliminar reporte de daño:")

def getAirbnbGuests (api : Api) : Outcome :=
  resourceCall api ⟨.GET, "/airbnb/guests", .undefined⟩
    resDataData (some "Error al obtener huéspedes Airbnb:")

def getActiveAirbnbGuests (api : Api) : Outcome :=
  resourceCall api ⟨.GET, "/airbnb/guests/active", .undefined⟩
    resDataData (some "Error al obtener huéspedes activos:")

def createAirbnbGuest (api : Api) (guestData : JsVal) : Outcome :=
  resourceCall api ⟨.POST, "/airbnb/guests", guestData⟩
    resDataData (some "Error al crear huésped Airbnb:")

def updateAirbnbGuest (api : Api) (id guestData : JsVal) : Outcome :=
  resourceCall api ⟨.PUT, "/airbnb/guests/" ++ toStr id, guestData⟩
    resDataData (some "Error al actualizar huésped Airbnb:")

def checkinAirbnbGuest (api : Api) (id : JsVal) : Outcome :=
  resourceCall api ⟨.PUT, "/airbnb/guests/" ++ toStr id ++ "/checkin", .undefined⟩
    resDataData (some "Error al hacer check-in:")

def deleteAirbnbGuest (api : Api) (id : JsVal) : Outcome :=
  resourceCall api ⟨.DELETE, "/airbnb/guests/" ++ toStr id, .undefined⟩
    resData (some "Error al eliminar huésped Airbnb:")

/-- An invocation of one of the exported convenience functions with its
arguments. -/
inductive Invocation where
  | login (email password : JsVal)
  | getApartments
  | createApartment (apartmentData : JsVal)
  | updateApartment (id apartmentData : JsVal)
  | deleteApartment (id : JsVal)
  | createPayment (paymentData : JsVal)
  | getPayments (month : JsVal)
  | registerPaymentAsPaid (paymentId : JsVal)
  | updatePayment (id paymentData : JsVal)
  | deletePayment (id : JsVal)
  | getUsers
  | getEvents
  | createEvent (payload : JsVal)
  | deleteEvent (id : JsVal)
  | updateEvent (id payload : JsVal)
  | createUser (userData : JsVal)
  | getNotifications
  | createNotification (notificationData : JsVal)
  | updateNotification (id notificationData : JsVal)
  | deleteNotification (id : JsVal)
  | getDamageReports
  | createDamageReport (reportData : JsVal)
  | updateDamageReport (id reportData : JsVal)
  | deleteDamageReport (id : JsVal)
  | getAirbnbGuests
  | getActiveAirbnbGuests
  | createAirbnbGuest (guestData : JsVal)
  | updateAirbnbGuest (id guestData : JsVal)
  | checkinAirbnbGuest (id : JsVal)
  | deleteAirbnbGuest (id : JsVal)

/-- Runs the named convenience function on the client instance. -/
def invoke (api : Api) : Invocation → Outcome
  | .login email password => login api email password
  | .getApartments => getApartments api
  | .createApartment d => createApartment api d
  | .updateApartment id d => updateApartment api id d
  | .deleteApartment id => deleteApartment api id
  | .createPayment d => createPayment api d
  | .getPayments month => getPayments api month
  | .registerPaymentAsPaid id => registerPaymentAsPaid api id
  | .updatePayment id d => updatePayment api id d
  | .deletePayment id => deletePayment api id
  | .getUsers => getUsers api
  | .getEvents => getEvents api
  | .createEvent d => createEvent api d
  | .deleteEvent id => deleteEvent api id
  | .updateEvent id d => updateEvent api id d
  | .createUser d => createUser api d
  | .getNotifications => getNotifications api
  | .createNotification d => createNotification api d
  | .updateNotification id d => updateNotification api id d
  | .deleteNotification id => deleteNotification api id
  | .getDamageReports => getDamageReports api
  | .createDamageReport d => createDamageReport api d
  | .updateDamageReport id d => updateDamageReport api id d
  | .deleteDamageReport id => deleteDamageReport api id
  | .getAirbnbGuests => getAirbnbGuests api
  | .getActiveAirbnbGuests => getActiveAirbnbGuests api
  | .createAirbnbGuest d => createAirbnbGuest api d
  | .updateAirbnbGuest id d => updateAirbnbGuest api id d
  | .checkinAirbnbGuest id => checkinAirbnbGuest api id
  | .deleteAirbnbGuest id => deleteAirbnbGuest api id

/-- The six `delete*` functions. -/
def Invocation.isDelete : Invocation → Bool
  | .deleteApartment _ => true
  | .deletePayment _ => true
  | .deleteEvent _ => true
  | .deleteNotification _ => true
  | .deleteDamageReport _ => true
  | .deleteAirbnbGuest _ => true
  | _ => false

/-- The exported convenience functions. -/
inductive Fn where
  | login | getApartments | createApartment | updateApartment | deleteApartment
  | createPayment | getPayments | registerPaymentAsPaid | updatePayment | deletePayment
  | getUsers | getEvents | createEvent | deleteEvent | updateEvent | createUser
  | getNotifications | createNotification | updateNotification | deleteNotification
  | getDamageReports | createDamageReport | updateDamageReport | deleteDamageReport
  | getAirbnbGuests | getActiveAirbnbGuests | createAirbnbGuest | updateAirbnbGuest
  | checkinAirbnbGuest | deleteAirbnbGuest
  deriving DecidableEq

/-- The function an invocation runs. -/
def Invocation.fn : Invocation → Fn
  | .login _ _ => .login
  | .getApartments => .getApartments
  | .createApartment _ => .createApartment
  | .updateApartment _ _ => .updateApartment
  | .deleteApartment _ => .deleteApartment
  | .createPayment _ => .createPayment
  | .getPayments _ => .getPayments
  | .registerPaymentAsPaid _ => .registerPaymentAsPaid
  | .updatePayment _ _ => .updatePayment
  | .deletePayment _ => .deletePayment
  | .getUsers => .getUsers
  | .getEvents => .getEvents
  | .createEvent _ => .createEvent
  | .deleteEvent _ => .deleteEvent
  | .updateEvent _ _ => .updateEvent
  | .createUser _ => .createUser
  | .getNotifications => .getNotifications
  | .createNotification _ => .createNotification
  | .updateNotification _ _ => .updateNotification
  | .deleteNotification _ => .deleteNotification
  | .getDamageReports => .getDamageReports
  | .createDamageReport _ => .createDamageReport
  | .updateDamageReport _ _ => .updateDamageReport
  | .deleteDamageReport _ => .deleteDamageReport
  | .getAirbnbGuests => .getAirbnbGuests
  | .getActiveAirbnbGuests => .getActiveAirbnbGuests
  | .createAirbnbGuest _ => .createAirbnbGuest
  | .updateAirbnbGuest _ _ => .updateAirbnbGuest
  | .checkinAirbnbGuest _ => .checkinAirbnbGuest
  | .deleteAirbnbGuest _ => .deleteAirbnbGuest

/-- The `id` (or `paymentId`) argument of an invocation, when the function
takes one. -/
def Invocation.idArg : Invocation → Option JsVal
  | .updateApartment id _ => some id
  | .deleteApartment id => some id
  | .registerPaymentAsPaid paymentId => some paymentId
  | .updatePayment id _ => some id
  | .deletePayment id => some id
  | .deleteEvent id => some id
  | .updateEvent id _ => some id
  | .updateNotification id _ => some id
  | .deleteNotification id => some id
  | .updateDamageReport id _ => some id
  | .deleteDamageReport id => some id
  | .updateAirbnbGuest id _ => some id
  | .checkinAirbnbGuest id => some id
  | .deleteAirbnbGuest id => some id
  | _ => none

/-- The argument of an invocation that enters the request path: the id, or
for getPayments the month. -/
def Invocation.pathArg : Invocation → Option JsVal
  | .getPayments month => some month
  | inv => inv.idArg

/-- A client instance on which every call succeeds with the given body. -/
def respondingWith (body : JsVal) : Api :=
  fun _ => .ok (.obj [("data", body), ("status", .num 200)])

/-! ## The client instance (api.js, lines 3-11 and 28-29) -/

/-- The constant `API_BASE_URL`, given the value of
`process.env.REACT_APP_API_URL` (`undefined` when the variable is not set). -/
def API_BASE_URL (envValue : JsVal) : JsVal :=
  jsOr envValue (.str "http://localhost:3001/api")

/-- The configuration object passed to `axios.create`. -/
def createConfig (envValue : JsVal) : JsObj :=
  [("baseURL", API_BASE_URL envValue),
   ("headers", .obj [("Content-Type", .str "application/json")]),
   ("timeout", .num 10000)]

/-- The success handler of the response interceptor, `(response) => response`,
with the browser state it leaves behind. -/
def onResponseSuccess (response : JsVal) (w : Browser) : Except JsVal JsVal × Browser :=
  (.ok response, w)

/-- What the network answers below the interceptors: a response object, or a
failure object (an axios error). -/
abbrev Transport := HttpCall → Except JsObj JsVal

/-- The exported client instance: the transport with the response interceptor
installed, as the convenience functions and the pages call it. -/
def client (net : Transport) (w : Browser) : Api := fun call =>
  match net call with
  | .ok response => (onResponseSuccess response w).1
  | .error error => (onResponseError error w).1

/-- The expression `err.response?.data` on a failure object. -/
def responseData (error : JsObj) : JsVal :=
  optChain (lookup error "response") "data"

/-- A transport on which every call fails with the given failure. -/
def failingWith (error : JsObj) : Transport := fun _ => .error error

/-! ## Pages: shared pieces

Each page is a React component; its `useState` cells are the fields of a
`State` structure (the cell `open` is the field `dialogOpen`).  A handler is
run to completion: the fetches a handler starts without awaiting them write
disjoint cells, so their effects are composed in the order they are started. -/

/-- What page code leaves behind: the component state, the HTTP calls issued
on the client instance (oldest first) and the lines written with
`console.error`. -/
structure Run (σ : Type) where
  state : σ
  calls : List HttpCall
  console : List (String × JsVal)

/-- The array method call `xs.filter(Boolean)`; a value without a `filter`
method raises a TypeError. -/
def filterBoolean : JsVal → Except JsVal JsVal
  | .arr items => .ok (.arr (items.filter truthy))
  | _ => .error typeError

/-- A fetched payload that is a list of records: an array whose items are
objects. -/
def isRecordList : JsVal → Bool
  | .arr items => items.all (fun item => match item with
      | .obj _ => true
      | _ => false)
  | _ => false

/-! ## Airbnb page (pages/Airbnb/Airbnb.js) -/

namespace Airbnb

/-- The `useState` cells of the Airbnb component. -/
structure State where
  guests : JsVal
  activeGuests : JsVal
  apartments : JsVal
  loading : Bool
  dialogOpen : Bool
  editing : JsVal
  searchTerm : String
  statusFilter : String
  formData : JsVal

/-- The blank guest form. -/
def blankForm : JsVal :=
  .obj [("apartmentId", .str ""), ("guestName", .str ""), ("guestCedula", .str ""),
        ("numberOfGuests", .num 1), ("checkInDate", .str ""), ("checkOutDate", .str "")]

/-- The initial values of the cells. -/
def initial : State :=
  { guests := .arr [], activeGuests := .arr [], apartments := .arr [], loading := true,
    dialogOpen := false, editing := .null, searchTerm := "", statusFilter := "",
    formData := blankForm }

def fetchGuests (api : Api) (r : Run State) : Run State :=
  let call : HttpCall := ⟨.GET, "/airbnb/guests", .undefined⟩
  match ((api call).bind resDataData).bind (fun data => filterBoolean (jsOr data (.arr []))) with
  | .ok guests =>
    { r with state := { r.state with guests := guests }, calls := r.calls ++ [call] }
  | .error error =>
    { state := { r.state with guests := .arr [] },
      calls := r.calls ++ [call],
      console := r.console ++ [("Error fetching guests:", error)] }

def fetchActiveGuests (api : Api) (r : Run State) : Run State :=
  let call : HttpCall := ⟨.GET, "/airbnb/guests/active", .undefined⟩
  match (api call).bind resDataData with
  | .ok data =>
    { r with
      state := { r.state with activeGuests := jsOr data (.arr []), loading := false },
      calls := r.calls ++ [call] }
  | .error error =>
    { state := { r.state with loading := false },
      calls := r.calls ++ [call],
      console := r.console ++ [("Error fetching active guests:", error)] }

def fetchApartments (api : Api) (r : Run State) : Run State :=
  let call : HttpCall := ⟨.GET, "/apartments", .undefined⟩
  match (api call).bind resDataData with
  | .ok data =>
    { r with state := { r.state with apartments := jsOr data (.arr []) },
             calls := r.calls ++ [call] }
  | .error error =>
    { r with calls := r.calls ++ [call],
             console := r.console ++ [("Error fetching apartments:", error)] }

/-- The call awaited by `handleCreate`: an update of the guest being edited,
or a creation. -/
def submitCall (s : State) : HttpCall :=
  if truthy s.editing then
    ⟨.PUT, "/airbnb/guests/" ++ toStr (prop s.editing "id"), s.formData⟩
  else
    ⟨.POST, "/airbnb/guests", s.formData⟩

def handleCreate (api : Api) (r : Run State) : Run State :=
  match api (submitCall r.state) with
  | .ok _ =>
    fetchActiveGuests api (fetchGuests api
      { r with
        state := { r.state with dialogOpen := false, editing := .null, formData := blankForm },
        calls := r.calls ++ [submitCall r.state] })
  | .error error =>
    { r with calls := r.calls ++ [submitCall r.state],
             console := r.console ++ [("Error creating/updating guest:", error)] }

def handleCheckIn (id : JsVal) (api : Api) (r : Run State) : Run State :=
  let call : HttpCall := ⟨.PUT, "/airbnb/guests/" ++ toStr id ++ "/checkin", .undefined⟩
  match api call with
  | .ok _ => fetchActiveGuests api (fetchGuests api { r with calls := r.calls ++ [call] })
  | .error error =>
    { r with calls := r.calls ++ [call],
             console := r.console ++ [("Error checking in guest:", error)] }

/-- The deletion handler; `confirmed` is the answer given to `window.confirm`. -/
def handleDelete (confirmed : Bool) (id : JsVal) (api : Api) (r : Run State) : Run State :=
  if confirmed then
    let call : HttpCall := ⟨.DELETE, "/airbnb/guests/" ++ toStr id, .undefined⟩
    match api call with
    | .ok _ => fetchActiveGuests api (fetchGuests api { r with calls := r.calls ++ [call] })
    | .error error =>
      { r with calls := r.calls ++ [call],
               console := r.console ++ [("Error deleting guest:", error)] }
  else
    r

end Airbnb

/-! ## Damage reports page (pages/DamageReports/DamageReports.js) -/

namespace DamageReports

/-- The `useState` cells of the DamageReports component. -/
structure State where
  reports : JsVal
  apartments : JsVal
  loading : Bool
  dialogOpen : Bool
  editing : JsVal
  searchTerm : String
  statusFilter : String
  menuAnchorEl : JsVal
  selectedReportId : JsVal
  formData : JsVal

/-- The blank report form. -/
def blankForm : JsVal :=
  .obj [("title", .str ""), ("description", .str ""), ("priority", .str "low"),
        ("apartmentId", .str "")]

/-- The initial values of the cells. -/
def initial : State :=
  { reports := .arr [], apartments := .arr [], loading := true, dialogOpen := false,
    editing := .null, searchTerm := "", statusFilter := "", menuAnchorEl := .null,
    selectedReportId := .null, formData := blankForm }

def fetchApartments (api : Api) (r : Run State) : Run State :=
  let call : HttpCall := ⟨.GET, "/apartments", .undefined⟩
  match (api call).bind resDataData with
  | .ok data =>
    { r with state := { r.state with apartments := jsOr data (.arr []) },
             calls := r.calls ++ [call] }
  | .error error =>
    { r with calls := r.calls ++ [call],
             console := r.console ++ [("Error fetching apartments:", error)] }

def fetchReports (api : Api) (r : Run State) : Run State :=
  let call : HttpCall := ⟨.GET, "/damage-reports/my-reports", .undefined⟩
  match (api call).bind resDataData with
  | .ok data =>
    { r with
      state := { r.state with reports := jsOr data (.arr []), loading := false },
      calls := r.calls ++ [call] }
  | .error error =>
    { state := { r.state with loading := false },
      calls := r.calls ++ [call],
      console := r.console ++ [("Error fetching damage reports:", error)] }

/-- The call awaited by `handleCreate`: an update of the report being edited,
or a creation. -/
def submitCall (s : State) : HttpCall :=
  if truthy s.editing then
    ⟨.PUT, "/damage-reports/" ++ toStr (prop s.editing "id"), s.formData⟩
  else
    ⟨.POST, "/damage-reports", s.formData⟩

def handleCreate (api : Api) (r : Run State) : Run State :=
  match api (submitCall r.state) with
  | .ok _ =>
    fetchReports api
      { r with
        state := { r.state with dialogOpen := false, editing := .null, formData := blankForm },
        calls := r.calls ++ [submitCall r.state] }
  | .error error =>
    { r with calls := r.calls ++ [submitCall r.state],
             console := r.console ++ [("Error creating/updating damage report:", error)] }

/-- The deletion handler; `confirmed` is the answer given to `window.confirm`. -/
def handleDelete (confirmed : Bool) (id : JsVal) (api : Api) (r : Run State) : Run State :=
  if confirmed then
    let call : HttpCall := ⟨.DELETE, "/damage-reports/" ++ toStr id, .undefined⟩
    match api call with
    | .ok _ => fetchReports api { r with calls := r.calls ++ [call] }
    | .error error =>
      { r with calls := r.calls ++ [call],
               console := r.console ++ [("Error deleting damage report:", error)] }
  else
    r

def handleStatusChange (id newStatus : JsVal) (api : Api) (r : Run State) : Run State :=
  let call : HttpCall :=
    ⟨.PUT, "/damage-reports/" ++ toStr id, .obj [("status", newStatus)]⟩
  match api call with
  | .ok _ => fetchReports api { r with calls := r.calls ++ [call] }
  | .error error =>
    { r with calls := r.calls ++ [call],
             console := r.console ++ [("Error updating damage report status:", error)] }

end DamageReports

/-! ## String methods used by the pages -/

/-- Whether the characters `needle` occur in a list of characters as a
contiguous run. -/
def includesChars (needle : List Char) : List Char → Bool
  | [] => needle.isEmpty
  | c :: rest => needle.isPrefixOf (c :: rest) || includesChars needle rest

/-- The method call `s.includes(needle)`. -/
def includes (s needle : String) : Bool :=
  includesChars needle.data s.data

/-- The characters removed by `String.prototype.trim`: ECMAScript white space
and line terminators. -/
def isTrimmed (c : Char) : Bool :=
  c.toNat = 0x9 || c.toNat = 0xA || c.toNat = 0xB || c.toNat = 0xC || c.toNat = 0xD ||
  c.toNat = 0x20 || c.toNat = 0xA0 || c.toNat = 0x1680 ||
  (0x2000 ≤ c.toNat && c.toNat ≤ 0x200A) || c.toNat = 0x2028 || c.toNat = 0x2029 ||
  c.toNat = 0x202F || c.toNat = 0x205F || c.toNat = 0x3000 || c.toNat = 0xFEFF

/-- The method call `s.trim()`. -/
def trim (s : String) : String :=
  ⟨((s.data.dropWhile isTrimmed).reverse.dropWhile isTrimmed).reverse⟩

/-- The method call `v.toLowerCase()` on an arbitrary value: only strings have
the method, any other value raises a TypeError.  The case mapping of the
JavaScript engine is the parameter `toLowerCase`. -/
def callToLowerCase (toLowerCase : String → String) : JsVal → Except JsVal String
  | .str s => .ok (toLowerCase s)
  | _ => .error typeError

/-- The method call `items.filter(callback)` with a callback that may raise. -/
def filterArray (callback : JsVal → Except JsVal Bool) : List JsVal → Except JsVal (List JsVal)
  | [] => .ok []
  | item :: rest =>
    match callback item with
    | .error e => .error e
    | .ok keep =>
      match filterArray callback rest with
      | .error e => .error e
      | .ok kept => .ok (if keep then item :: kept else kept)

/-! ## Maintenance page (pages/Maintenance/Maintenance.js) -/

namespace Maintenance

/-- The `useState` cells of the Maintenance component. -/
structure State where
  maintenances : JsVal
  loading : Bool
  dialogOpen : Bool
  searchTerm : String
  error : JsVal
  formData : JsVal

/-- The blank event form. -/
def blankForm : JsVal :=
  .obj [("title", .str ""), ("description", .str ""), ("area", .str ""),
        ("scheduledDate", .str ""), ("type", .str "mantenimiento")]

/-- The initial values of the cells. -/
def initial : State :=
  { maintenances := .arr [], loading := true, dialogOpen := false, searchTerm := "",
    error := .null, formData := blankForm }

def fetchMaintenances (api : Api) (r : Run State) : Run State :=
  let call : HttpCall := ⟨.GET, "/maintenance", .undefined⟩
  match (api call).bind resDataData with
  | .ok data =>
    { r with
      state := { r.state with
        error := .null, maintenances := jsOr data (.arr []), loading := false },
      calls := r.calls ++ [call] }
  | .error error =>
    match member error "userMessage" with
    | .ok userMessage =>
      { state := { r.state with
          error := jsOr userMessage (.str "Error al cargar eventos"),
          maintenances := .arr [], loading := false },
        calls := r.calls ++ [call],
        console := r.console ++ [("Error fetching maintenances:", error)] }
    | .error _ =>
      { state := { r.state with error := .null, loading := false },
        calls := r.calls ++ [call],
        console := r.console ++ [("Error fetching maintenances:", error)] }

def handleCreate (api : Api) (r : Run State) : Run State :=
  let call : HttpCall := ⟨.POST, "/maintenance", r.state.formData⟩
  match api call with
  | .ok _ =>
    fetchMaintenances api
      { r with state := { r.state with dialogOpen := false, formData := blankForm },
               calls := r.calls ++ [call] }
  | .error error =>
    match member error "userMessage" with
    | .ok userMessage =>
      { state := { r.state with error := jsOr userMessage (.str "Error al crear evento") },
        calls := r.calls ++ [call],
        console := r.console ++ [("Error creating maintenance:", error)] }
    | .error _ =>
      { r with calls := r.calls ++ [call],
               console := r.console ++ [("Error creating maintenance:", error)] }

/-- The icon components returned by `getIcon`. -/
inductive Icon where
  | Build | Celebration | People | Event
  deriving DecidableEq

/-- The test `type && type.toLowerCase().includes(needle)` as used in an `if`:
a falsy type fails it without calling the method. -/
def typeIncludes (toLowerCase : String → String) (type : JsVal) (needle : String) :
    Except JsVal Bool :=
  if truthy type then
    (callToLowerCase toLowerCase type).map (fun lowered => includes lowered needle)
  else
    .ok false

def getIcon (toLowerCase : String → String) (type : JsVal) : Except JsVal Icon := do
  if ← typeIncludes toLowerCase type "manten" then return .Build
  if ← typeIncludes toLowerCase type "fiesta" then return .Celebration
  if ← typeIncludes toLowerCase type "reuni" then return .People
  return .Event

def getIconColor (toLowerCase : String → String) (type : JsVal) : Except JsVal String := do
  if ← typeIncludes toLowerCase type "manten" then return "#ee9738"
  if ← typeIncludes toLowerCase type "fiesta" then return "#5c3eee"
  if ← typeIncludes toLowerCase type "reuni" then return "#3eb063"
  return "#2586b8"

end Maintenance

/-! ## Payments page (pages/Payments/Payments.js) -/

namespace Payments

/-- The `useState` cells of the Payments component. -/
structure State where
  payments : JsVal
  loading : Bool
  dialogOpen : Bool
  searchTerm : String
  users : JsVal
  apartments : JsVal
  error : JsVal
  formData : JsVal

/-- The blank payment form. -/
def blankForm : JsVal :=
  .obj [("userId", .str ""), ("apartmentId", .str ""), ("amount", .str ""),
        ("concept", .str "Pago de administración"), ("dueDate", .str "")]

/-- The initial values of the cells. -/
def initial : State :=
  { payments := .arr [], loading := true, dialogOpen := false, searchTerm := "",
    users := .arr [], apartments := .arr [], error := .null, formData := blankForm }

def fetchUsers (api : Api) (r : Run State) : Run State :=
  match (getUsers api).result with
  | .ok data =>
    { state := { r.state with users := jsOr data (.arr []) },
      calls := r.calls ++ (getUsers api).calls,
      console := r.console ++ (getUsers api).console }
  | .error error =>
    { state := { r.state with users := .arr [] },
      calls := r.calls ++ (getUsers api).calls,
      console := r.console ++ (getUsers api).console ++ [("Error fetching users:", error)] }

def fetchApartments (api : Api) (r : Run State) : Run State :=
  match (getApartments api).result with
  | .ok data =>
    { state := { r.state with apartments := jsOr data (.arr []) },
      calls := r.calls ++ (getApartments api).calls,
      console := r.console ++ (getApartments api).console }
  | .error error =>
    { state := { r.state with apartments := .arr [] },
      calls := r.calls ++ (getApartments api).calls,
      console := r.console ++ (getApartments api).console
        ++ [("Error fetching apartments:", error)] }

def fetchPayments (api : Api) (r : Run State) : Run State :=
  match (getPayments api .undefined).result with
  | .ok data =>
    { state := { r.state with
        error := .null, payments := jsOr data (.arr []), loading := false },
      calls := r.calls ++ (getPayments api .undefined).calls,
      console := r.console ++ (getPayments api .undefined).console }
  | .error error =>
    match member error "userMessage" with
    | .ok userMessage =>
      { state := { r.state with
          error := jsOr userMessage (.str "Error al cargar pagos"),
          payments := .arr [], loading := false },
        calls := r.calls ++ (getPayments api .undefined).calls,
        console := r.console ++ (getPayments api .undefined).console
          ++ [("Error fetching payments:", error)] }
    | .error _ =>
      { state := { r.state with error := .null, loading := false },
        calls := r.calls ++ (getPayments api .undefined).calls,
        console := r.console ++ (getPayments api .undefined).console
          ++ [("Error fetching payments:", error)] }

def handleCreate (api : Api) (r : Run State) : Run State :=
  match (createPayment api r.state.formData).result with
  | .ok _ =>
    fetchPayments api
      { state := { r.state with dialogOpen := false, formData := blankForm },
        calls := r.calls ++ (createPayment api r.state.formData).calls,
        console := r.console ++ (createPayment api r.state.formData).console }
  | .error error =>
    match member error "userMessage" with
    | .ok userMessage =>
      { state := { r.state with error := jsOr userMessage (.str "Error al crear pago") },
        calls := r.calls ++ (createPayment api r.state.formData).calls,
        console := r.console ++ (createPayment api r.state.formData).console
          ++ [("Error creating payment:", error)] }
    | .error _ =>
      { r with
        calls := r.calls ++ (createPayment api r.state.formData).calls,
        console := r.console ++ (createPayment api r.state.formData).console
          ++ [("Error creating payment:", error)] }

def handleMarkAsPaid (id : JsVal) (api : Api) (r : Run State) : Run State :=
  match (registerPaymentAsPaid api id).result with
  | .ok _ =>
    fetchPayments api
      { r with
        calls := r.calls ++ (registerPaymentAsPaid api id).calls,
        console := r.console ++ (registerPaymentAsPaid api id).console }
  | .error error =>
    match member error "userMessage" with
    | .ok userMessage =>
      { state := { r.state with error := jsOr userMessage (.str "Error al registrar pago") },
        calls := r.calls ++ (registerPaymentAsPaid api id).calls,
        console := r.console ++ (registerPaymentAsPaid api id).console
          ++ [("Error marking payment as paid:", error)] }
    | .error _ =>
      { r with
        calls := r.calls ++ (registerPaymentAsPaid api id).calls,
        console := r.console ++ (registerPaymentAsPaid api id).console
          ++ [("Error marking payment as paid:", error)] }

/-- The banner: the text shown by the error Alert (`none` when `error` is
falsy and no Alert is rendered) and the handler bound to its 'Reintentar'
button. -/
def banner (s : State) : Option (JsVal × (Api → Run State → Run State)) :=
  if truthy s.error then some (s.error, fetchPayments) else none

end Payments

/-! ## Users page (pages/Users/Users.js) -/

namespace Users

/-- The `useState` cells of the Users component. -/
structure State where
  users : JsVal
  loading : Bool
  dialogOpen : Bool
  searchTerm : String
  filter : String
  error : JsVal
  formData : JsVal

/-- The blank resident form. -/
def blankForm : JsVal :=
  .obj [("name", .str ""), ("email", .str ""), ("cedula", .str ""), ("phone", .str ""),
        ("password", .str ""), ("role", .str "tenant")]

/-- The initial values of the cells. -/
def initial : State :=
  { users := .arr [], loading := true, dialogOpen := false, searchTerm := "",
    filter := "all", error := .null, formData := blankForm }

def fetchUsers (api : Api) (r : Run State) : Run State :=
  let call : HttpCall := ⟨.GET, "/users", .undefined⟩
  match (api call).bind resDataData with
  | .ok data =>
    { r with
      state := { r.state with error := .null, users := jsOr data (.arr []), loading := false },
      calls := r.calls ++ [call] }
  | .error error =>
    match member error "userMessage" with
    | .ok userMessage =>
      { state := { r.state with
          error := jsOr userMessage (.str "Error al cargar usuarios"),
          users := .arr [], loading := false },
        calls := r.calls ++ [call],
        console := r.console ++ [("Error fetching users:", error)] }
    | .error _ =>
      { state := { r.state with error := .null, loading := false },
        calls := r.calls ++ [call],
        console := r.console ++ [("Error fetching users:", error)] }

def handleCreate (api : Api) (r : Run State) : Run State :=
  let call : HttpCall := ⟨.POST, "/users", r.state.formData⟩
  match api call with
  | .ok _ =>
    fetchUsers api
      { r with state := { r.state with dialogOpen := false, formData := blankForm },
               calls := r.calls ++ [call] }
  | .error error =>
    match member error "userMessage" with
    | .ok userMessage =>
      { state := { r.state with error := jsOr userMessage (.str "Error al crear usuario") },
        calls := r.calls ++ [call],
        console := r.console ++ [("Error creating user:", error)] }
    | .error _ =>
      { r with calls := r.calls ++ [call],
               console := r.console ++ [("Error creating user:", error)] }

/-- The callback of `users.filter`: whether the user passes the role filter
and the search; it raises where the JavaScript does. -/
def matchesUser (toLowerCase : String → String) (filter searchTerm : String)
    (user : JsVal) : Except JsVal Bool :=
  (if filter == "all" then .ok true
   else (member user "role").map (fun role => strictEqStr role filter)).bind
  fun matchesRole =>
    ((member user "name").bind (callToLowerCase toLowerCase)).bind
    fun lowered =>
      .ok (matchesRole && includes lowered (toLowerCase (trim searchTerm)))

/-- The derived list `filteredUsers` for the items of the `users` array. -/
def filteredUsers (toLowerCase : String → String) (users : List JsVal)
    (filter searchTerm : String) : Except JsVal (List JsVal) :=
  filterArray (matchesUser toLowerCase filter searchTerm) users

end Users

/-! ## Pages: list filters -/

/-- The operator `a || b` on expressions that may raise: `b` is evaluated only
when `a` is falsy. -/
def orElse (a b : Except JsVal JsVal) : Except JsVal JsVal :=
  a.bind (fun x => if truthy x then .ok x else b)

/-- The chain `v?.toLowerCase().includes(term)`: `undefined` when `v` is
`undefined` or `null`, a TypeError when `v` is not a string. -/
def lowerIncludes (toLowerCase : String → String) (v : JsVal) (term : String) :
    Except JsVal JsVal :=
  match v with
  | .undefined => .ok .undefined
  | .null => .ok .undefined
  | .str s => .ok (.bool (includes (toLowerCase s) term))
  | _ => .error typeError

/-- The chain `v?.toString().includes(term)`: `undefined` when `v` is
`undefined` or `null`. -/
def toStringIncludes (v : JsVal) (term : String) : JsVal :=
  match v with
  | .undefined => .undefined
  | .null => .undefined
  | w => .bool (includes (toStr w) term)

/-- The callback of `guests.filter` (Airbnb.js, lines 149-155). -/
def Airbnb.matchesGuest (toLowerCase : String → String) (searchTerm statusFilter : String)
    (guest : JsVal) : Except JsVal Bool :=
  (orElse
    (orElse
      ((member guest "guestName").bind
        (fun v => lowerIncludes toLowerCase v (toLowerCase searchTerm)))
      ((member guest "guestCedula").bind
        (fun v => lowerIncludes toLowerCase v (toLowerCase searchTerm))))
    ((member guest "apartment").bind
      (fun apartment => .ok (toStringIncludes (optChain apartment "number") searchTerm)))).bind
  fun matchesSearch =>
    .ok (truthy matchesSearch &&
      (statusFilter == "" || strictEqStr (prop guest "status") statusFilter))

/-- The derived list `filteredGuests` for the items of the `guests` array. -/
def Airbnb.filteredGuests (toLowerCase : String → String) (guests : List JsVal)
    (searchTerm statusFilter : String) : Except JsVal (List JsVal) :=
  filterArray (Airbnb.matchesGuest toLowerCase searchTerm statusFilter) guests

/-- The callback of `reports.filter` (DamageReports.js, lines 121-127). -/
def DamageReports.matchesReport (toLowerCase : String → String)
    (searchTerm statusFilter : String) (report : JsVal) : Except JsVal Bool :=
  (orElse
    (orElse
      ((member report "title").bind
        (fun v => lowerIncludes toLowerCase v (toLowerCase searchTerm)))
      ((member report "description").bind
        (fun v => lowerIncludes toLowerCase v (toLowerCase searchTerm))))
    ((member report "apartment").bind
      (fun apartment => .ok (toStringIncludes (optChain apartment "number") searchTerm)))).bind
  fun matchesSearch =>
    .ok (truthy matchesSearch &&
      (statusFilter == "" || strictEqStr (prop report "status") statusFilter))

/-- The derived list `filteredReports` for the items of the `reports` array. -/
def DamageReports.filteredReports (toLowerCase : String → String) (reports : List JsVal)
    (searchTerm statusFilter : String) : Except JsVal (List JsVal) :=
  filterArray (DamageReports.matchesReport toLowerCase searchTerm statusFilter) reports

/-- The callback of `maintenances.filter` (Maintenance.js, lines 77-82). -/
def Maintenance.matchesMaintenance (toLowerCase : String → String) (searchTerm : String)
    (maintenance : JsVal) : Except JsVal Bool :=
  (orElse
    (orElse
      ((member maintenance "title").bind
        (fun v => lowerIncludes toLowerCase v (toLowerCase searchTerm)))
      ((member maintenance "description").bind
        (fun v => lowerIncludes toLowerCase v (toLowerCase searchTerm))))
    ((member maintenance "area").bind
      (fun v => lowerIncludes toLowerCase v (toLowerCase searchTerm)))).bind
  fun matchesSearch => .ok (truthy matchesSearch)

/-- The derived list `filteredMaintenances` for the items of the
`maintenances` array. -/
def Maintenance.filteredMaintenances (toLowerCase : String → String)
    (maintenances : List JsVal) (searchTerm : String) : Except JsVal (List JsVal) :=
  filterArray (Maintenance.matchesMaintenance toLowerCase searchTerm) maintenances

/-- The callback of `payments.filter` (Payments.js, lines 113-120). -/
def Payments.matchesPayment (toLowerCase : String → String) (searchTerm : String)
    (payment : JsVal) : Except JsVal Bool :=
  (orElse
    (orElse
      (orElse
        (orElse
          ((member payment "concept").bind
            (fun v => lowerIncludes toLowerCase v (toLowerCase searchTerm)))
          ((member payment "user").bind
            (fun user =>
              lowerIncludes toLowerCase (optChain user "name") (toLowerCase searchTerm))))
        ((member payment "user").bind
          (fun user =>
            lowerIncludes toLowerCase (optChain user "email") (toLowerCase searchTerm))))
      ((member payment "apartment").bind
        (fun apartment =>
          lowerIncludes toLowerCase (optChain apartment "number") (toLowerCase searchTerm))))
    ((member payment "apartment").bind
      (fun apartment =>
        lowerIncludes toLowerCase (optChain apartment "tower") (toLowerCase searchTerm)))).bind
  fun matchesSearch => .ok (truthy matchesSearch)

/-- The derived list `filteredPayments` for the items of the `payments` array. -/
def Payments.filteredPayments (toLowerCase : String → String) (payments : List JsVal)
    (searchTerm : String) : Except JsVal (List JsVal) :=
  filterArray (Payments.matchesPayment toLowerCase searchTerm) payments

/-! ## Pages: presentation helpers -/

def Payments.getStatusColor (status : JsVal) : String :=
  if strictEqStr status "paid" then "#39c079"
  else if strictEqStr status "pending" then "#eac73f"
  else if strictEqStr status "late" then "#ed4b4b"
  else "#4a6373"

def Payments.getStatusLabel (status : JsVal) : JsVal :=
  if strictEqStr status "paid" then .str "AL DÍA"
  else if strictEqStr status "pending" then .str "PENDIENTE"
  else if strictEqStr status "late" then .str "MORA"
  else status

def Payments.getStatusIcon (status : JsVal) : String :=
  if strictEqStr status "paid" then "checkmark-circle"
  else if strictEqStr status "pending" then "alert-circle"
  else if strictEqStr status "late" then "close-circle"
  else "help-circle"

/-- Whether the card of a payment renders the 'Registrar pago' button: the
guard `payment.status === 'pending' || payment.status === 'late'`
(Payments.js, line 263). -/
def Payments.offersRegistrarPago (payment : JsVal) : Bool :=
  strictEqStr (prop payment "status") "pending" || strictEqStr (prop payment "status") "late"

/-- The type part of the caption of an event card: `maintenance.type ?
maintenance.type.toUpperCase() : "MANTENIMIENTO"` (Maintenance.js, line 204).
The case mapping of the JavaScript engine is the parameter `toUpperCase`. -/
def Maintenance.captionType (toUpperCase : String → String) (maintenance : JsVal) :
    Except JsVal String :=
  if truthy (prop maintenance "type") then
    match prop maintenance "type" with
    | .str s => .ok (toUpperCase s)
    | _ => .error typeError
  else
    .ok "MANTENIMIENTO"

/-! ## Airbnb page: the dialog (Airbnb.js, lines 114-125, 347-353, 368, 431-432) -/

/-- The expression `s.split('T')[0]` on a string: the part before the first
'T', the whole string when there is none. -/
def beforeFirstT (s : String) : String :=
  ⟨s.data.takeWhile (fun c => c != 'T')⟩

/-- The expression `v.split('T')[0]` on an arbitrary value: a TypeError unless
`v` is a string. -/
def splitAtT : JsVal → Except JsVal JsVal
  | .str s => .ok (.str (beforeFirstT s))
  | _ => .error typeError

/-- The object literal passed to `setFormData` by `handleEdit`. -/
def Airbnb.editForm (guest : JsVal) : Except JsVal JsVal :=
  (member guest "apartmentId").bind fun apartmentId =>
  (splitAtT (prop guest "checkInDate")).bind fun checkInDate =>
  (splitAtT (prop guest "checkOutDate")).bind fun checkOutDate =>
    .ok (.obj [("apartmentId", jsOr apartmentId (.str "")),
               ("guestName", prop guest "guestName"),
               ("guestCedula", prop guest "guestCedula"),
               ("numberOfGuests", prop guest "numberOfGuests"),
               ("checkInDate", checkInDate),
               ("checkOutDate", checkOutDate)])

/-- The handler `handleEdit`: `setEditing(guest)` comes first, so it takes
effect even when building the form raises. -/
def Airbnb.handleEdit (guest : JsVal) (s : Airbnb.State) : Airbnb.State :=
  match Airbnb.editForm guest with
  | .ok form => { s with editing := guest, formData := form, dialogOpen := true }
  | .error _ => { s with editing := guest }

/-- The object `{ ...formData, [field]: value }` built by the form inputs. -/
def withField (formData : JsVal) (field : String) (value : JsVal) : JsVal :=
  match formData with
  | .obj o => .obj (setProp o field value)
  | _ => .obj [(field, value)]

/-- The user actions and effects of the Airbnb component. -/
inductive Airbnb.Action where
  | mount
  | registrarHuesped
  | closeDialog
  | cancel
  | submit
  | edit (guest : JsVal)
  | checkIn (id : JsVal)
  | remove (confirmed : Bool) (id : JsVal)
  | changeSearchTerm (value : String)
  | changeStatusFilter (value : String)
  | changeField (field : String) (value : JsVal)

/-- What each action runs: `mount` is the `useEffect`, `registrarHuesped` the
'Registrar Huésped' button, `closeDialog` the Dialog `onClose`, `cancel` the
'Cancelar' button, `submit` the dialog's submit button (`handleCreate`),
`edit`, `checkIn` and `remove` the row buttons, the `change*` actions the
inputs (`changeField` with the value the input handler stores). -/
def Airbnb.act (api : Api) : Airbnb.Action → Run Airbnb.State → Run Airbnb.State
  | .mount, r => Airbnb.fetchApartments api (Airbnb.fetchActiveGuests api (Airbnb.fetchGuests api r))
  | .registrarHuesped, r => { r with state := { r.state with dialogOpen := true } }
  | .closeDialog, r => { r with state := { r.state with dialogOpen := false } }
  | .cancel, r => { r with state := { r.state with dialogOpen := false } }
  | .submit, r => Airbnb.handleCreate api r
  | .edit guest, r => { r with state := Airbnb.handleEdit guest r.state }
  | .checkIn id, r => Airbnb.handleCheckIn id api r
  | .remove confirmed id, r => Airbnb.handleDelete confirmed id api r
  | .changeSearchTerm value, r => { r with state := { r.state with searchTerm := value } }
  | .changeStatusFilter value, r => { r with state := { r.state with statusFilter := value } }
  | .changeField field value, r =>
    { r with state := { r.state with formData := withField r.state.formData field value } }

/-- Runs a sequence of actions of the Airbnb component, first to last. -/
def Airbnb.runAll (api : Api) (actions : List Airbnb.Action) (r : Run Airbnb.State) :
    Run Airbnb.State :=
  actions.foldl (fun run action => Airbnb.act api action run) r

/-! ## Predicates used to state the page properties -/

/-- The colour the classification of event types pairs with each icon. -/
def Maintenance.classColor : Maintenance.Icon → String
  | .Build => "#ee9738"
  | .Celebration => "#5c3eee"
  | .People => "#3eb063"
  | .Event => "#2586b8"

/-- A user record with a string `name`. -/
def Users.hasName : JsVal → Bool
  | .obj o => match lookup o "name" with
    | .str _ => true
    | _ => false
  | _ => false

/-- The selection condition of the users filter in words: the role equals the
filter (any role under 'all') and the lower-cased name contains the trimmed,
lower-cased search term. -/
def Users.selected (toLowerCase : String → String) (filter searchTerm : String)
    (user : JsVal) : Bool :=
  (filter == "all" || strictEqStr (prop user "role") filter) &&
  match prop user "name" with
  | .str name => includes (toLowerCase name) (toLowerCase (trim searchTerm))
  | _ => false

/-- A case mapping that lowers the ASCII letters only; on ASCII text it is the
`toLowerCase` of JavaScript. -/
def asciiLowerCase (s : String) : String :=
  ⟨s.data.map Char.toLower⟩

/-- What a list fetch keeps of a fetched payload, in words: the payload
itself when it is truthy, the empty list otherwise. -/
def storedList (payload : JsVal) : JsVal :=
  if truthy payload then payload else .arr []

/-- What the guest list keeps of a fetched payload, in words: the truthy items
of the payload when it is an array, and the empty list for every other
payload (a falsy one, or one without a `filter` method). -/
def Airbnb.storedGuests (payload : JsVal) : JsVal :=
  match payload with
  | .arr items => .arr (items.filter truthy)
  | _ => .arr []

/-- The fetch-fresh property of a mutation handler.  `mutation` is the awaited
mutation, `fetched` the awaited list fetch, `list` the affected list cell and
`stored` what the page keeps of a fetched payload.  When the mutation
succeeds the handler issues the mutation call followed by the fetch calls;
the cell then holds `stored payload`, whatever it held before, which is the
payload itself when the payload is a list of records; when the mutation
fails, the cell is untouched and the mutation call is the only call issued. -/
def FetchFresh {σ : Type} (handler : Api → Run σ → Run σ) (list : σ → JsVal)
    (mutation : Api → σ → Except JsVal JsVal) (fetched : Api → Except JsVal JsVal)
    (mutationCall : σ → HttpCall) (fetchCalls : List HttpCall)
    (stored : JsVal → JsVal) : Prop :=
  ∀ (api : Api) (r : Run σ),
    (∀ v, mutation api r.state = .ok v →
        (handler api r).calls = r.calls ++ mutationCall r.state :: fetchCalls) ∧
    (∀ v payload, mutation api r.state = .ok v → fetched api = .ok payload →
      isRecordList payload = true →
        list (handler api r).state = payload) ∧
    (∀ v payload, mutation api r.state = .ok v → fetched api = .ok payload →
        list (handler api r).state = stored payload) ∧
    (∀ e, mutation api r.state = .error e →
        list (handler api r).state = list r.state ∧
        (handler api r).calls = r.calls ++ [mutationCall r.state])

/-- The awaited expression `(await api.get(path)).data.data` of a page fetch. -/
def fetchedFrom (path : String) (api : Api) : Except JsVal JsVal :=
  (api ⟨.GET, path, .undefined⟩).bind resDataData

/-- A backend stub: every GET answers with the given payload under `data`,
every other verb succeeds with an empty body. -/
def backendWith (payload : JsVal) : Api := fun call =>
  match call.verb with
  | .GET => .ok (.obj [("data", .obj [("success", .bool true), ("data", payload)])])
  | _ => .ok (.obj [("data", .obj [("success", .bool true)])])

/-- A backend stub that rejects every call with the given reason. -/
def rejectingWith (reason : JsVal) : Api := fun _ => .error reason

/-! ## Predicates used to state the filter properties -/

/-- A value that is a string, or missing (`undefined` or `null`). -/
def textOrMissing : JsVal → Bool
  | .str _ => true
  | .undefined => true
  | .null => true
  | _ => false

/-- A value that is present: neither `undefined` nor `null`. -/
def isDefined : JsVal → Bool
  | .undefined => false
  | .null => false
  | _ => true

/-- A text field is present and, lower-cased, contains the lower-cased search
term. -/
def containsLower (toLowerCase : String → String) (field : JsVal) (term : String) : Bool :=
  match field with
  | .str s => includes (toLowerCase s) (toLowerCase term)
  | _ => false

/-- A field is present and, rendered as a string, contains the search term as
typed. -/
def renderedContains (field : JsVal) (term : String) : Bool :=
  match field with
  | .undefined => false
  | .null => false
  | w => includes (toStr w) term

/-- A guest record whose searched text fields are strings or missing. -/
def Airbnb.textFieldsOk (guest : JsVal) : Bool :=
  isDefined guest && textOrMissing (prop guest "guestName") &&
    textOrMissing (prop guest "guestCedula")

/-- The selection condition of the guests filter in words. -/
def Airbnb.selected (toLowerCase : String → String) (searchTerm statusFilter : String)
    (guest : JsVal) : Bool :=
  (statusFilter == "" || strictEqStr (prop guest "status") statusFilter) &&
  (containsLower toLowerCase (prop guest "guestName") searchTerm ||
   containsLower toLowerCase (prop guest "guestCedula") searchTerm ||
   renderedContains (optChain (prop guest "apartment") "number") searchTerm)

/-- A report record whose searched text fields are strings or missing. -/
def DamageReports.textFieldsOk (report : JsVal) : Bool :=
  isDefined report && textOrMissing (prop report "title") &&
    textOrMissing (prop report "description")

/-- The selection condition of the reports filter in words. -/
def DamageReports.selected (toLowerCase : String → String)
    (searchTerm statusFilter : String) (report : JsVal) : Bool :=
  (statusFilter == "" || strictEqStr (prop report "status") statusFilter) &&
  (containsLower toLowerCase (prop report "title") searchTerm ||
   containsLower toLowerCase (prop report "description") searchTerm ||
   renderedContains (optChain (prop report "apartment") "number") searchTerm)

/-- An event record whose searched text fields are strings or missing. -/
def Maintenance.textFieldsOk (maintenance : JsVal) : Bool :=
  isDefined maintenance && textOrMissing (prop maintenance "title") &&
    textOrMissing (prop maintenance "description") &&
    textOrMissing (prop maintenance "area")

/-- A payment record whose five searched fields are strings or missing. -/
def Payments.textFieldsOk (payment : JsVal) : Bool :=
  isDefined payment && textOrMissing (prop payment "concept") &&
    textOrMissing (optChain (prop payment "user") "name") &&
    textOrMissing (optChain (prop payment "user") "email") &&
    textOrMissing (optChain (prop payment "apartment") "number") &&
    textOrMissing (optChain (prop payment "apartment") "tower")

/-- The selection condition of the payments filter in words: at least one of
concept, user.name, user.email, apartment.number, apartment.tower,
lower-cased, contains the lower-cased search term. -/
def Payments.selected (toLowerCase : String → String) (searchTerm : String)
    (payment : JsVal) : Bool :=
  containsLower toLowerCase (prop payment "concept") searchTerm ||
  containsLower toLowerCase (optChain (prop payment "user") "name") searchTerm ||
  containsLower toLowerCase (optChain (prop payment "user") "email") searchTerm ||
  containsLower toLowerCase (optChain (prop payment "apartment") "number") searchTerm ||
  containsLower toLowerCase (optChain (prop payment "apartment") "tower") searchTerm

/-- A filter returned a list instead of raising. -/
def returnsList (result : Except JsVal (List JsVal)) : Bool :=
  match result with
  | .ok _ => true
  | .error _ => false

/-- A date in 'YYYY-MM-DD' form: ten characters, digits apart from the dashes
in the fifth and the eighth place. -/
def isDateForm (s : String) : Bool :=
  match s.data with
  | [y1, y2, y3, y4, d1, m1, m2, d2, a1, a2] =>
    y1.isDigit && y2.isDigit && y3.isDigit && y4.isDigit && d1 == '-' &&
    m1.isDigit && m2.isDigit && d2 == '-' && a1.isDigit && a2.isDigit
  | _ => false

/-- A guest row as the grid shows it, with ISO timestamps. -/
def sampleGuest (apartmentId : JsVal) : JsVal :=
  .obj [("id", .num 12), ("apartmentId", apartmentId), ("guestName", .str "Ana Ruiz"),
        ("guestCedula", .str "1032456789"), ("numberOfGuests", .num 2),
        ("checkInDate", .str "2024-05-01T15:00:00.000Z"),
        ("checkOutDate", .str "2024-05-04"), ("status", .str "pending")]

/-! ## Basic facts about objects and storage -/

theorem lookup_setProp (o : JsObj) (k k' : String) (v : JsVal) :
    lookup (setProp o k v) k' = if k = k' then v else lookup o k' := by
  induction o with
  | nil => simp [setProp, lookup]
  | cons hd tl ih =>
    obtain ⟨a, b⟩ := hd
    by_cases h : a = k
    · subst h
      by_cases h' : a = k' <;> simp [setProp, lookup, h']
    · by_cases h' : a = k'
      · subst h'
        have hk : ¬ k = a := fun e => h e.symm
        simp [setProp, lookup, h, hk]
      · simp [setProp, lookup, h, h', ih]

theorem keys_setProp (o : JsObj) (k : String) (v : JsVal) (k' : String)
    (hk : k' ∈ keys o) : k' ∈ keys (setProp o k v) := by
  induction o with
  | nil => simp [keys] at hk
  | cons hd tl ih =>
    obtain ⟨a, b⟩ := hd
    by_cases h : a = k
    · simpa [setProp, keys, h] using hk
    · simp only [keys, List.map_cons, List.mem_cons] at hk
      rcases hk with hk | hk
      · simp [setProp, keys, h, hk]
      · have := ih (by simpa [keys] using hk)
        simp only [keys] at this
        simp [setProp, keys, h, this]

theorem getItem_removeItem_self (store : List (String × String)) (k : String) :
    getItem (removeItem store k) k = .null := by
  induction store with
  | nil => simp [removeItem, getItem]
  | cons hd tl ih =>
    obtain ⟨a, b⟩ := hd
    by_cases h : a = k
    · simpa [removeItem, List.filter_cons, h] using ih
    · simpa [removeItem, List.filter_cons, h, getItem] using ih

theorem getItem_removeItem_ne (store : List (String × String)) (k k' : String)
    (hne : k' ≠ k) : getItem (removeItem store k) k' = getItem store k' := by
  induction store with
  | nil => simp [removeItem, getItem]
  | cons hd tl ih =>
    obtain ⟨a, b⟩ := hd
    simp only [removeItem] at ih
    by_cases h : a = k
    · subst h
      have h' : ¬ a = k' := fun e => hne e.symm
      simp [removeItem, List.filter_cons, getItem, h', ih]
    · by_cases h' : a = k'
      · subst h'
        simp [removeItem, List.filter_cons, h, getItem]
      · simp [removeItem, List.filter_cons, h, getItem, h', ih]

theorem strictEqNum_iff (v : JsVal) (n : Int) : strictEqNum v n = true ↔ v = .num n := by
  cases v <;> simp [strictEqNum]

theorem strictEqStr_iff (v : JsVal) (s : String) : strictEqStr v s = true ↔ v = .str s := by
  cases v <;> simp [strictEqStr]

theorem userMessageOf_onResponseError (error : JsObj) (w : Browser) :
    userMessageOf (onResponseError error w).1 = (mapError error w).1 := by
  simp [userMessageOf, onResponseError, enhancedError, prop, lookup_setProp]

theorem resourceCall_calls (api : Api) (call : HttpCall)
    (unwrap : JsVal → Except JsVal JsVal) (label : Option String) :
    (resourceCall api call unwrap label).calls = [call] := by
  unfold resourceCall
  split <;> rfl

theorem resourceCall_resDataData (api : Api) (call : HttpCall) (label : Option String)
    (res body : JsObj) (hcall : api call = .ok (.obj res))
    (hbody : lookup res "data" = .obj body) :
    (resourceCall api call resDataData label).result = .ok (lookup body "data") := by
  simp [resourceCall, hcall, resDataData, member, prop, hbody, Except.bind]

theorem resourceCall_resData (api : Api) (call : HttpCall) (label : Option String)
    (res : JsObj) (hcall : api call = .ok (.obj res)) :
    (resourceCall api call resData label).result = .ok (lookup res "data") := by
  simp [resourceCall, hcall, resData, member, prop, Except.bind]

theorem sizeOf_lookup_lt (o : JsObj) (k : String) :
    sizeOf (lookup o k) < sizeOf (JsVal.obj o) := by
  induction o with
  | nil => simp [lookup]
  | cons hd tl ih =>
    obtain ⟨a, b⟩ := hd
    simp only [lookup]
    split
    · simp
      omega
    · simp at ih ⊢
      omega

theorem sizeOf_prop_le (v : JsVal) (k : String) : sizeOf (prop v k) ≤ sizeOf v := by
  cases v with
  | obj o => exact Nat.le_of_lt (sizeOf_lookup_lt o k)
  | _ => simp [prop]

theorem sizeOf_optChain_le (v : JsVal) (k : String) : sizeOf (optChain v k) ≤ sizeOf v := by
  cases v with
  | undefined => simp [optChain]
  | null => simp [optChain]
  | bool b => exact sizeOf_prop_le (.bool b) k
  | num n => exact sizeOf_prop_le (.num n) k
  | str t => exact sizeOf_prop_le (.str t) k
  | obj o => exact sizeOf_prop_le (.obj o) k
  | arr l => exact sizeOf_prop_le (.arr l) k

theorem lookup_enhancedError (error : JsObj) (m : JsVal) (k : String)
    (h1 : k ≠ "userMessage") (h2 : k ≠ "originalError") :
    lookup (enhancedError error m) k = lookup error k := by
  simp [enhancedError, lookup_setProp, Ne.symm h1, Ne.symm h2]

theorem lookup_enhancedError_originalError (error : JsObj) (m : JsVal) :
    lookup (enhancedError error m) "originalError" = .obj error := by
  simp [enhancedError, lookup_setProp]

theorem responseData_ne_enhancedError (error : JsObj) (m : JsVal) :
    responseData error ≠ .obj (enhancedError error m) := by
  intro h
  have h1 : sizeOf (responseData error) < sizeOf (JsVal.obj error) :=
    Nat.lt_of_le_of_lt (sizeOf_optChain_le _ _) (sizeOf_lookup_lt error "response")
  have h2 : sizeOf (JsVal.obj error) < sizeOf (JsVal.obj (enhancedError error m)) := by
    have := sizeOf_lookup_lt (enhancedError error m) "originalError"
    rwa [lookup_enhancedError_originalError] at this
  rw [h] at h1
  omega

theorem connectionError_ne_enhancedError (error : JsObj) (m : JsVal) :
    connectionError ≠ .obj (enhancedError error m) := by
  intro h
  have h1 := lookup_enhancedError_originalError error m
  simp only [connectionError, JsVal.obj.injEq] at h
  rw [← h] at h1
  simp [lookup] at h1

theorem client_failure (net : Transport) (w : Browser) (call : HttpCall) (error : JsObj)
    (h : net call = .error error) :
    client net w call = .error (.obj (enhancedError error (mapError error w).1)) := by
  simp [client, h, onResponseError]

theorem catchBlock_enhanced (label : Option String) (error : JsObj) (m : JsVal) :
    (catchBlock label (.obj (enhancedError error m))).2
      = .error (jsOr (responseData error) connectionError) := by
  simp [catchBlock, member, prop, responseData, lookup_enhancedError]

theorem resourceCall_failure (api : Api) (call : HttpCall)
    (unwrap : JsVal → Except JsVal JsVal) (label : Option String) (err : JsVal)
    (h : api call = .error err) :
    (resourceCall api call unwrap label).result = (catchBlock label err).2 := by
  simp [resourceCall, h, Except.bind]

/-! ## Facts about the page fetches -/

theorem jsOr_recordList (payload : JsVal) (h : isRecordList payload = true) :
    jsOr payload (.arr []) = payload := by
  cases payload <;> simp [isRecordList] at h
  simp [jsOr, truthy]

theorem filterBoolean_recordList (payload : JsVal) (h : isRecordList payload = true) :
    filterBoolean (jsOr payload (.arr [])) = .ok payload := by
  rw [jsOr_recordList payload h]
  cases payload <;> simp [isRecordList] at h
  rename_i items
  simp only [filterBoolean, Except.ok.injEq, JsVal.arr.injEq]
  apply List.filter_eq_self.2
  intro item hitem
  have := h item hitem
  cases item <;> simp at this
  rfl

theorem Airbnb.fetchGuests_calls (api : Api) (r : Run Airbnb.State) :
    (Airbnb.fetchGuests api r).calls = r.calls ++ [⟨.GET, "/airbnb/guests", .undefined⟩] := by
  simp only [Airbnb.fetchGuests]
  split <;> rfl

theorem Airbnb.fetchGuests_activeGuests (api : Api) (r : Run Airbnb.State) :
    (Airbnb.fetchGuests api r).state.activeGuests = r.state.activeGuests := by
  simp only [Airbnb.fetchGuests]
  split <;> rfl

theorem Airbnb.fetchGuests_ok (api : Api) (r : Run Airbnb.State) (payload : JsVal)
    (hf : fetchedFrom "/airbnb/guests" api = .ok payload)
    (hp : isRecordList payload = true) :
    (Airbnb.fetchGuests api r).state.guests = payload := by
  simp only [fetchedFrom] at hf
  simp only [Airbnb.fetchGuests, hf]
  simp [Except.bind, filterBoolean_recordList payload hp]

theorem Airbnb.fetchActiveGuests_calls (api : Api) (r : Run Airbnb.State) :
    (Airbnb.fetchActiveGuests api r).calls
      = r.calls ++ [⟨.GET, "/airbnb/guests/active", .undefined⟩] := by
  simp only [Airbnb.fetchActiveGuests]
  split <;> rfl

theorem Airbnb.fetchActiveGuests_guests (api : Api) (r : Run Airbnb.State) :
    (Airbnb.fetchActiveGuests api r).state.guests = r.state.guests := by
  simp only [Airbnb.fetchActiveGuests]
  split <;> rfl

theorem Airbnb.fetchActiveGuests_ok (api : Api) (r : Run Airbnb.State) (payload : JsVal)
    (hf : fetchedFrom "/airbnb/guests/active" api = .ok payload)
    (hp : isRecordList payload = true) :
    (Airbnb.fetchActiveGuests api r).state.activeGuests = payload := by
  simp only [fetchedFrom] at hf
  simp only [Airbnb.fetchActiveGuests, hf, jsOr_recordList payload hp]

theorem DamageReports.fetchReports_calls (api : Api) (r : Run DamageReports.State) :
    (DamageReports.fetchReports api r).calls
      = r.calls ++ [⟨.GET, "/damage-reports/my-reports", .undefined⟩] := by
  simp only [DamageReports.fetchReports]
  split <;> rfl

theorem DamageReports.fetchReports_ok (api : Api) (r : Run DamageReports.State)
    (payload : JsVal)
    (hf : fetchedFrom "/damage-reports/my-reports" api = .ok payload)
    (hp : isRecordList payload = true) :
    (DamageReports.fetchReports api r).state.reports = payload := by
  simp only [fetchedFrom] at hf
  simp only [DamageReports.fetchReports, hf, jsOr_recordList payload hp]

theorem Maintenance.fetchMaintenances_calls (api : Api) (r : Run Maintenance.State) :
    (Maintenance.fetchMaintenances api r).calls
      = r.calls ++ [⟨.GET, "/maintenance", .undefined⟩] := by
  simp only [Maintenance.fetchMaintenances]
  split
  · rfl
  · split <;> rfl

theorem Maintenance.fetchMaintenances_ok (api : Api) (r : Run Maintenance.State)
    (payload : JsVal) (hf : fetchedFrom "/maintenance" api = .ok payload)
    (hp : isRecordList payload = true) :
    (Maintenance.fetchMaintenances api r).state.maintenances = payload := by
  simp only [fetchedFrom] at hf
  simp only [Maintenance.fetchMaintenances, hf, jsOr_recordList payload hp]

theorem Users.fetchUsers_calls (api : Api) (r : Run Users.State) :
    (Users.fetchUsers api r).calls = r.calls ++ [⟨.GET, "/users", .undefined⟩] := by
  simp only [Users.fetchUsers]
  split
  · rfl
  · split <;> rfl

theorem Users.fetchUsers_ok (api : Api) (r : Run Users.State) (payload : JsVal)
    (hf : fetchedFrom "/users" api = .ok payload) (hp : isRecordList payload = true) :
    (Users.fetchUsers api r).state.users = payload := by
  simp only [fetchedFrom] at hf
  simp only [Users.fetchUsers, hf, jsOr_recordList payload hp]

theorem getPayments_calls (api : Api) :
    (getPayments api .undefined).calls = [⟨.GET, "/payments", .undefined⟩] := by
  simp [getPayments, resourceCall_calls, truthy]

theorem Payments.fetchPayments_calls (api : Api) (r : Run Payments.State) :
    (Payments.fetchPayments api r).calls = r.calls ++ [⟨.GET, "/payments", .undefined⟩] := by
  simp only [Payments.fetchPayments]
  split
  · simp [getPayments_calls]
  · split <;> simp [getPayments_calls]

theorem Payments.fetchPayments_ok (api : Api) (r : Run Payments.State) (payload : JsVal)
    (hf : (getPayments api .undefined).result = .ok payload)
    (hp : isRecordList payload = true) :
    (Payments.fetchPayments api r).state.payments = payload := by
  simp [Payments.fetchPayments, hf, jsOr_recordList payload hp]

theorem storedList_eq_jsOr (payload : JsVal) : jsOr payload (.arr []) = storedList payload := rfl

theorem storedList_recordList (payload : JsVal) (h : isRecordList payload = true) :
    storedList payload = payload := by
  rw [← storedList_eq_jsOr]
  exact jsOr_recordList payload h

theorem Airbnb.storedGuests_eq (payload : JsVal) :
    (match filterBoolean (jsOr payload (.arr [])) with
      | .ok guests => guests
      | .error _ => .arr []) = Airbnb.storedGuests payload := by
  cases payload <;> try rfl
  · rename_i b
    cases b <;> rfl
  · rename_i n
    by_cases hn : n = 0
    · subst hn
      rfl
    · simp [jsOr, truthy, hn, filterBoolean, Airbnb.storedGuests]
  · rename_i t
    by_cases ht : t = ""
    · subst ht
      rfl
    · simp [jsOr, truthy, ht, filterBoolean, Airbnb.storedGuests]

theorem Airbnb.storedGuests_recordList (payload : JsVal) (h : isRecordList payload = true) :
    Airbnb.storedGuests payload = payload := by
  rw [← Airbnb.storedGuests_eq]
  simp only [filterBoolean_recordList payload h]

theorem Airbnb.fetchGuests_stored (api : Api) (r : Run Airbnb.State) (payload : JsVal)
    (hf : fetchedFrom "/airbnb/guests" api = .ok payload) :
    (Airbnb.fetchGuests api r).state.guests = Airbnb.storedGuests payload := by
  simp only [fetchedFrom] at hf
  rw [← Airbnb.storedGuests_eq]
  simp only [Airbnb.fetchGuests, hf]
  cases hb : filterBoolean (jsOr payload (.arr [])) <;> simp [Except.bind, hb]

theorem Airbnb.fetchActiveGuests_stored (api : Api) (r : Run Airbnb.State) (payload : JsVal)
    (hf : fetchedFrom "/airbnb/guests/active" api = .ok payload) :
    (Airbnb.fetchActiveGuests api r).state.activeGuests = storedList payload := by
  simp only [fetchedFrom] at hf
  simp only [Airbnb.fetchActiveGuests, hf, storedList_eq_jsOr]

theorem DamageReports.fetchReports_stored (api : Api) (r : Run DamageReports.State)
    (payload : JsVal)
    (hf : fetchedFrom "/damage-reports/my-reports" api = .ok payload) :
    (DamageReports.fetchReports api r).state.reports = storedList payload := by
  simp only [fetchedFrom] at hf
  simp only [DamageReports.fetchReports, hf, storedList_eq_jsOr]

theorem Maintenance.fetchMaintenances_stored (api : Api) (r : Run Maintenance.State)
    (payload : JsVal) (hf : fetchedFrom "/maintenance" api = .ok payload) :
    (Maintenance.fetchMaintenances api r).state.maintenances = storedList payload := by
  simp only [fetchedFrom] at hf
  simp only [Maintenance.fetchMaintenances, hf, storedList_eq_jsOr]

theorem Users.fetchUsers_stored (api : Api) (r : Run Users.State) (payload : JsVal)
    (hf : fetchedFrom "/users" api = .ok payload) :
    (Users.fetchUsers api r).state.users = storedList payload := by
  simp only [fetchedFrom] at hf
  simp only [Users.fetchUsers, hf, storedList_eq_jsOr]

theorem Payments.fetchPayments_stored (api : Api) (r : Run Payments.State) (payload : JsVal)
    (hf : (getPayments api .undefined).result = .ok payload) :
    (Payments.fetchPayments api r).state.payments = storedList payload := by
  simp [Payments.fetchPayments, hf, storedList_eq_jsOr]

theorem catchBlock_truthy (label : Option String) (err thrown : JsVal)
    (h : (catchBlock label err).2 = .error thrown) : truthy thrown = true := by
  unfold catchBlock at h
  split at h
  · simp only [Except.error.injEq] at h
    subst h
    rename_i e he
    cases err <;> simp [member] at he <;> subst he <;> rfl
  · simp only [Except.error.injEq] at h
    subst h
    simp only [jsOr]
    split
    · assumption
    · rfl

theorem resourceCall_error_truthy (api : Api) (call : HttpCall)
    (unwrap : JsVal → Except JsVal JsVal) (label : Option String) (thrown : JsVal)
    (h : (resourceCall api call unwrap label).result = .error thrown) :
    truthy thrown = true := by
  unfold resourceCall at h
  split at h
  · simp at h
  · exact catchBlock_truthy _ _ _ h

theorem member_of_truthy (v : JsVal) (k : String) (h : truthy v = true) :
    member v k = .ok (prop v k) := by
  cases v <;> simp [truthy] at h <;> rfl

theorem truthy_jsOr_str (v : JsVal) (s : String) (hs : s ≠ "") :
    truthy (jsOr v (.str s)) = true := by
  simp only [jsOr]
  split
  · assumption
  · simp [truthy, hs]

theorem filterArray_ok (callback : JsVal → Except JsVal Bool) (p : JsVal → Bool)
    (items : List JsVal) (h : ∀ item, item ∈ items → callback item = .ok (p item)) :
    filterArray callback items = .ok (items.filter p) := by
  induction items with
  | nil => rfl
  | cons hd tl ih =>
    have h1 := h hd (List.mem_cons_self _ _)
    have h2 := ih (fun item hi => h item (List.mem_cons_of_mem _ hi))
    simp only [filterArray, h1, h2, List.filter_cons]

theorem trim_of_all_trimmed (s : String) (h : ∀ c, c ∈ s.data → isTrimmed c = true) :
    trim s = "" := by
  have h1 : s.data.dropWhile isTrimmed = [] := List.dropWhile_eq_nil_iff.2 h
  simp only [trim, h1, List.reverse_nil, List.dropWhile_nil]

theorem includes_empty (s : String) : includes s "" = true := by
  simp only [includes]
  cases s.data <;> simp [includesChars]

theorem Maintenance.typeIncludes_str (toLowerCase : String → String) (s needle : String)
    (hs : s ≠ "") :
    Maintenance.typeIncludes toLowerCase (.str s) needle
      = .ok (includes (toLowerCase s) needle) := by
  simp [Maintenance.typeIncludes, truthy, hs, callToLowerCase, Functor.map, Except.map]

theorem Maintenance.typeIncludes_falsy (toLowerCase : String → String) (type : JsVal)
    (needle : String) (h : truthy type = false) :
    Maintenance.typeIncludes toLowerCase type needle = .ok false := by
  simp [Maintenance.typeIncludes, h]

theorem Maintenance.getIcon_str (toLowerCase : String → String) (s : String) (hs : s ≠ "") :
    Maintenance.getIcon toLowerCase (.str s) = .ok
      (if includes (toLowerCase s) "manten" then .Build
       else if includes (toLowerCase s) "fiesta" then .Celebration
       else if includes (toLowerCase s) "reuni" then .People
       else .Event) := by
  simp only [Maintenance.getIcon, Maintenance.typeIncludes_str _ _ _ hs, bind, Except.bind,
    pure, Except.pure]
  split_ifs <;> rfl

theorem Maintenance.getIconColor_str (toLowerCase : String → String) (s : String)
    (hs : s ≠ "") :
    Maintenance.getIconColor toLowerCase (.str s) = .ok
      (if includes (toLowerCase s) "manten" then "#ee9738"
       else if includes (toLowerCase s) "fiesta" then "#5c3eee"
       else if includes (toLowerCase s) "reuni" then "#3eb063"
       else "#2586b8") := by
  simp only [Maintenance.getIconColor, Maintenance.typeIncludes_str _ _ _ hs, bind,
    Except.bind, pure, Except.pure]
  split_ifs <;> rfl

theorem Maintenance.getIcon_falsy (toLowerCase : String → String) (type : JsVal)
    (h : truthy type = false) :
    Maintenance.getIcon toLowerCase type = .ok .Event ∧
    Maintenance.getIconColor toLowerCase type = .ok "#2586b8" := by
  constructor <;>
    simp [Maintenance.getIcon, Maintenance.getIconColor, Maintenance.typeIncludes_falsy _ _ _ h,
      bind, Except.bind, pure, Except.pure]

theorem Users.matchesUser_of_hasName (toLowerCase : String → String)
    (filter searchTerm : String) (user : JsVal) (h : Users.hasName user = true) :
    Users.matchesUser toLowerCase filter searchTerm user
      = .ok (Users.selected toLowerCase filter searchTerm user) := by
  cases user <;> simp [Users.hasName] at h
  rename_i o
  cases hn : lookup o "name" <;> simp [hn] at h
  rename_i name
  by_cases hf : filter = "all"
  · simp [Users.matchesUser, Users.selected, member, prop, hn, callToLowerCase, Except.bind,
      hf]
  · have hb : (filter == "all") = false := by simpa using hf
    simp [Users.matchesUser, Users.selected, member, prop, hn, callToLowerCase, Except.bind,
      hf, hb, Except.map]

/-! ## Facts about the list filters -/

theorem member_of_isDefined (v : JsVal) (k : String) (h : isDefined v = true) :
    member v k = .ok (prop v k) := by
  cases v <;> simp [isDefined] at h <;> rfl

theorem lowerIncludes_typed (toLowerCase : String → String) (v : JsVal) (term : String)
    (h : textOrMissing v = true) :
    ∃ x, lowerIncludes toLowerCase v (toLowerCase term) = .ok x ∧
      truthy x = containsLower toLowerCase v term := by
  cases v <;> simp [textOrMissing] at h
  · exact ⟨.undefined, rfl, rfl⟩
  · exact ⟨.undefined, rfl, rfl⟩
  · exact ⟨_, rfl, rfl⟩

theorem truthy_toStringIncludes (v : JsVal) (term : String) :
    truthy (toStringIncludes v term) = renderedContains v term := by
  cases v <;> rfl

theorem orElse_ok (x y : JsVal) (a b : Except JsVal JsVal) (ha : a = .ok x) (hb : b = .ok y) :
    ∃ z, orElse a b = .ok z ∧ truthy z = (truthy x || truthy y) := by
  subst ha hb
  by_cases hx : truthy x = true
  · exact ⟨x, by simp [orElse, Except.bind, hx], by simp [hx]⟩
  · exact ⟨y, by simp [orElse, Except.bind, hx], by simp [hx]⟩

theorem orElse_falsy (x : JsVal) (a b : Except JsVal JsVal) (ha : a = .ok x)
    (hx : truthy x = false) : orElse a b = b := by
  subst ha
  simp [orElse, Except.bind, hx]

theorem orElse_truthy (x : JsVal) (a b : Except JsVal JsVal) (ha : a = .ok x)
    (hx : truthy x = true) : orElse a b = .ok x := by
  subst ha
  simp [orElse, Except.bind, hx]

theorem filterArray_error (callback : JsVal → Except JsVal Bool) (items : List JsVal)
    (h : ∃ item, item ∈ items ∧ ∃ e, callback item = .error e) :
    ∃ e, filterArray callback items = .error e := by
  induction items with
  | nil =>
    obtain ⟨item, hi, _⟩ := h
    simp at hi
  | cons hd tl ih =>
    obtain ⟨item, hi, e, he⟩ := h
    cases hhd : callback hd with
    | error e' => exact ⟨e', by simp [filterArray, hhd]⟩
    | ok keep =>
      have hmem : item ∈ tl := by
        rcases List.mem_cons.1 hi with h1 | h1
        · subst h1
          rw [hhd] at he
          cases he
        · exact h1
      obtain ⟨e', he'⟩ := ih ⟨item, hmem, e, he⟩
      exact ⟨e', by simp [filterArray, hhd, he']⟩

theorem Airbnb.matchesGuest_typed (toLowerCase : String → String)
    (searchTerm statusFilter : String) (guest : JsVal)
    (h : Airbnb.textFieldsOk guest = true) :
    Airbnb.matchesGuest toLowerCase searchTerm statusFilter guest
      = .ok (Airbnb.selected toLowerCase searchTerm statusFilter guest) := by
  simp only [Airbnb.textFieldsOk, Bool.and_eq_true] at h
  obtain ⟨⟨hd, h1⟩, h2⟩ := h
  obtain ⟨x1, e1, t1⟩ := lowerIncludes_typed toLowerCase _ searchTerm h1
  obtain ⟨x2, e2, t2⟩ := lowerIncludes_typed toLowerCase _ searchTerm h2
  obtain ⟨z1, f1, u1⟩ := orElse_ok x1 x2
    ((member guest "guestName").bind
      (fun v => lowerIncludes toLowerCase v (toLowerCase searchTerm)))
    ((member guest "guestCedula").bind
      (fun v => lowerIncludes toLowerCase v (toLowerCase searchTerm)))
    (by rw [member_of_isDefined _ _ hd]; exact e1)
    (by rw [member_of_isDefined _ _ hd]; exact e2)
  obtain ⟨z2, f2, u2⟩ := orElse_ok z1
    (toStringIncludes (optChain (prop guest "apartment") "number") searchTerm) _
    ((member guest "apartment").bind
      (fun apartment => .ok (toStringIncludes (optChain apartment "number") searchTerm)))
    f1 (by rw [member_of_isDefined _ _ hd]; rfl)
  rw [Airbnb.matchesGuest, f2]
  simp only [Except.bind, Airbnb.selected, u2, u1, t1, t2, truthy_toStringIncludes,
    Except.ok.injEq]
  exact Bool.and_comm _ _

theorem DamageReports.matchesReport_typed (toLowerCase : String → String)
    (searchTerm statusFilter : String) (report : JsVal)
    (h : DamageReports.textFieldsOk report = true) :
    DamageReports.matchesReport toLowerCase searchTerm statusFilter report
      = .ok (DamageReports.selected toLowerCase searchTerm statusFilter report) := by
  simp only [DamageReports.textFieldsOk, Bool.and_eq_true] at h
  obtain ⟨⟨hd, h1⟩, h2⟩ := h
  obtain ⟨x1, e1, t1⟩ := lowerIncludes_typed toLowerCase _ searchTerm h1
  obtain ⟨x2, e2, t2⟩ := lowerIncludes_typed toLowerCase _ searchTerm h2
  obtain ⟨z1, f1, u1⟩ := orElse_ok x1 x2
    ((member report "title").bind
      (fun v => lowerIncludes toLowerCase v (toLowerCase searchTerm)))
    ((member report "description").bind
      (fun v => lowerIncludes toLowerCase v (toLowerCase searchTerm)))
    (by rw [member_of_isDefined _ _ hd]; exact e1)
    (by rw [member_of_isDefined _ _ hd]; exact e2)
  obtain ⟨z2, f2, u2⟩ := orElse_ok z1
    (toStringIncludes (optChain (prop report "apartment") "number") searchTerm) _
    ((member report "apartment").bind
      (fun apartment => .ok (toStringIncludes (optChain apartment "number") searchTerm)))
    f1 (by rw [member_of_isDefined _ _ hd]; rfl)
  rw [DamageReports.matchesReport, f2]
  simp only [Except.bind, DamageReports.selected, u2, u1, t1, t2, truthy_toStringIncludes,
    Except.ok.injEq]
  exact Bool.and_comm _ _

theorem Payments.matchesPayment_typed (toLowerCase : String → String) (searchTerm : String)
    (payment : JsVal) (h : Payments.textFieldsOk payment = true) :
    Payments.matchesPayment toLowerCase searchTerm payment
      = .ok (Payments.selected toLowerCase searchTerm payment) := by
  simp only [Payments.textFieldsOk, Bool.and_eq_true] at h
  obtain ⟨⟨⟨⟨⟨hd, h1⟩, h2⟩, h3⟩, h4⟩, h5⟩ := h
  obtain ⟨x1, e1, t1⟩ := lowerIncludes_typed toLowerCase _ searchTerm h1
  obtain ⟨x2, e2, t2⟩ := lowerIncludes_typed toLowerCase _ searchTerm h2
  obtain ⟨x3, e3, t3⟩ := lowerIncludes_typed toLowerCase _ searchTerm h3
  obtain ⟨x4, e4, t4⟩ := lowerIncludes_typed toLowerCase _ searchTerm h4
  obtain ⟨x5, e5, t5⟩ := lowerIncludes_typed toLowerCase _ searchTerm h5
  obtain ⟨z1, f1, u1⟩ := orElse_ok x1 x2
    ((member payment "concept").bind
      (fun v => lowerIncludes toLowerCase v (toLowerCase searchTerm)))
    ((member payment "user").bind
      (fun user => lowerIncludes toLowerCase (optChain user "name") (toLowerCase searchTerm)))
    (by rw [member_of_isDefined _ _ hd]; exact e1)
    (by rw [member_of_isDefined _ _ hd]; exact e2)
  obtain ⟨z2, f2, u2⟩ := orElse_ok z1 x3 _
    ((member payment "user").bind
      (fun user => lowerIncludes toLowerCase (optChain user "email") (toLowerCase searchTerm)))
    f1 (by rw [member_of_isDefined _ _ hd]; exact e3)
  obtain ⟨z3, f3, u3⟩ := orElse_ok z2 x4 _
    ((member payment "apartment").bind
      (fun apartment =>
        lowerIncludes toLowerCase (optChain apartment "number") (toLowerCase searchTerm)))
    f2 (by rw [member_of_isDefined _ _ hd]; exact e4)
  obtain ⟨z4, f4, u4⟩ := orElse_ok z3 x5 _
    ((member payment "apartment").bind
      (fun apartment =>
        lowerIncludes toLowerCase (optChain apartment "tower") (toLowerCase searchTerm)))
    f3 (by rw [member_of_isDefined _ _ hd]; exact e5)
  rw [Payments.matchesPayment, f4]
  simp only [Except.bind, Payments.selected, u4, u3, u2, u1, t1, t2, t3, t4, t5]

theorem Maintenance.matchesMaintenance_typed (toLowerCase : String → String)
    (searchTerm : String) (maintenance : JsVal)
    (h : Maintenance.textFieldsOk maintenance = true) :
    ∃ keep, Maintenance.matchesMaintenance toLowerCase searchTerm maintenance = .ok keep := by
  simp only [Maintenance.textFieldsOk, Bool.and_eq_true] at h
  obtain ⟨⟨⟨hd, h1⟩, h2⟩, h3⟩ := h
  obtain ⟨x1, e1, _⟩ := lowerIncludes_typed toLowerCase _ searchTerm h1
  obtain ⟨x2, e2, _⟩ := lowerIncludes_typed toLowerCase _ searchTerm h2
  obtain ⟨x3, e3, _⟩ := lowerIncludes_typed toLowerCase _ searchTerm h3
  obtain ⟨z1, f1, _⟩ := orElse_ok x1 x2
    ((member maintenance "title").bind
      (fun v => lowerIncludes toLowerCase v (toLowerCase searchTerm)))
    ((member maintenance "description").bind
      (fun v => lowerIncludes toLowerCase v (toLowerCase searchTerm)))
    (by rw [member_of_isDefined _ _ hd]; exact e1)
    (by rw [member_of_isDefined _ _ hd]; exact e2)
  obtain ⟨z2, f2, _⟩ := orElse_ok z1 x3 _
    ((member maintenance "area").bind
      (fun v => lowerIncludes toLowerCase v (toLowerCase searchTerm)))
    f1 (by rw [member_of_isDefined _ _ hd]; exact e3)
  exact ⟨truthy z2, by rw [Maintenance.matchesMaintenance, f2]; rfl⟩

theorem filterArray_returns (callback : JsVal → Except JsVal Bool) (items : List JsVal)
    (h : ∀ item, item ∈ items → ∃ keep, callback item = .ok keep) :
    ∃ kept, filterArray callback items = .ok kept := by
  induction items with
  | nil => exact ⟨[], rfl⟩
  | cons hd tl ih =>
    obtain ⟨keep, hk⟩ := h hd (List.mem_cons_self _ _)
    obtain ⟨kept, hkept⟩ := ih (fun item hi => h item (List.mem_cons_of_mem _ hi))
    exact ⟨if keep then hd :: kept else kept, by simp only [filterArray, hk, hkept]⟩

theorem digit_ne_T (c : Char) (h : c.isDigit = true) : (c != 'T') = true := by
  by_cases hc : c = 'T'
  · subst hc
    exact absurd h (by decide)
  · simpa using hc

theorem dash_ne_T (c : Char) (h : (c == '-') = true) : (c != 'T') = true := by
  have hc : c = '-' := by simpa using h
  subst hc
  decide

theorem beforeFirstT_of_no_T (s : String) (h : ∀ c, c ∈ s.data → c ≠ 'T') :
    beforeFirstT s = s := by
  have : s.data.takeWhile (fun c => c != 'T') = s.data :=
    List.takeWhile_eq_self_iff.2 (fun c hc => by simpa using h c hc)
  simp only [beforeFirstT, this]

theorem beforeFirstT_append (a b : String) (h : ∀ c, c ∈ a.data → c ≠ 'T') :
    beforeFirstT (a ++ "T" ++ b) = a := by
  have hd : (a ++ "T" ++ b).data = a.data ++ ('T' :: b.data) := by
    simp [String.data_append]
  have ht : ∀ l : List Char, (∀ c, c ∈ l → c ≠ 'T') →
      (l ++ ('T' :: b.data)).takeWhile (fun c => c != 'T') = l := by
    intro l
    induction l with
    | nil => intro _; simp [List.takeWhile]
    | cons x xs ih =>
      intro hl
      have hx : (x != 'T') = true := by simpa using hl x (List.mem_cons_self _ _)
      have ih' := ih (fun c hc => hl c (List.mem_cons_of_mem _ hc))
      rw [List.cons_append, List.takeWhile_cons, hx, if_pos rfl, ih']
  simp only [beforeFirstT, hd, ht a.data h]

theorem beforeFirstT_dateForm (s : String) (h : isDateForm s = true) : beforeFirstT s = s := by
  apply beforeFirstT_of_no_T
  intro c hc
  unfold isDateForm at h
  split at h
  · rename_i y1 y2 y3 y4 d1 m1 m2 d2 a1 a2 hs
    simp only [Bool.and_eq_true] at h
    obtain ⟨⟨⟨⟨⟨⟨⟨⟨⟨h1, h2⟩, h3⟩, h4⟩, h5⟩, h6⟩, h7⟩, h8⟩, h9⟩, h10⟩ := h
    rw [hs] at hc
    have key : (c != 'T') = true := by
      simp only [List.mem_cons, List.mem_singleton, List.not_mem_nil, or_false] at hc
      rcases hc with e | e | e | e | e | e | e | e | e | e <;> subst e
      · exact digit_ne_T _ h1
      · exact digit_ne_T _ h2
      · exact digit_ne_T _ h3
      · exact digit_ne_T _ h4
      · exact dash_ne_T _ h5
      · exact digit_ne_T _ h6
      · exact digit_ne_T _ h7
      · exact dash_ne_T _ h8
      · exact digit_ne_T _ h9
      · exact digit_ne_T _ h10
    simpa using key
  · simp at h

theorem resourceCall_null_body (api : Api) (call : HttpCall) (label : Option String)
    (res : JsObj) (hcall : api call = .ok (.obj res))
    (hbody : lookup res "data" = .null ∨ lookup res "data" = .undefined) :
    (resourceCall api call resDataData label).result = .error connectionError := by
  have hthrow : (api call).bind resDataData = .error typeError := by
    rcases hbody with h | h <;>
      simp [hcall, Except.bind, resDataData, member, prop, h]
  unfold resourceCall
  rw [hthrow]
  simp [catchBlock, member, typeError, prop, lookup, optChain, jsOr, truthy]

theorem responseData_of_no_response (error : JsObj) (h : hasResponse error = false) :
    truthy (responseData error) = false := by
  simp only [hasResponse] at h
  simp only [responseData]
  cases hl : lookup error "response" <;> simp [hl, truthy] at h <;>
    simp [optChain, prop, truthy]

/-! ## Facts about the Airbnb dialog -/

theorem Airbnb.fetchGuests_editing (api : Api) (r : Run Airbnb.State) :
    (Airbnb.fetchGuests api r).state.editing = r.state.editing := by
  simp only [Airbnb.fetchGuests]
  split <;> rfl

theorem Airbnb.fetchActiveGuests_editing (api : Api) (r : Run Airbnb.State) :
    (Airbnb.fetchActiveGuests api r).state.editing = r.state.editing := by
  simp only [Airbnb.fetchActiveGuests]
  split <;> rfl

theorem Airbnb.fetchApartments_editing (api : Api) (r : Run Airbnb.State) :
    (Airbnb.fetchApartments api r).state.editing = r.state.editing := by
  simp only [Airbnb.fetchApartments]
  split <;> rfl

theorem Airbnb.handleCheckIn_editing (id : JsVal) (api : Api) (r : Run Airbnb.State) :
    (Airbnb.handleCheckIn id api r).state.editing = r.state.editing := by
  simp only [Airbnb.handleCheckIn]
  split
  · rw [Airbnb.fetchActiveGuests_editing, Airbnb.fetchGuests_editing]
  · rfl

theorem Airbnb.handleDelete_editing (confirmed : Bool) (id : JsVal) (api : Api)
    (r : Run Airbnb.State) :
    (Airbnb.handleDelete confirmed id api r).state.editing = r.state.editing := by
  simp only [Airbnb.handleDelete]
  split
  · split
    · rw [Airbnb.fetchActiveGuests_editing, Airbnb.fetchGuests_editing]
    · rfl
  · rfl

theorem Airbnb.handleEdit_editing (guest : JsVal) (s : Airbnb.State) :
    (Airbnb.handleEdit guest s).editing = guest := by
  simp only [Airbnb.handleEdit]
  split <;> rfl

theorem Airbnb.handleCreate_calls (api : Api) (r : Run Airbnb.State) :
    ∃ rest, (Airbnb.handleCreate api r).calls = r.calls ++ Airbnb.submitCall r.state :: rest ∧
      ∀ c, c ∈ rest → c.verb = .GET := by
  simp only [Airbnb.handleCreate]
  split
  · refine ⟨[⟨.GET, "/airbnb/guests", .undefined⟩, ⟨.GET, "/airbnb/guests/active", .undefined⟩],
      ?_, ?_⟩
    · simp [Airbnb.fetchActiveGuests_calls, Airbnb.fetchGuests_calls]
    · intro c hc
      simp only [List.mem_cons, List.mem_singleton, List.not_mem_nil, or_false] at hc
      rcases hc with h | h <;> subst h <;> rfl
  · exact ⟨[], rfl, fun c hc => by simp at hc⟩

theorem renderedContains_empty (v : JsVal) (h : isDefined v = true) :
    renderedContains v "" = true := by
  cases v <;> simp [isDefined] at h <;> simp [renderedContains, includes_empty]

theorem containsLower_empty (toLowerCase : String → String) (v : JsVal)
    (hempty : toLowerCase "" = "") (ht : textOrMissing v = true) (hd : isDefined v = true) :
    containsLower toLowerCase v "" = true := by
  cases v <;> simp [isDefined] at hd <;> simp [textOrMissing] at ht
  simp [containsLower, hempty, includes_empty]

theorem containsLower_missing (toLowerCase : String → String) (v : JsVal) (term : String)
    (hd : isDefined v = false) : containsLower toLowerCase v term = false := by
  cases v <;> simp [isDefined] at hd <;> rfl

theorem renderedContains_missing (v : JsVal) (term : String) (hd : isDefined v = false) :
    renderedContains v term = false := by
  cases v <;> simp [isDefined] at hd <;> rfl

theorem Users.matchesUser_raises (toLowerCase : String → String) (filter searchTerm : String)
    (user : JsVal) (h : Users.hasName user = false) :
    ∃ e, Users.matchesUser toLowerCase filter searchTerm user = .error e := by
  by_cases hf : filter = "all"
  · subst hf
    cases user with
    | obj o =>
      simp only [Users.hasName] at h
      cases hn : lookup o "name" <;> simp [hn] at h <;>
        exact ⟨typeError, by
          simp [Users.matchesUser, member, prop, hn, callToLowerCase, Except.bind]⟩
    | _ =>
      exact ⟨typeError, by
        simp [Users.matchesUser, member, prop, callToLowerCase, Except.bind]⟩
  · have hb : (filter == "all") = false := by simpa using hf
    cases user with
    | obj o =>
      simp only [Users.hasName] at h
      cases hn : lookup o "name" <;> simp [hn] at h <;>
        exact ⟨typeError, by
          simp [Users.matchesUser, member, prop, hn, callToLowerCase, Except.bind, hb,
            Except.map]⟩
    | _ =>
      exact ⟨typeError, by
        simp [Users.matchesUser, member, prop, callToLowerCase, Except.bind, hb, Except.map]⟩

theorem returnsList_iff (result : Except JsVal (List JsVal)) :
    returnsList result = true ↔ ∃ kept, result = .ok kept := by
  cases result <;> simp [returnsList]

theorem lowerIncludes_raises (toLowerCase : String → String) (v : JsVal) (term : String)
    (h : textOrMissing v = false) : lowerIncludes toLowerCase v term = .error typeError := by
  cases v <;> simp [textOrMissing] at h <;> rfl

theorem orElse_error (e : JsVal) (b : Except JsVal JsVal) : orElse (.error e) b = .error e := rfl

theorem mapError_of_response (error other : JsObj) (w : Browser)
    (hr : hasResponse error = true)
    (h : lookup other "response" = lookup error "response") :
    (mapError other w).1 = (mapError error w).1 := by
  simp only [hasResponse] at hr
  have hr' : truthy (lookup other "response") = true := by rw [h]; exact hr
  simp only [mapError, h, hr, if_true]

theorem error_prefix_ne (x : String) :
    "Error " ++ x ≠ "La solicitud ha tardado demasiado. Verifica tu conexión" := by
  intro h
  have hd := congrArg String.data h
  rw [String.data_append] at hd
  have hh := congrArg List.head? hd
  simp at hh

theorem Payments.matchesPayment_raises_number (toLowerCase : String → String)
    (searchTerm : String) (payment : JsVal) (hd : isDefined payment = true)
    (h1 : textOrMissing (prop payment "concept") = true)
    (h2 : textOrMissing (optChain (prop payment "user") "name") = true)
    (h3 : textOrMissing (optChain (prop payment "user") "email") = true)
    (n1 : containsLower toLowerCase (prop payment "concept") searchTerm = false)
    (n2 : containsLower toLowerCase (optChain (prop payment "user") "name") searchTerm = false)
    (n3 : containsLower toLowerCase (optChain (prop payment "user") "email") searchTerm = false)
    (h4 : textOrMissing (optChain (prop payment "apartment") "number") = false) :
    Payments.matchesPayment toLowerCase searchTerm payment = .error typeError := by
  obtain ⟨x1, e1, t1⟩ := lowerIncludes_typed toLowerCase _ searchTerm h1
  obtain ⟨x2, e2, t2⟩ := lowerIncludes_typed toLowerCase _ searchTerm h2
  obtain ⟨x3, e3, t3⟩ := lowerIncludes_typed toLowerCase _ searchTerm h3
  obtain ⟨z1, f1, u1⟩ := orElse_ok x1 x2
    ((member payment "concept").bind
      (fun v => lowerIncludes toLowerCase v (toLowerCase searchTerm)))
    ((member payment "user").bind
      (fun user => lowerIncludes toLowerCase (optChain user "name") (toLowerCase searchTerm)))
    (by rw [member_of_isDefined _ _ hd]; exact e1)
    (by rw [member_of_isDefined _ _ hd]; exact e2)
  obtain ⟨z2, f2, u2⟩ := orElse_ok z1 x3 _
    ((member payment "user").bind
      (fun user => lowerIncludes toLowerCase (optChain user "email") (toLowerCase searchTerm)))
    f1 (by rw [member_of_isDefined _ _ hd]; exact e3)
  have hz2 : truthy z2 = false := by
    rw [u2, u1, t1, t2, t3, n1, n2, n3]
    rfl
  have e4 : (member payment "apartment").bind
      (fun apartment =>
        lowerIncludes toLowerCase (optChain apartment "number") (toLowerCase searchTerm))
      = .error typeError := by
    rw [member_of_isDefined _ _ hd]
    exact lowerIncludes_raises _ _ _ h4
  rw [Payments.matchesPayment, orElse_falsy z2 _ _ f2 hz2, e4, orElse_error]
  rfl

theorem Payments.matchesPayment_raises_tower (toLowerCase : String → String)
    (searchTerm : String) (payment : JsVal) (hd : isDefined payment = true)
    (h1 : textOrMissing (prop payment "concept") = true)
    (h2 : textOrMissing (optChain (prop payment "user") "name") = true)
    (h3 : textOrMissing (optChain (prop payment "user") "email") = true)
    (h4 : textOrMissing (optChain (prop payment "apartment") "number") = true)
    (n1 : containsLower toLowerCase (prop payment "concept") searchTerm = false)
    (n2 : containsLower toLowerCase (optChain (prop payment "user") "name") searchTerm = false)
    (n3 : containsLower toLowerCase (optChain (prop payment "user") "email") searchTerm = false)
    (n4 : containsLower toLowerCase (optChain (prop payment "apartment") "number") searchTerm
      = false)
    (h5 : textOrMissing (optChain (prop payment "apartment") "tower") = false) :
    Payments.matchesPayment toLowerCase searchTerm payment = .error typeError := by
  obtain ⟨x1, e1, t1⟩ := lowerIncludes_typed toLowerCase _ searchTerm h1
  obtain ⟨x2, e2, t2⟩ := lowerIncludes_typed toLowerCase _ searchTerm h2
  obtain ⟨x3, e3, t3⟩ := lowerIncludes_typed toLowerCase _ searchTerm h3
  obtain ⟨x4, e4, t4⟩ := lowerIncludes_typed toLowerCase _ searchTerm h4
  obtain ⟨z1, f1, u1⟩ := orElse_ok x1 x2
    ((member payment "concept").bind
      (fun v => lowerIncludes toLowerCase v (toLowerCase searchTerm)))
    ((member payment "user").bind
      (fun user => lowerIncludes toLowerCase (optChain user "name") (toLowerCase searchTerm)))
    (by rw [member_of_isDefined _ _ hd]; exact e1)
    (by rw [member_of_isDefined _ _ hd]; exact e2)
  obtain ⟨z2, f2, u2⟩ := orElse_ok z1 x3 _
    ((member payment "user").bind
      (fun user => lowerIncludes toLowerCase (optChain user "email") (toLowerCase searchTerm)))
    f1 (by rw [member_of_isDefined _ _ hd]; exact e3)
  obtain ⟨z3, f3, u3⟩ := orElse_ok z2 x4 _
    ((member payment "apartment").bind
      (fun apartment =>
        lowerIncludes toLowerCase (optChain apartment "number") (toLowerCase searchTerm)))
    f2 (by rw [member_of_isDefined _ _ hd]; exact e4)
  have hz3 : truthy z3 = false := by
    rw [u3, u2, u1, t1, t2, t3, t4, n1, n2, n3, n4]
    rfl
  have e5 : (member payment "apartment").bind
      (fun apartment =>
        lowerIncludes toLowerCase (optChain apartment "tower") (toLowerCase searchTerm))
      = .error typeError := by
    rw [member_of_isDefined _ _ hd]
    exact lowerIncludes_raises _ _ _ h5
  rw [Payments.matchesPayment, orElse_falsy z3 _ _ f3 hz3, e5]
  rfl

/-! ## Facts about search terms that match nothing -/

theorem includesChars_length (needle hay : List Char)
    (h : includesChars needle hay = true) : needle.length ≤ hay.length := by
  induction hay with
  | nil =>
    simp only [includesChars, List.isEmpty_iff] at h
    subst h
    exact Nat.le_refl _
  | cons c rest ih =>
    simp only [includesChars, Bool.or_eq_true] at h
    rcases h with h | h
    · exact (List.isPrefixOf_iff_prefix.1 h).length_le
    · exact Nat.le_trans (ih h) (Nat.le_succ _)

theorem lowerIncludes_no_match (toLowerCase : String → String) (v : JsVal) (term : String)
    (n : containsLower toLowerCase v term = false) :
    (textOrMissing v = false ∧
      lowerIncludes toLowerCase v (toLowerCase term) = .error typeError) ∨
    (textOrMissing v = true ∧
      ∃ x, lowerIncludes toLowerCase v (toLowerCase term) = .ok x ∧ truthy x = false) := by
  cases ht : textOrMissing v
  · exact Or.inl ⟨rfl, lowerIncludes_raises _ _ _ ht⟩
  · obtain ⟨x, hx, tx⟩ := lowerIncludes_typed toLowerCase v term ht
    exact Or.inr ⟨rfl, x, hx, by rw [tx, n]⟩

theorem Payments.matchesPayment_raises_of_no_match (toLowerCase : String → String)
    (searchTerm : String) (payment : JsVal)
    (h : Payments.textFieldsOk payment = false)
    (n1 : containsLower toLowerCase (prop payment "concept") searchTerm = false)
    (n2 : containsLower toLowerCase (optChain (prop payment "user") "name") searchTerm = false)
    (n3 : containsLower toLowerCase (optChain (prop payment "user") "email") searchTerm = false)
    (n4 : containsLower toLowerCase (optChain (prop payment "apartment") "number") searchTerm
      = false)
    (n5 : containsLower toLowerCase (optChain (prop payment "apartment") "tower") searchTerm
      = false) :
    Payments.matchesPayment toLowerCase searchTerm payment = .error typeError := by
  cases hd : isDefined payment
  · cases payment <;> simp [isDefined] at hd <;> rfl
  · have m : ∀ k, member payment k = .ok (prop payment k) :=
      fun k => member_of_isDefined payment k hd
    rcases lowerIncludes_no_match toLowerCase _ searchTerm n1 with ⟨_, e1⟩ | ⟨t1, x1, e1, f1⟩
    · simp only [Payments.matchesPayment, m, Except.bind, e1, orElse]
    rcases lowerIncludes_no_match toLowerCase _ searchTerm n2 with ⟨_, e2⟩ | ⟨t2, x2, e2, f2⟩
    · simp [Payments.matchesPayment, m, Except.bind, e1, e2, f1, orElse]
    rcases lowerIncludes_no_match toLowerCase _ searchTerm n3 with ⟨_, e3⟩ | ⟨t3, x3, e3, f3⟩
    · simp [Payments.matchesPayment, m, Except.bind, e1, e2, e3, f1, f2, orElse]
    rcases lowerIncludes_no_match toLowerCase _ searchTerm n4 with ⟨_, e4⟩ | ⟨t4, x4, e4, f4⟩
    · simp [Payments.matchesPayment, m, Except.bind, e1, e2, e3, e4, f1, f2, f3, orElse]
    rcases lowerIncludes_no_match toLowerCase _ searchTerm n5 with ⟨_, e5⟩ | ⟨t5, x5, e5, f5⟩
    · simp [Payments.matchesPayment, m, Except.bind, e1, e2, e3, e4, e5, f1, f2, f3, f4, orElse]
    · simp [Payments.textFieldsOk, hd, t1, t2, t3, t4, t5] at h

theorem exists_longer (toLowerCase : String → String) (fields : List JsVal) :
    ∃ n : Nat, ∀ v, v ∈ fields → ∀ s, v = .str s → (toLowerCase s).length < n := by
  induction fields with
  | nil => exact ⟨0, fun v hv => by simp at hv⟩
  | cons hd tl ih =>
    obtain ⟨n, hn⟩ := ih
    cases hd with
    | str t =>
      refine ⟨max n ((toLowerCase t).length + 1), fun v hv s hs => ?_⟩
      rcases List.mem_cons.1 hv with h | h
      · subst hs
        cases h
        exact Nat.lt_of_lt_of_le (Nat.lt_succ_self _) (Nat.le_max_right _ _)
      · exact Nat.lt_of_lt_of_le (hn v h s hs) (Nat.le_max_left _ _)
    | _ =>
      refine ⟨n, fun v hv s hs => ?_⟩
      rcases List.mem_cons.1 hv with h | h
      · subst hs
        cases h
      · exact hn v h s hs

theorem containsLower_long (toLowerCase : String → String) (v : JsVal) (term : String)
    (hterm : toLowerCase term = term)
    (hlen : ∀ s, v = .str s → (toLowerCase s).length < term.length) :
    containsLower toLowerCase v term = false := by
  cases v with
  | str s =>
    simp only [containsLower, hterm]
    cases hi : includes (toLowerCase s) term
    · rfl
    · have := includesChars_length _ _ hi
      have := hlen s rfl
      simp only [String.length] at *
      omega
  | _ => rfl

theorem Payments.exists_raising_term (toLowerCase : String → String)
    (hdigits : ∀ s : String, (∀ c, c ∈ s.data → c.isDigit = true) → toLowerCase s = s)
    (payment : JsVal) (h : Payments.textFieldsOk payment = false) :
    ∃ searchTerm,
      Payments.matchesPayment toLowerCase searchTerm payment = .error typeError := by
  obtain ⟨n, hn⟩ := exists_longer toLowerCase
    [prop payment "concept", optChain (prop payment "user") "name",
     optChain (prop payment "user") "email", optChain (prop payment "apartment") "number",
     optChain (prop payment "apartment") "tower"]
  have hterm : toLowerCase ⟨List.replicate n '0'⟩ = ⟨List.replicate n '0'⟩ := by
    apply hdigits
    intro c hc
    rw [List.eq_of_mem_replicate hc]
    rfl
  have hl : (String.mk (List.replicate n '0')).length = n := by
    simp [String.length]
  have key : ∀ v, v ∈ [prop payment "concept", optChain (prop payment "user") "name",
      optChain (prop payment "user") "email", optChain (prop payment "apartment") "number",
      optChain (prop payment "apartment") "tower"] →
      containsLower toLowerCase v ⟨List.replicate n '0'⟩ = false := by
    intro v hv
    apply containsLower_long _ _ _ hterm
    intro s hs
    rw [hl]
    exact hn v hv s hs
  exact ⟨⟨List.replicate n '0'⟩,
    Payments.matchesPayment_raises_of_no_match _ _ _ h
      (key _ (by simp)) (key _ (by simp)) (key _ (by simp)) (key _ (by simp))
      (key _ (by simp))⟩

theorem toLower_of_isDigit (c : Char) (h : c.isDigit = true) : c.toLower = c := by
  simp only [Char.isDigit, Bool.and_eq_true, decide_eq_true_eq] at h
  have h2 : c.val.toNat ≤ 57 := h.2
  simp only [Char.toLower]
  have hn : ¬ (c.toNat ≥ 65 ∧ c.toNat ≤ 90) := by
    rintro ⟨h65, _⟩
    have : (65 : Nat) ≤ c.val.toNat := h65
    omega
  rw [if_neg hn]

theorem asciiLowerCase_digits (s : String) (h : ∀ c, c ∈ s.data → c.isDigit = true) :
    asciiLowerCase s = s := by
  have hm : ∀ l : List Char, (∀ c, c ∈ l → c.isDigit = true) → l.map Char.toLower = l := by
    intro l hl
    induction l with
    | nil => rfl
    | cons a t ih =>
      simp only [List.map_cons, toLower_of_isDigit a (hl a (List.mem_cons_self _ _)),
        ih (fun c hc => hl c (List.mem_cons_of_mem _ hc))]
  simp only [asciiLowerCase, hm s.data h]

/-! ## Response interceptor: the error handler -/

/-- C1: on a failed response with status 401, whatever its body, the error
handler sets userMessage to the fixed session-expired text, removes the
`token` and `user` keys from local storage (leaving every other key), and
assigns `/login` to the location exactly once when the pathname is not
`/login`, and not at all when it is. -/
theorem unauthorized_resets_session (error : JsObj) (w : Browser)
    (hr : hasResponse error = true) (hs : statusOf error = .num 401) :
    userMessageOf (onResponseError error w).1
        = .str "Sesión expirada. Por favor, inicia sesión nuevamente" ∧
    getItem (onResponseError error w).2.localStorage "token" = .null ∧
    getItem (onResponseError error w).2.localStorage "user" = .null ∧
    (∀ k, k ≠ "token" → k ≠ "user" →
        getItem (onResponseError error w).2.localStorage k = getItem w.localStorage k) ∧
    (onResponseError error w).2.pathname = w.pathname ∧
    (w.pathname ≠ "/login" →
        (onResponseError error w).2.hrefAssignments = w.hrefAssignments ++ ["/login"]) ∧
    (w.pathname = "/login" →
        (onResponseError error w).2.hrefAssignments = w.hrefAssignments) := by
  simp only [hasResponse] at hr
  simp only [statusOf] at hs
  have hm : mapError error w =
      (.str "Sesión expirada. Por favor, inicia sesión nuevamente",
        if w.pathname ≠ "/login" then
          { localStorage := removeItem (removeItem w.localStorage "token") "user",
            pathname := w.pathname,
            hrefAssignments := w.hrefAssignments ++ ["/login"] }
        else
          { localStorage := removeItem (removeItem w.localStorage "token") "user",
            pathname := w.pathname,
            hrefAssignments := w.hrefAssignments }) := by
    simp [mapError, hr, hs, strictEqNum]
  refine ⟨?_, ?_, ?_, ?_, ?_, ?_, ?_⟩
  · rw [userMessageOf_onResponseError, hm]
  · simp only [onResponseError, hm]
    split <;>
      simp [getItem_removeItem_self, getItem_removeItem_ne]
  · simp only [onResponseError, hm]
    split <;> simp [getItem_removeItem_self]
  · intro k hk1 hk2
    simp only [onResponseError, hm]
    split <;> simp [getItem_removeItem_ne, hk1, hk2]
  · simp only [onResponseError, hm]
    split <;> rfl
  · intro hp
    simp [onResponseError, hm, hp]
  · intro hp
    simp [onResponseError, hm, hp]

/-- Witness for C1: a 401 carrying a server error text, received on the dashboard. -/
theorem unauthorized_resets_session_witness :
    userMessageOf (onResponseError (httpFailure 401 (.obj [("error", .str "jwt expired")])) loggedIn).1
        = .str "Sesión expirada. Por favor, inicia sesión nuevamente" ∧
    getItem (onResponseError (httpFailure 401 (.obj [("error", .str "jwt expired")])) loggedIn).2.localStorage
        "token" = .null ∧
    (onResponseError (httpFailure 401 (.obj [("error", .str "jwt expired")])) loggedIn).2.hrefAssignments
        = ["/login"] := by
  have h := unauthorized_resets_session
    (httpFailure 401 (.obj [("error", .str "jwt expired")])) loggedIn rfl rfl
  exact ⟨h.1, h.2.1, by simpa [loggedIn] using h.2.2.2.2.2.1 (by decide)⟩

/-- C2: for every failure that is not an HTTP 401 (a response with another
status, or no server response at all) the error handler leaves the browser
state as it was: the stored `token` and `user` are untouched and nothing is
assigned to the location. -/
theorem non_unauthorized_keeps_session (error : JsObj) (w : Browser)
    (h : hasResponse error = false ∨ statusOf error ≠ .num 401) :
    (onResponseError error w).2 = w ∧
    getItem (onResponseError error w).2.localStorage "token" = getItem w.localStorage "token" ∧
    getItem (onResponseError error w).2.localStorage "user" = getItem w.localStorage "user" ∧
    (onResponseError error w).2.hrefAssignments = w.hrefAssignments := by
  have key : (onResponseError error w).2 = w := by
    simp only [hasResponse, statusOf] at h
    simp only [onResponseError, mapError]
    rcases h with h | h
    · simp only [h]
      split_ifs <;> first | rfl | contradiction
    · have h1 : strictEqNum (prop (lookup error "response") "status") 401 = false := by
        cases hq : strictEqNum (prop (lookup error "response") "status") 401
        · rfl
        · exact absurd ((strictEqNum_iff _ _).1 hq) h
      simp only [h1]
      split_ifs <;> first | rfl | contradiction
  rw [key]
  exact ⟨rfl, rfl, rfl, rfl⟩

/-- Witness for C2: a 404 on the dashboard leaves token, user and location alone. -/
theorem non_unauthorized_keeps_session_witness :
    (onResponseError (httpFailure 404 .null) loggedIn).2 = loggedIn ∧
    getItem (onResponseError (httpFailure 404 .null) loggedIn).2.localStorage "token"
        = .str "abc" :=
  have h := non_unauthorized_keeps_session (httpFailure 404 .null) loggedIn
    (Or.inr (by simp [statusOf, httpFailure, lookup, prop]))
  ⟨h.1, h.2.1⟩

/-- C3 as stated fails: a 400 whose body carries the empty error string gets
the fallback text, not that string. -/
theorem validation_empty_error_string :
    hasResponse (httpFailure 400 (.obj [("error", .str "")])) = true ∧
    statusOf (httpFailure 400 (.obj [("error", .str "")])) = .num 400 ∧
    serverError (httpFailure 400 (.obj [("error", .str "")])) = .str "" ∧
    userMessageOf (onResponseError (httpFailure 400 (.obj [("error", .str "")])) loggedIn).1
        = .str "Datos inválidos" ∧
    userMessageOf (onResponseError (httpFailure 400 (.obj [("error", .str "")])) loggedIn).1
        ≠ .str "" := by
  refine ⟨rfl, rfl, rfl, ?_, ?_⟩ <;>
    simp [userMessageOf_onResponseError, mapError, httpFailure, lookup, prop, optChain,
      truthy, strictEqNum, jsOr]

/-- C3 (amended): on a failed response with status 400 or 422, userMessage is
the body's `error` field whenever that field is truthy, in particular
whenever it is a non-empty string, and the fallback for the status
('Datos inválidos', 'Datos de entrada inválidos') whenever the field is
missing, null, the empty string or otherwise falsy. -/
theorem validation_message (error : JsObj) (w : Browser) (hr : hasResponse error = true) :
    (statusOf error = .num 400 →
      (∀ s, s ≠ "" → serverError error = .str s →
        userMessageOf (onResponseError error w).1 = .str s) ∧
      (truthy (serverError error) = true →
        userMessageOf (onResponseError error w).1 = serverError error) ∧
      (truthy (serverError error) = false →
        userMessageOf (onResponseError error w).1 = .str "Datos inválidos")) ∧
    (statusOf error = .num 422 →
      (∀ s, s ≠ "" → serverError error = .str s →
        userMessageOf (onResponseError error w).1 = .str s) ∧
      (truthy (serverError error) = true →
        userMessageOf (onResponseError error w).1 = serverError error) ∧
      (truthy (serverError error) = false →
        userMessageOf (onResponseError error w).1 = .str "Datos de entrada inválidos")) := by
  simp only [hasResponse] at hr
  simp only [statusOf, serverError, bodyOf, userMessageOf_onResponseError]
  constructor
  · intro hs
    have hm : (mapError error w).1 =
        jsOr (optChain (prop (lookup error "response") "data") "error") (.str "Datos inválidos") := by
      simp [mapError, hr, hs, strictEqNum]
    rw [hm]
    refine ⟨?_, ?_, ?_⟩
    · intro s hne he
      simp [jsOr, he, truthy, hne]
    · intro ht
      simp [jsOr, ht]
    · intro ht
      simp [jsOr, ht]
  · intro hs
    have hm : (mapError error w).1 =
        jsOr (optChain (prop (lookup error "response") "data") "error")
          (.str "Datos de entrada inválidos") := by
      simp [mapError, hr, hs, strictEqNum]
    rw [hm]
    refine ⟨?_, ?_, ?_⟩
    · intro s hne he
      simp [jsOr, he, truthy, hne]
    · intro ht
      simp [jsOr, ht]
    · intro ht
      simp [jsOr, ht]

/-- Witness for C3: a 422 with a server text shows that text, a 400 with an
empty body shows the fallback. -/
theorem validation_message_witness :
    userMessageOf (onResponseError (httpFailure 422 (.obj [("error", .str "Email ya registrado")])) loggedIn).1
        = .str "Email ya registrado" ∧
    userMessageOf (onResponseError (httpFailure 400 (.obj [])) loggedIn).1
        = .str "Datos inválidos" :=
  ⟨((validation_message (httpFailure 422 (.obj [("error", .str "Email ya registrado")]))
      loggedIn rfl).2 rfl).1 "Email ya registrado" (by decide) rfl,
   ((validation_message (httpFailure 400 (.obj [])) loggedIn rfl).1 rfl).2.2 rfl⟩

/-- C4: on a failed response with status 403, 404 or 500, userMessage is the
fixed text of that status, whatever the response body holds (an `error`
string in the body is ignored). -/
theorem fixed_status_message (error : JsObj) (w : Browser) (hr : hasResponse error = true) :
    (statusOf error = .num 403 →
      userMessageOf (onResponseError error w).1
        = .str "No tienes permisos para realizar esta acción") ∧
    (statusOf error = .num 404 →
      userMessageOf (onResponseError error w).1 = .str "Recurso no encontrado") ∧
    (statusOf error = .num 500 →
      userMessageOf (onResponseError error w).1
        = .str "Error interno del servidor. Inténtalo más tarde") := by
  simp only [hasResponse] at hr
  simp only [statusOf, userMessageOf_onResponseError]
  refine ⟨?_, ?_, ?_⟩ <;> intro hs <;> simp [mapError, hr, hs, strictEqNum]

/-- Witness for C4: a 403, a 404 and a 500 that each carry a server error
string still show the fixed texts. -/
theorem fixed_status_message_witness :
    userMessageOf (onResponseError (httpFailure 403 (.obj [("error", .str "forbidden")])) loggedIn).1
        = .str "No tienes permisos para realizar esta acción" ∧
    userMessageOf (onResponseError (httpFailure 404 (.obj [("error", .str "no such flat")])) loggedIn).1
        = .str "Recurso no encontrado" ∧
    userMessageOf (onResponseError (httpFailure 500 (.obj [("error", .str "boom")])) loggedIn).1
        = .str "Error interno del servidor. Inténtalo más tarde" :=
  ⟨(fixed_status_message (httpFailure 403 (.obj [("error", .str "forbidden")])) loggedIn rfl).1 rfl,
   (fixed_status_message (httpFailure 404 (.obj [("error", .str "no such flat")])) loggedIn rfl).2.1 rfl,
   (fixed_status_message (httpFailure 500 (.obj [("error", .str "boom")])) loggedIn rfl).2.2 rfl⟩

/-- C5 as stated fails: a 503 whose body carries the empty error text shows
'Error 503', not that text. -/
theorem other_status_empty_error_text :
    hasResponse (httpFailure 503 (.obj [("error", .str "")])) = true ∧
    statusOf (httpFailure 503 (.obj [("error", .str "")])) = .num 503 ∧
    serverError (httpFailure 503 (.obj [("error", .str "")])) = .str "" ∧
    userMessageOf (onResponseError (httpFailure 503 (.obj [("error", .str "")])) loggedIn).1
        = .str "Error 503" ∧
    userMessageOf (onResponseError (httpFailure 503 (.obj [("error", .str "")])) loggedIn).1
        ≠ .str "" := by
  have h : userMessageOf
      (onResponseError (httpFailure 503 (.obj [("error", .str "")])) loggedIn).1
        = .str "Error 503" := by
    simp [userMessageOf_onResponseError, mapError, httpFailure, lookup, prop, optChain,
      truthy, strictEqNum, jsOr, toStr]
    rfl
  refine ⟨rfl, rfl, rfl, h, ?_⟩
  rw [h]
  simp

/-- C5 (amended): on a failed response whose status is an integer other than
400, 401, 403, 404, 422 and 500, userMessage is the body's `error` field
whenever that field is truthy, in particular whenever it is a non-empty
text, and 'Error ' followed by the decimal status whenever the field is
missing, null, empty or otherwise falsy. -/
theorem other_status_message (error : JsObj) (w : Browser) (n : Int)
    (hr : hasResponse error = true) (hs : statusOf error = .num n)
    (h400 : n ≠ 400) (h401 : n ≠ 401) (h403 : n ≠ 403) (h404 : n ≠ 404)
    (h422 : n ≠ 422) (h500 : n ≠ 500) :
    (∀ s, s ≠ "" → serverError error = .str s →
      userMessageOf (onResponseError error w).1 = .str s) ∧
    (truthy (serverError error) = true →
      userMessageOf (onResponseError error w).1 = serverError error) ∧
    (truthy (serverError error) = false →
      userMessageOf (onResponseError error w).1 = .str ("Error " ++ toString n)) := by
  simp only [hasResponse] at hr
  simp only [statusOf] at hs
  simp only [serverError, bodyOf, userMessageOf_onResponseError]
  have hm : (mapError error w).1 =
      jsOr (optChain (prop (lookup error "response") "data") "error")
        (.str ("Error " ++ toString n)) := by
    simp [mapError, hr, hs, strictEqNum, h400, h401, h403, h404, h422, h500, toStr]
  rw [hm]
  refine ⟨?_, ?_, ?_⟩
  · intro s hne he
    simp [jsOr, he, truthy, hne]
  · intro ht
    simp [jsOr, ht]
  · intro ht
    simp [jsOr, ht]

/-- Witness for C5: a 503 without an error text shows 'Error 503'. -/
theorem other_status_message_witness :
    userMessageOf (onResponseError (httpFailure 503 (.obj [])) loggedIn).1
        = .str ("Error " ++ toString (503 : Int)) ∧
    "Error " ++ toString (503 : Int) = "Error 503" :=
  ⟨(other_status_message (httpFailure 503 (.obj [])) loggedIn 503 rfl rfl
      (by decide) (by decide) (by decide) (by decide) (by decide) (by decide)).2.2 rfl,
   by decide⟩

/-- C6: for every failure with no server response but with a request,
userMessage is the timeout text exactly when the failure code is
'ECONNABORTED', and the generic connection text for every other code,
a missing code included. -/
theorem network_failure_message (error : JsObj) (w : Browser)
    (hr : hasResponse error = false) (hq : hasRequest error = true) :
    (userMessageOf (onResponseError error w).1
        = .str "La solicitud ha tardado demasiado. Verifica tu conexión"
      ↔ lookup error "code" = .str "ECONNABORTED") ∧
    (lookup error "code" ≠ .str "ECONNABORTED" →
      userMessageOf (onResponseError error w).1
        = .str "Error de conexión. Verifica tu conexión a internet") := by
  simp only [hasResponse] at hr
  simp only [hasRequest] at hq
  simp only [userMessageOf_onResponseError]
  by_cases hc : lookup error "code" = .str "ECONNABORTED"
  · have hm : (mapError error w).1
        = .str "La solicitud ha tardado demasiado. Verifica tu conexión" := by
      simp [mapError, hr, hq, hc, strictEqStr]
    rw [hm]
    exact ⟨⟨fun _ => hc, fun _ => rfl⟩, fun h => absurd hc h⟩
  · have hs : strictEqStr (lookup error "code") "ECONNABORTED" = false := by
      cases hv : strictEqStr (lookup error "code") "ECONNABORTED"
      · rfl
      · exact absurd ((strictEqStr_iff _ _).1 hv) hc
    have hm : (mapError error w).1
        = .str "Error de conexión. Verifica tu conexión a internet" := by
      simp [mapError, hr, hq, hs]
    rw [hm]
    refine ⟨⟨fun h => ?_, fun h => absurd h hc⟩, fun _ => rfl⟩
    simp at h

/-- Witness for C6: a timed-out request and a refused connection. -/
theorem network_failure_message_witness :
    (userMessageOf (onResponseError
        [("message", .str "timeout of 10000ms exceeded"), ("code", .str "ECONNABORTED"),
         ("request", .obj [])] loggedIn).1
      = .str "La solicitud ha tardado demasiado. Verifica tu conexión"
      ↔ lookup [("message", .str "timeout of 10000ms exceeded"), ("code", .str "ECONNABORTED"),
         ("request", .obj [])] "code" = .str "ECONNABORTED") ∧
    userMessageOf (onResponseError
        [("message", .str "Network Error"), ("request", .obj [])] loggedIn).1
      = .str "Error de conexión. Verifica tu conexión a internet" :=
  ⟨(network_failure_message
      [("message", .str "timeout of 10000ms exceeded"), ("code", .str "ECONNABORTED"),
       ("request", .obj [])] loggedIn rfl rfl).1,
   (network_failure_message [("message", .str "Network Error"), ("request", .obj [])]
      loggedIn rfl rfl).2 (by simp [lookup])⟩

/-- C7: the error handler never resolves: for every failure and browser state
its result is a rejection, and the rejected object has every property name of
the original failure, the original value under every name other than
`userMessage` and `originalError`, the mapped text under `userMessage` and
the original failure itself under `originalError`. -/
theorem failure_always_rejected (error : JsObj) (w : Browser) :
    ∃ enhanced : JsObj,
      (onResponseError error w).1 = .error (.obj enhanced) ∧
      (∀ v, (onResponseError error w).1 ≠ .ok v) ∧
      lookup enhanced "userMessage" = (mapError error w).1 ∧
      lookup enhanced "originalError" = .obj error ∧
      (∀ k, k ≠ "userMessage" → k ≠ "originalError" → lookup enhanced k = lookup error k) ∧
      (∀ k, k ∈ keys error → k ∈ keys enhanced) := by
  refine ⟨enhancedError error (mapError error w).1, rfl, ?_, ?_, ?_, ?_, ?_⟩
  · intro v h
    simp [onResponseError] at h
  · simp [enhancedError, lookup_setProp]
  · simp [enhancedError, lookup_setProp]
  · intro k h1 h2
    simp [enhancedError, lookup_setProp, Ne.symm h1, Ne.symm h2]
  · intro k hk
    exact keys_setProp _ _ _ _ (keys_setProp _ _ _ _ hk)

/-! ## Request interceptor -/

/-- C8 as stated fails: with the empty string stored under `token`, the
interceptor attaches no Authorization header. -/
theorem empty_token_not_attached :
    getItem [("token", "")] "token" = .str "" ∧
    onRequest { localStorage := [("token", "")], pathname := "/", hrefAssignments := [] }
        { headers := [("Content-Type", .str "application/json")],
          others := [("url", .str "/users")] }
      = { headers := [("Content-Type", .str "application/json")],
          others := [("url", .str "/users")] } ∧
    lookup (onRequest { localStorage := [("token", "")], pathname := "/", hrefAssignments := [] }
        { headers := [("Content-Type", .str "application/json")],
          others := [("url", .str "/users")] }).headers "Authorization"
      ≠ .str ("Bearer " ++ "") := by
  refine ⟨rfl, rfl, ?_⟩
  simp [onRequest, getItem, truthy, lookup]

/-- C8 (amended): for every request configuration and every non-empty token
stored under `token`, the interceptor returns the configuration with its
Authorization header equal to 'Bearer ' followed by the token, every other
header and every other field unchanged (an empty stored token counts as
absent). -/
theorem token_attached (w : Browser) (config : RequestConfig) (token : String)
    (hstored : getItem w.localStorage "token" = .str token) (hne : token ≠ "") :
    lookup (onRequest w config).headers "Authorization" = .str ("Bearer " ++ token) ∧
    (∀ k, k ≠ "Authorization" →
      lookup (onRequest w config).headers k = lookup config.headers k) ∧
    (∀ k, k ∈ keys config.headers → k ∈ keys (onRequest w config).headers) ∧
    (onRequest w config).others = config.others := by
  have ho : onRequest w config =
      { config with
        headers := setProp config.headers "Authorization" (.str ("Bearer " ++ token)) } := by
    simp [onRequest, hstored, truthy, hne, toStr]
  rw [ho]
  refine ⟨?_, ?_, ?_, rfl⟩
  · simp [lookup_setProp]
  · intro k hk
    simp [lookup_setProp, Ne.symm hk]
  · intro k hk
    exact keys_setProp _ _ _ _ hk

/-- Witness for C8: the session token of the dashboard is attached. -/
theorem token_attached_witness :
    lookup (onRequest loggedIn
        { headers := [("Content-Type", .str "application/json")], others := [] }).headers
      "Authorization" = .str ("Bearer " ++ "abc") ∧
    (onRequest loggedIn
        { headers := [("Content-Type", .str "application/json")], others := [] }).others = [] :=
  have h := token_attached loggedIn
    { headers := [("Content-Type", .str "application/json")], others := [] } "abc" rfl (by decide)
  ⟨h.1, h.2.2.2⟩

/-- C9: when nothing is stored under `token`, the interceptor returns the
request configuration unchanged; a request without an Authorization header
leaves without one. -/
theorem no_token_noop (w : Browser) (config : RequestConfig)
    (habsent : getItem w.localStorage "token" = .null) :
    onRequest w config = config ∧
    (lookup config.headers "Authorization" = .undefined →
      lookup (onRequest w config).headers "Authorization" = .undefined) := by
  have ho : onRequest w config = config := by
    simp [onRequest, habsent, truthy]
  rw [ho]
  exact ⟨rfl, fun h => h⟩

/-- Witness for C9: an empty storage adds no header. -/
theorem no_token_noop_witness :
    onRequest { localStorage := [], pathname := "/login", hrefAssignments := [] }
        { headers := [("Content-Type", .str "application/json")], others := [] }
      = { headers := [("Content-Type", .str "application/json")], others := [] } :=
  (no_token_noop { localStorage := [], pathname := "/login", hrefAssignments := [] }
    { headers := [("Content-Type", .str "application/json")], others := [] } rfl).1

/-! ## Resource convenience functions -/

/-- C10 as stated fails: on a successful response with body {data: 7, success:
true}, deleteApartment returns the whole body, not the embedded 7. -/
theorem delete_returns_whole_body :
    (deleteApartment (respondingWith (.obj [("data", .num 7), ("success", .bool true)]))
        (.num 3)).result
      = .ok (.obj [("data", .num 7), ("success", .bool true)]) ∧
    (deleteApartment (respondingWith (.obj [("data", .num 7), ("success", .bool true)]))
        (.num 3)).result
      ≠ .ok (.num 7) := by
  have h : (deleteApartment (respondingWith (.obj [("data", .num 7), ("success", .bool true)]))
        (.num 3)).result
      = .ok (.obj [("data", .num 7), ("success", .bool true)]) := by
    simp [deleteApartment, resourceCall, respondingWith, resData, member, prop, lookup,
      Except.bind]
  refine ⟨h, ?_⟩
  rw [h]
  simp

/-- C10 (amended): for every exported convenience function other than the six
`delete*` ones and every successful response whose body is an object
{data: d, ...}, the function returns d; each `delete*` function returns the
whole response body instead. -/
theorem success_unwraps_data (api : Api) (inv : Invocation) (res body : JsObj)
    (hcall : ∀ c, c ∈ (invoke api inv).calls → api c = .ok (.obj res))
    (hbody : lookup res "data" = .obj body) :
    (inv.isDelete = false → (invoke api inv).result = .ok (lookup body "data")) ∧
    (inv.isDelete = true → (invoke api inv).result = .ok (.obj body)) := by
  have hone : ∀ (call : HttpCall) (unwrap : JsVal → Except JsVal JsVal) (label : Option String),
      call ∈ (resourceCall api call unwrap label).calls := by
    intro call unwrap label
    rw [resourceCall_calls]
    exact List.mem_singleton.2 rfl
  constructor
  · intro hd
    cases inv <;>
      first
        | exact Bool.noConfusion hd
        | exact resourceCall_resDataData api _ _ res body (hcall _ (hone _ _ _)) hbody
  · intro hd
    rw [← hbody]
    cases inv <;>
      first
        | exact Bool.noConfusion hd
        | exact resourceCall_resData api _ _ res (hcall _ (hone _ _ _))

/-- Witness for C10: getPayments and checkinAirbnbGuest return the embedded
list, deletePayment the whole body. -/
theorem success_unwraps_data_witness :
    (invoke (respondingWith (.obj [("data", .str "rows"), ("success", .bool true)]))
        (.getPayments .undefined)).result = .ok (.str "rows") ∧
    (invoke (respondingWith (.obj [("data", .str "rows"), ("success", .bool true)]))
        (.checkinAirbnbGuest (.num 4))).result = .ok (.str "rows") ∧
    (invoke (respondingWith (.obj [("data", .str "rows"), ("success", .bool true)]))
        (.deletePayment (.num 4))).result
      = .ok (.obj [("data", .str "rows"), ("success", .bool true)]) :=
  ⟨(success_unwraps_data
      (respondingWith (.obj [("data", .str "rows"), ("success", .bool true)]))
      (.getPayments .undefined) [("data", .obj [("data", .str "rows"), ("success", .bool true)]),
        ("status", .num 200)] [("data", .str "rows"), ("success", .bool true)]
      (fun _ _ => rfl) rfl).1 rfl,
   (success_unwraps_data
      (respondingWith (.obj [("data", .str "rows"), ("success", .bool true)]))
      (.checkinAirbnbGuest (.num 4))
      [("data", .obj [("data", .str "rows"), ("success", .bool true)]),
        ("status", .num 200)] [("data", .str "rows"), ("success", .bool true)]
      (fun _ _ => rfl) rfl).1 rfl,
   (success_unwraps_data
      (respondingWith (.obj [("data", .str "rows"), ("success", .bool true)]))
      (.deletePayment (.num 4))
      [("data", .obj [("data", .str "rows"), ("success", .bool true)]),
        ("status", .num 200)] [("data", .str "rows"), ("success", .bool true)]
      (fun _ _ => rfl) rfl).2 rfl⟩

/-- C11 as stated fails: a 404 whose body is the JSON value `false` is a
failure with a response and a body, yet getApartments throws the
connection-error object, not that body. -/
theorem falsy_body_not_rethrown :
    hasResponse (httpFailure 404 (.bool false)) = true ∧
    bodyOf (httpFailure 404 (.bool false)) = .bool false ∧
    (getApartments (client (failingWith (httpFailure 404 (.bool false))) loggedIn)).result
      = .error (.obj [("error", .str "Error de conexión")]) ∧
    (getApartments (client (failingWith (httpFailure 404 (.bool false))) loggedIn)).result
      ≠ .error (.bool false) := by
  have h : (getApartments (client (failingWith (httpFailure 404 (.bool false))) loggedIn)).result
      = .error (.obj [("error", .str "Error de conexión")]) := by
    rw [getApartments, resourceCall_failure _ _ _ _ _ (client_failure _ _ _ _ rfl),
      catchBlock_enhanced]
    rfl
  refine ⟨rfl, rfl, h, ?_⟩
  rw [h]
  simp

/-- C11 (amended): for every resource function and every failure of its HTTP
call, the function throws the server's response body when the failure has a
response whose body is truthy, and otherwise (no response, or a body that is
missing, null, empty, 0 or false) throws the object {error: 'Error de
conexión'}; what the function catches is the interceptor's enhanced error,
and the thrown value is never that enhanced error object. -/
theorem failure_rethrows_body (net : Transport) (w : Browser) (inv : Invocation)
    (error : JsObj)
    (hfail : ∀ c, c ∈ (invoke (client net w) inv).calls → net c = .error error) :
    (truthy (responseData error) = true →
      (invoke (client net w) inv).result = .error (responseData error)) ∧
    (truthy (responseData error) = false →
      (invoke (client net w) inv).result = .error connectionError) ∧
    (∀ c, c ∈ (invoke (client net w) inv).calls →
      client net w c = .error (.obj (enhancedError error (mapError error w).1))) ∧
    (invoke (client net w) inv).result
      ≠ .error (.obj (enhancedError error (mapError error w).1)) := by
  have hone : ∀ (call : HttpCall) (unwrap : JsVal → Except JsVal JsVal) (label : Option String),
      call ∈ (resourceCall (client net w) call unwrap label).calls := by
    intro call unwrap label
    rw [resourceCall_calls]
    exact List.mem_singleton.2 rfl
  have hres : (invoke (client net w) inv).result
      = .error (jsOr (responseData error) connectionError) := by
    cases inv <;>
      exact (resourceCall_failure _ _ _ _ _
        (client_failure net w _ error (hfail _ (hone _ _ _)))).trans
        (catchBlock_enhanced _ error _)
  refine ⟨?_, ?_, ?_, ?_⟩
  · intro ht
    rw [hres]
    simp [jsOr, ht]
  · intro ht
    rw [hres]
    simp [jsOr, ht]
  · intro c hc
    exact client_failure net w c error (hfail c hc)
  · rw [hres]
    intro h
    injection h with h
    by_cases ht : truthy (responseData error) = true
    · simp only [jsOr, ht, if_true] at h
      exact responseData_ne_enhancedError error _ h
    · simp only [jsOr, ht] at h
      exact connectionError_ne_enhancedError error _ h

/-- Witness for C11: a 500 with a structured body surfaces that body from
getPayments, a network failure surfaces the connection-error object. -/
theorem failure_rethrows_body_witness :
    (invoke (client (failingWith (httpFailure 500 (.obj [("error", .str "boom")]))) loggedIn)
        (.getPayments .undefined)).result = .error (.obj [("error", .str "boom")]) ∧
    (invoke (client (failingWith [("message", .str "Network Error"), ("request", .obj [])])
        loggedIn) (.updateEvent (.num 2) (.obj []))).result = .error connectionError :=
  ⟨(failure_rethrows_body (failingWith (httpFailure 500 (.obj [("error", .str "boom")])))
      loggedIn (.getPayments .undefined) (httpFailure 500 (.obj [("error", .str "boom")]))
      (fun _ _ => rfl)).1 rfl,
   (failure_rethrows_body (failingWith [("message", .str "Network Error"), ("request", .obj [])])
      loggedIn (.updateEvent (.num 2) (.obj []))
      [("message", .str "Network Error"), ("request", .obj [])] (fun _ _ => rfl)).2.1 rfl⟩

/-- C12: on a status-500 failure of GET /payments the interceptor attaches the
fixed server-error userMessage, but getPayments rethrows the bare server
body, so the error caught by fetchPayments has no userMessage and the
Payments banner reads 'Error al cargar pagos' instead of the fixed
server-error message; the banner's retry action is fetchPayments, which
issues GET /payments with no month. -/
theorem payments_banner_hides_server_error :
    userMessageOf (client (failingWith (httpFailure 500 (.obj [("error", .str "db down")])))
        loggedIn ⟨.GET, "/payments", .undefined⟩)
      = .str "Error interno del servidor. Inténtalo más tarde" ∧
    (getPayments (client (failingWith (httpFailure 500 (.obj [("error", .str "db down")])))
        loggedIn) .undefined).result = .error (.obj [("error", .str "db down")]) ∧
    (Payments.fetchPayments
        (client (failingWith (httpFailure 500 (.obj [("error", .str "db down")]))) loggedIn)
        ⟨Payments.initial, [], []⟩).state.error = .str "Error al cargar pagos" ∧
    (Payments.fetchPayments
        (client (failingWith (httpFailure 500 (.obj [("error", .str "db down")]))) loggedIn)
        ⟨Payments.initial, [], []⟩).state.error
      ≠ .str "Error interno del servidor. Inténtalo más tarde" ∧
    (Payments.banner (Payments.fetchPayments
        (client (failingWith (httpFailure 500 (.obj [("error", .str "db down")]))) loggedIn)
        ⟨Payments.initial, [], []⟩).state).map Prod.snd = some Payments.fetchPayments ∧
    (Payments.fetchPayments
        (client (failingWith (httpFailure 500 (.obj [("error", .str "db down")]))) loggedIn)
        ⟨Payments.initial, [], []⟩).calls = [⟨.GET, "/payments", .undefined⟩] := by
  have hres : (getPayments
      (client (failingWith (httpFailure 500 (.obj [("error", .str "db down")]))) loggedIn)
      .undefined).result = .error (.obj [("error", .str "db down")]) := by
    rw [getPayments, resourceCall_failure _ _ _ _ _ (client_failure _ _ _ _ rfl),
      catchBlock_enhanced]
    rfl
  have hcalls : (getPayments
      (client (failingWith (httpFailure 500 (.obj [("error", .str "db down")]))) loggedIn)
      .undefined).calls = [⟨.GET, "/payments", .undefined⟩] := by
    rw [getPayments, resourceCall_calls]
    rfl
  have hstate : (Payments.fetchPayments
      (client (failingWith (httpFailure 500 (.obj [("error", .str "db down")]))) loggedIn)
      ⟨Payments.initial, [], []⟩).state.error = .str "Error al cargar pagos" := by
    simp [Payments.fetchPayments, hres, member, prop, lookup, jsOr, truthy]
  refine ⟨?_, hres, hstate, ?_, ?_, ?_⟩
  · rw [client_failure _ _ _ _ rfl]
    simp [userMessageOf, prop, enhancedError, lookup_setProp, mapError, httpFailure, lookup,
      truthy, strictEqNum]
  · rw [hstate]
    simp
  · simp [Payments.banner, hstate, truthy]
  · simp [Payments.fetchPayments, hres, member, prop, lookup, hcalls]

/-- C13 as stated fails: getPayments takes no id argument, yet the path it
requests changes with its month argument. -/
theorem payments_path_varies_with_month :
    Invocation.fn (.getPayments (.str "2024-05")) = Invocation.fn (.getPayments .undefined) ∧
    Invocation.idArg (.getPayments (.str "2024-05")) = none ∧
    Invocation.idArg (.getPayments .undefined) = none ∧
    (invoke (respondingWith .null) (.getPayments (.str "2024-05"))).calls.map HttpCall.path
      = ["/payments?month=2024-05"] ∧
    (invoke (respondingWith .null) (.getPayments .undefined)).calls.map HttpCall.path
      = ["/payments"] := by
  refine ⟨rfl, rfl, rfl, ?_, ?_⟩ <;>
    simp [invoke, getPayments, resourceCall_calls, truthy, toStr]

/-- C13 (amended): each resource convenience function issues exactly one HTTP
call per invocation, whatever the client answers (so nothing is retried on
failure), with a verb and path determined only by the function and its id
argument or, for getPayments, its month argument: login -> POST /auth/login
with body {email, password}; getDamageReports -> GET
/damage-reports/my-reports; registerPaymentAsPaid(id) -> PUT
/payments/{id}/pay with an empty object body; checkinAirbnbGuest(id) -> PUT
/airbnb/guests/{id}/checkin; getActiveAirbnbGuests -> GET
/airbnb/guests/active; update*(id, body) -> PUT /<resource>/{id};
delete*(id) -> DELETE /<resource>/{id}. -/
theorem one_call_per_invocation :
    (∀ (api : Api) (inv : Invocation), ∃ c, (invoke api inv).calls = [c]) ∧
    (∀ (api api' : Api) (inv : Invocation),
      (invoke api inv).calls = (invoke api' inv).calls) ∧
    (∀ (api api' : Api) (inv inv' : Invocation),
      inv.fn = inv'.fn → inv.pathArg = inv'.pathArg →
        (invoke api inv).calls.map (fun c => (c.verb, c.path))
          = (invoke api' inv').calls.map (fun c => (c.verb, c.path))) ∧
    (∀ (api : Api) (email password : JsVal),
      (login api email password).calls
        = [⟨.POST, "/auth/login", .obj [("email", email), ("password", password)]⟩]) ∧
    (∀ api : Api,
      (getDamageReports api).calls = [⟨.GET, "/damage-reports/my-reports", .undefined⟩]) ∧
    (∀ (api : Api) (id : JsVal),
      (registerPaymentAsPaid api id).calls
        = [⟨.PUT, "/payments/" ++ toStr id ++ "/pay", .obj []⟩]) ∧
    (∀ (api : Api) (id : JsVal),
      (checkinAirbnbGuest api id).calls
        = [⟨.PUT, "/airbnb/guests/" ++ toStr id ++ "/checkin", .undefined⟩]) ∧
    (∀ api : Api,
      (getActiveAirbnbGuests api).calls = [⟨.GET, "/airbnb/guests/active", .undefined⟩]) ∧
    (∀ (api : Api) (id body : JsVal),
      (updateApartment api id body).calls = [⟨.PUT, "/apartments/" ++ toStr id, body⟩] ∧
      (updatePayment api id body).calls = [⟨.PUT, "/payments/" ++ toStr id, body⟩] ∧
      (updateEvent api id body).calls = [⟨.PUT, "/maintenance/" ++ toStr id, body⟩] ∧
      (updateNotification api id body).calls
        = [⟨.PUT, "/notifications/" ++ toStr id, body⟩] ∧
      (updateDamageReport api id body).calls
        = [⟨.PUT, "/damage-reports/" ++ toStr id, body⟩] ∧
      (updateAirbnbGuest api id body).calls
        = [⟨.PUT, "/airbnb/guests/" ++ toStr id, body⟩]) ∧
    (∀ (api : Api) (id : JsVal),
      (deleteApartment api id).calls = [⟨.DELETE, "/apartments/" ++ toStr id, .undefined⟩] ∧
      (deletePayment api id).calls = [⟨.DELETE, "/payments/" ++ toStr id, .undefined⟩] ∧
      (deleteEvent api id).calls = [⟨.DELETE, "/maintenance/" ++ toStr id, .undefined⟩] ∧
      (deleteNotification api id).calls
        = [⟨.DELETE, "/notifications/" ++ toStr id, .undefined⟩] ∧
      (deleteDamageReport api id).calls
        = [⟨.DELETE, "/damage-reports/" ++ toStr id, .undefined⟩] ∧
      (deleteAirbnbGuest api id).calls
        = [⟨.DELETE, "/airbnb/guests/" ++ toStr id, .undefined⟩]) := by
  refine ⟨?_, ?_, ?_, ?_, ?_, ?_, ?_, ?_, ?_, ?_⟩
  · intro api inv
    cases inv <;> exact ⟨_, resourceCall_calls _ _ _ _⟩
  · intro api api' inv
    cases inv <;> exact (resourceCall_calls _ _ _ _).trans (resourceCall_calls _ _ _ _).symm
  · intro api api' inv inv' hfn hp
    cases inv <;> cases inv' <;>
      first
        | exact Fn.noConfusion hfn
        | (try simp only [Invocation.pathArg, Invocation.idArg, Option.some.injEq] at hp
           try subst hp
           simp [invoke, login, getApartments, createApartment, updateApartment,
             deleteApartment, createPayment, getPayments, registerPaymentAsPaid,
             updatePayment, deletePayment, getUsers, getEvents, createEvent, deleteEvent,
             updateEvent, createUser, getNotifications, createNotification,
             updateNotification, deleteNotification, getDamageReports, createDamageReport,
             updateDamageReport, deleteDamageReport, getAirbnbGuests, getActiveAirbnbGuests,
             createAirbnbGuest, updateAirbnbGuest, checkinAirbnbGuest, deleteAirbnbGuest,
             resourceCall_calls])
  · intro api email password
    exact resourceCall_calls _ _ _ _
  · intro api
    exact resourceCall_calls _ _ _ _
  · intro api id
    exact resourceCall_calls _ _ _ _
  · intro api id
    exact resourceCall_calls _ _ _ _
  · intro api
    exact resourceCall_calls _ _ _ _
  · intro api id body
    exact ⟨resourceCall_calls _ _ _ _, resourceCall_calls _ _ _ _, resourceCall_calls _ _ _ _,
      resourceCall_calls _ _ _ _, resourceCall_calls _ _ _ _, resourceCall_calls _ _ _ _⟩
  · intro api id
    exact ⟨resourceCall_calls _ _ _ _, resourceCall_calls _ _ _ _, resourceCall_calls _ _ _ _,
      resourceCall_calls _ _ _ _, resourceCall_calls _ _ _ _, resourceCall_calls _ _ _ _⟩

/-- Witness for C13: two updates of the same apartment with different bodies,
one answered and one rejected, request the same verb and path. -/
theorem one_call_per_invocation_witness :
    (invoke (respondingWith .null) (.updateApartment (.num 7) (.obj []))).calls.map
        (fun c => (c.verb, c.path))
      = (invoke (rejectingWith .null)
          (.updateApartment (.num 7) (.obj [("floor", .num 2)]))).calls.map
        (fun c => (c.verb, c.path)) :=
  one_call_per_invocation.2.2.1 (respondingWith .null) (rejectingWith .null)
    (.updateApartment (.num 7) (.obj [])) (.updateApartment (.num 7) (.obj [("floor", .num 2)]))
    rfl rfl

/-- C14 as stated fails: a month that is supplied but falsy (the number 0, the
empty string) is not put into the path; getPayments requests '/payments'. -/
theorem falsy_month_dropped :
    (getPayments (respondingWith .null) (.num 0)).calls = [⟨.GET, "/payments", .undefined⟩] ∧
    (getPayments (respondingWith .null) (.num 0)).calls.map HttpCall.path
      ≠ ["/payments?month=" ++ toStr (.num 0)] ∧
    (getPayments (respondingWith .null) (.str "")).calls.map HttpCall.path
      ≠ ["/payments?month=" ++ toStr (.str "")] := by
  refine ⟨?_, ?_, ?_⟩
  · simp [getPayments, resourceCall_calls, truthy]
  · simp only [getPayments, resourceCall_calls, truthy, toStr]
    decide
  · simp [getPayments, resourceCall_calls, truthy, toStr]

/-- C14 (amended): for every truthy month argument (a non-empty string, a
non-zero number) getPayments requests the path '/payments?month=' followed
by the month; when no month is supplied, or the month is empty, 0 or
otherwise falsy, it requests exactly '/payments' with no query string. -/
theorem payments_month_query (api : Api) (month : JsVal) :
    (truthy month = true →
      (getPayments api month).calls
        = [⟨.GET, "/payments?month=" ++ toStr month, .undefined⟩]) ∧
    (truthy month = false →
      (getPayments api month).calls = [⟨.GET, "/payments", .undefined⟩]) ∧
    (getPayments api .undefined).calls = [⟨.GET, "/payments", .undefined⟩] := by
  refine ⟨?_, ?_, ?_⟩
  · intro h
    simp only [getPayments, resourceCall_calls, h, if_true, ← String.append_assoc]
    rfl
  · intro h
    simp [getPayments, resourceCall_calls, h]
  · simp [getPayments, resourceCall_calls, truthy]

/-- Witness for C14: the month '2024-05' is sent as a query string. -/
theorem payments_month_query_witness :
    (getPayments (respondingWith .null) (.str "2024-05")).calls
      = [⟨.GET, "/payments?month=" ++ toStr (.str "2024-05"), .undefined⟩] :=
  (payments_month_query (respondingWith .null) (.str "2024-05")).1 rfl

/-! ## Pages -/

/-- C15 as stated fails: after a successful creation the list cell is not
always the fetched payload.  When the backend answers the re-fetch of the
damage reports with the payload `null`, the reports on display are replaced
by the empty list; when it answers the re-fetch of the Airbnb guests with
`[null, {id: 1}]`, the guest list holds only `{id: 1}`. -/
theorem fetched_payload_not_stored_verbatim :
    backendWith .null (DamageReports.submitCall DamageReports.initial)
      = .ok (.obj [("data", .obj [("success", .bool true)])]) ∧
    fetchedFrom "/damage-reports/my-reports" (backendWith .null) = .ok .null ∧
    (DamageReports.handleCreate (backendWith .null)
        ⟨{ DamageReports.initial with reports := .arr [.obj [("title", .str "Gotera")]] },
          [], []⟩).state.reports = .arr [] ∧
    backendWith (.arr [.null, .obj [("id", .num 1)]]) (Airbnb.submitCall Airbnb.initial)
      = .ok (.obj [("data", .obj [("success", .bool true)])]) ∧
    fetchedFrom "/airbnb/guests" (backendWith (.arr [.null, .obj [("id", .num 1)]]))
      = .ok (.arr [.null, .obj [("id", .num 1)]]) ∧
    (Airbnb.handleCreate (backendWith (.arr [.null, .obj [("id", .num 1)]]))
        ⟨Airbnb.initial, [], []⟩).state.guests = .arr [.obj [("id", .num 1)]] := by
  refine ⟨rfl, rfl, rfl, rfl, rfl, rfl⟩

/-- C15 (amended): in every page, after every successful mutation (create or
update, delete, check-in, status change, mark-as-paid) the page re-fetches
the affected list and replaces its list cell wholesale, whatever the cell
held before: the cell holds `payload || []` (for the Airbnb guest list
`(payload || []).filter(Boolean)`, and the empty list when that raises),
which is exactly the fetched payload whenever the payload is a list of
records; when the mutation fails, no re-fetch is issued and the list cell is
left unchanged. -/
theorem pages_fetch_fresh :
    FetchFresh Airbnb.handleCreate (fun s => s.guests)
      (fun api s => api (Airbnb.submitCall s)) (fetchedFrom "/airbnb/guests")
      Airbnb.submitCall
      [⟨.GET, "/airbnb/guests", .undefined⟩, ⟨.GET, "/airbnb/guests/active", .undefined⟩] Airbnb.storedGuests ∧
    FetchFresh Airbnb.handleCreate (fun s => s.activeGuests)
      (fun api s => api (Airbnb.submitCall s)) (fetchedFrom "/airbnb/guests/active")
      Airbnb.submitCall
      [⟨.GET, "/airbnb/guests", .undefined⟩, ⟨.GET, "/airbnb/guests/active", .undefined⟩] storedList ∧
    (∀ id : JsVal,
      FetchFresh (Airbnb.handleCheckIn id) (fun s => s.guests)
        (fun api _ => api ⟨.PUT, "/airbnb/guests/" ++ toStr id ++ "/checkin", .undefined⟩)
        (fetchedFrom "/airbnb/guests")
        (fun _ => ⟨.PUT, "/airbnb/guests/" ++ toStr id ++ "/checkin", .undefined⟩)
        [⟨.GET, "/airbnb/guests", .undefined⟩, ⟨.GET, "/airbnb/guests/active", .undefined⟩] Airbnb.storedGuests ∧
      FetchFresh (Airbnb.handleCheckIn id) (fun s => s.activeGuests)
        (fun api _ => api ⟨.PUT, "/airbnb/guests/" ++ toStr id ++ "/checkin", .undefined⟩)
        (fetchedFrom "/airbnb/guests/active")
        (fun _ => ⟨.PUT, "/airbnb/guests/" ++ toStr id ++ "/checkin", .undefined⟩)
        [⟨.GET, "/airbnb/guests", .undefined⟩, ⟨.GET, "/airbnb/guests/active", .undefined⟩] storedList ∧
      FetchFresh (Airbnb.handleDelete true id) (fun s => s.guests)
        (fun api _ => api ⟨.DELETE, "/airbnb/guests/" ++ toStr id, .undefined⟩)
        (fetchedFrom "/airbnb/guests")
        (fun _ => ⟨.DELETE, "/airbnb/guests/" ++ toStr id, .undefined⟩)
        [⟨.GET, "/airbnb/guests", .undefined⟩, ⟨.GET, "/airbnb/guests/active", .undefined⟩] Airbnb.storedGuests ∧
      FetchFresh (Airbnb.handleDelete true id) (fun s => s.activeGuests)
        (fun api _ => api ⟨.DELETE, "/airbnb/guests/" ++ toStr id, .undefined⟩)
        (fetchedFrom "/airbnb/guests/active")
        (fun _ => ⟨.DELETE, "/airbnb/guests/" ++ toStr id, .undefined⟩)
        [⟨.GET, "/airbnb/guests", .undefined⟩, ⟨.GET, "/airbnb/guests/active", .undefined⟩] storedList) ∧
    FetchFresh DamageReports.handleCreate (fun s => s.reports)
      (fun api s => api (DamageReports.submitCall s))
      (fetchedFrom "/damage-reports/my-reports") DamageReports.submitCall
      [⟨.GET, "/damage-reports/my-reports", .undefined⟩] storedList ∧
    (∀ id newStatus : JsVal,
      FetchFresh (DamageReports.handleDelete true id) (fun s => s.reports)
        (fun api _ => api ⟨.DELETE, "/damage-reports/" ++ toStr id, .undefined⟩)
        (fetchedFrom "/damage-reports/my-reports")
        (fun _ => ⟨.DELETE, "/damage-reports/" ++ toStr id, .undefined⟩)
        [⟨.GET, "/damage-reports/my-reports", .undefined⟩] storedList ∧
      FetchFresh (DamageReports.handleStatusChange id newStatus) (fun s => s.reports)
        (fun api _ =>
          api ⟨.PUT, "/damage-reports/" ++ toStr id, .obj [("status", newStatus)]⟩)
        (fetchedFrom "/damage-reports/my-reports")
        (fun _ => ⟨.PUT, "/damage-reports/" ++ toStr id, .obj [("status", newStatus)]⟩)
        [⟨.GET, "/damage-reports/my-reports", .undefined⟩] storedList) ∧
    FetchFresh Maintenance.handleCreate (fun s => s.maintenances)
      (fun api s => api ⟨.POST, "/maintenance", s.formData⟩) (fetchedFrom "/maintenance")
      (fun s => ⟨.POST, "/maintenance", s.formData⟩) [⟨.GET, "/maintenance", .undefined⟩] storedList ∧
    FetchFresh Payments.handleCreate (fun s => s.payments)
      (fun api s => (createPayment api s.formData).result)
      (fun api => (getPayments api .undefined).result)
      (fun s => ⟨.POST, "/payments", s.formData⟩) [⟨.GET, "/payments", .undefined⟩] storedList ∧
    (∀ id : JsVal,
      FetchFresh (Payments.handleMarkAsPaid id) (fun s => s.payments)
        (fun api _ => (registerPaymentAsPaid api id).result)
        (fun api => (getPayments api .undefined).result)
        (fun _ => ⟨.PUT, "/payments/" ++ toStr id ++ "/pay", .obj []⟩)
        [⟨.GET, "/payments", .undefined⟩] storedList) ∧
    FetchFresh Users.handleCreate (fun s => s.users)
      (fun api s => api ⟨.POST, "/users", s.formData⟩) (fetchedFrom "/users")
      (fun s => ⟨.POST, "/users", s.formData⟩) [⟨.GET, "/users", .undefined⟩] storedList := by
  refine ⟨?_, ?_, fun id => ⟨?_, ?_, ?_, ?_⟩, ?_, fun id newStatus => ⟨?_, ?_⟩, ?_, ?_,
    fun id => ?_, ?_⟩
  -- Airbnb.handleCreate, guests
  · intro api r
    refine ⟨fun v hm => ?_, fun v payload hm hf hp => ?_, fun v payload hm hf => ?_,
      fun e hm => ?_⟩
    · simp only [Airbnb.handleCreate, hm, Airbnb.fetchActiveGuests_calls, Airbnb.fetchGuests_calls]
      simp
    · simp only [Airbnb.handleCreate, hm, Airbnb.fetchActiveGuests_guests,
        Airbnb.fetchActiveGuests_calls, Airbnb.fetchGuests_calls,
        Airbnb.fetchGuests_ok _ _ payload hf hp]
    · simp only [Airbnb.handleCreate, hm, Airbnb.fetchActiveGuests_guests,
        Airbnb.fetchActiveGuests_calls, Airbnb.fetchGuests_calls,
        Airbnb.fetchGuests_stored _ _ payload hf]
    · simp [Airbnb.handleCreate, hm]
  -- Airbnb.handleCreate, activeGuests
  · intro api r
    refine ⟨fun v hm => ?_, fun v payload hm hf hp => ?_, fun v payload hm hf => ?_,
      fun e hm => ?_⟩
    · simp only [Airbnb.handleCreate, hm, Airbnb.fetchActiveGuests_calls, Airbnb.fetchGuests_calls]
      simp
    · simp only [Airbnb.handleCreate, hm, Airbnb.fetchActiveGuests_calls,
        Airbnb.fetchGuests_calls, Airbnb.fetchActiveGuests_ok _ _ payload hf hp]
    · simp only [Airbnb.handleCreate, hm, Airbnb.fetchActiveGuests_calls,
        Airbnb.fetchGuests_calls, Airbnb.fetchActiveGuests_stored _ _ payload hf]
    · simp [Airbnb.handleCreate, hm]
  -- Airbnb.handleCheckIn
  · intro api r
    refine ⟨fun v hm => ?_, fun v payload hm hf hp => ?_, fun v payload hm hf => ?_,
      fun e hm => ?_⟩
    · simp only [Airbnb.handleCheckIn, hm, Airbnb.fetchActiveGuests_calls, Airbnb.fetchGuests_calls]
      simp
    · simp only [Airbnb.handleCheckIn, hm, Airbnb.fetchActiveGuests_guests,
        Airbnb.fetchActiveGuests_calls, Airbnb.fetchGuests_calls,
        Airbnb.fetchGuests_ok _ _ payload hf hp]
    · simp only [Airbnb.handleCheckIn, hm, Airbnb.fetchActiveGuests_guests,
        Airbnb.fetchActiveGuests_calls, Airbnb.fetchGuests_calls,
        Airbnb.fetchGuests_stored _ _ payload hf]
    · simp [Airbnb.handleCheckIn, hm]
  · intro api r
    refine ⟨fun v hm => ?_, fun v payload hm hf hp => ?_, fun v payload hm hf => ?_,
      fun e hm => ?_⟩
    · simp only [Airbnb.handleCheckIn, hm, Airbnb.fetchActiveGuests_calls, Airbnb.fetchGuests_calls]
      simp
    · simp only [Airbnb.handleCheckIn, hm, Airbnb.fetchActiveGuests_calls,
        Airbnb.fetchGuests_calls, Airbnb.fetchActiveGuests_ok _ _ payload hf hp]
    · simp only [Airbnb.handleCheckIn, hm, Airbnb.fetchActiveGuests_calls,
        Airbnb.fetchGuests_calls, Airbnb.fetchActiveGuests_stored _ _ payload hf]
    · simp [Airbnb.handleCheckIn, hm]
  -- Airbnb.handleDelete
  · intro api r
    refine ⟨fun v hm => ?_, fun v payload hm hf hp => ?_, fun v payload hm hf => ?_,
      fun e hm => ?_⟩
    · simp only [Airbnb.handleDelete, if_true, hm, Airbnb.fetchActiveGuests_calls,
        Airbnb.fetchGuests_calls]
      simp
    · simp only [Airbnb.handleDelete, if_true, hm, Airbnb.fetchActiveGuests_guests,
        Airbnb.fetchActiveGuests_calls, Airbnb.fetchGuests_calls,
        Airbnb.fetchGuests_ok _ _ payload hf hp]
    · simp only [Airbnb.handleDelete, if_true, hm, Airbnb.fetchActiveGuests_guests,
        Airbnb.fetchActiveGuests_calls, Airbnb.fetchGuests_calls,
        Airbnb.fetchGuests_stored _ _ payload hf]
    · simp [Airbnb.handleDelete, hm]
  · intro api r
    refine ⟨fun v hm => ?_, fun v payload hm hf hp => ?_, fun v payload hm hf => ?_,
      fun e hm => ?_⟩
    · simp only [Airbnb.handleDelete, if_true, hm, Airbnb.fetchActiveGuests_calls,
        Airbnb.fetchGuests_calls]
      simp
    · simp only [Airbnb.handleDelete, if_true, hm, Airbnb.fetchActiveGuests_calls,
        Airbnb.fetchGuests_calls, Airbnb.fetchActiveGuests_ok _ _ payload hf hp]
    · simp only [Airbnb.handleDelete, if_true, hm, Airbnb.fetchActiveGuests_calls,
        Airbnb.fetchGuests_calls, Airbnb.fetchActiveGuests_stored _ _ payload hf]
    · simp [Airbnb.handleDelete, hm]
  -- DamageReports.handleCreate
  · intro api r
    refine ⟨fun v hm => ?_, fun v payload hm hf hp => ?_, fun v payload hm hf => ?_,
      fun e hm => ?_⟩
    · simp only [DamageReports.handleCreate, hm, DamageReports.fetchReports_calls]
      simp
    · simp only [DamageReports.handleCreate, hm, DamageReports.fetchReports_calls,
        DamageReports.fetchReports_ok _ _ payload hf hp]
    · simp only [DamageReports.handleCreate, hm, DamageReports.fetchReports_calls,
        DamageReports.fetchReports_stored _ _ payload hf]
    · simp [DamageReports.handleCreate, hm]
  -- DamageReports.handleDelete
  · intro api r
    refine ⟨fun v hm => ?_, fun v payload hm hf hp => ?_, fun v payload hm hf => ?_,
      fun e hm => ?_⟩
    · simp only [DamageReports.handleDelete, if_true, hm, DamageReports.fetchReports_calls]
      simp
    · simp only [DamageReports.handleDelete, if_true, hm, DamageReports.fetchReports_calls,
        DamageReports.fetchReports_ok _ _ payload hf hp]
    · simp only [DamageReports.handleDelete, if_true, hm, DamageReports.fetchReports_calls,
        DamageReports.fetchReports_stored _ _ payload hf]
    · simp [DamageReports.handleDelete, hm]
  -- DamageReports.handleStatusChange
  · intro api r
    refine ⟨fun v hm => ?_, fun v payload hm hf hp => ?_, fun v payload hm hf => ?_,
      fun e hm => ?_⟩
    · simp only [DamageReports.handleStatusChange, hm, DamageReports.fetchReports_calls]
      simp
    · simp only [DamageReports.handleStatusChange, hm, DamageReports.fetchReports_calls,
        DamageReports.fetchReports_ok _ _ payload hf hp]
    · simp only [DamageReports.handleStatusChange, hm, DamageReports.fetchReports_calls,
        DamageReports.fetchReports_stored _ _ payload hf]
    · simp [DamageReports.handleStatusChange, hm]
  -- Maintenance.handleCreate
  · intro api r
    refine ⟨fun v hm => ?_, fun v payload hm hf hp => ?_, fun v payload hm hf => ?_,
      fun e hm => ?_⟩
    · simp only [Maintenance.handleCreate, hm, Maintenance.fetchMaintenances_calls]
      simp
    · simp only [Maintenance.handleCreate, hm, Maintenance.fetchMaintenances_calls,
        Maintenance.fetchMaintenances_ok _ _ payload hf hp]
    · simp only [Maintenance.handleCreate, hm, Maintenance.fetchMaintenances_calls,
        Maintenance.fetchMaintenances_stored _ _ payload hf]
    · simp only [Maintenance.handleCreate, hm]
      split <;> simp
  -- Payments.handleCreate
  · intro api r
    have hc : (createPayment api r.state.formData).calls
        = [⟨.POST, "/payments", r.state.formData⟩] := resourceCall_calls _ _ _ _
    refine ⟨fun v hm => ?_, fun v payload hm hf hp => ?_, fun v payload hm hf => ?_,
      fun e hm => ?_⟩
    · simp only [Payments.handleCreate, hm, Payments.fetchPayments_calls, hc]
      simp
    · simp only [Payments.handleCreate, hm, Payments.fetchPayments_calls,
        Payments.fetchPayments_ok _ _ payload hf hp, hc]
    · simp only [Payments.handleCreate, hm, Payments.fetchPayments_calls,
        Payments.fetchPayments_stored _ _ payload hf, hc]
    · simp only [Payments.handleCreate, hm, hc]
      split <;> simp
  -- Payments.handleMarkAsPaid
  · intro api r
    have hc : (registerPaymentAsPaid api id).calls
        = [⟨.PUT, "/payments/" ++ toStr id ++ "/pay", .obj []⟩] := resourceCall_calls _ _ _ _
    refine ⟨fun v hm => ?_, fun v payload hm hf hp => ?_, fun v payload hm hf => ?_,
      fun e hm => ?_⟩
    · simp only [Payments.handleMarkAsPaid, hm, Payments.fetchPayments_calls, hc]
      simp
    · simp only [Payments.handleMarkAsPaid, hm, Payments.fetchPayments_calls,
        Payments.fetchPayments_ok _ _ payload hf hp, hc]
    · simp only [Payments.handleMarkAsPaid, hm, Payments.fetchPayments_calls,
        Payments.fetchPayments_stored _ _ payload hf, hc]
    · simp only [Payments.handleMarkAsPaid, hm, hc]
      split <;> simp
  -- Users.handleCreate
  · intro api r
    refine ⟨fun v hm => ?_, fun v payload hm hf hp => ?_, fun v payload hm hf => ?_,
      fun e hm => ?_⟩
    · simp only [Users.handleCreate, hm, Users.fetchUsers_calls]
      simp
    · simp only [Users.handleCreate, hm, Users.fetchUsers_calls,
        Users.fetchUsers_ok _ _ payload hf hp]
    · simp only [Users.handleCreate, hm, Users.fetchUsers_calls,
        Users.fetchUsers_stored _ _ payload hf]
    · simp only [Users.handleCreate, hm]
      split <;> simp

/-- Witness for C15: creating a resident replaces a stale list by the fetched
one, and by the empty list when the fetched payload is `null`; a rejected
creation leaves the list and issues no GET. -/
theorem pages_fetch_fresh_witness :
    ((Users.handleCreate (backendWith (.arr [.obj [("name", .str "Ana")]]))
        ⟨{ Users.initial with users := .arr [.obj [("name", .str "Luis")]] }, [], []⟩).state.users
      = .arr [.obj [("name", .str "Ana")]] ∧
     (Users.handleCreate (backendWith (.arr [.obj [("name", .str "Ana")]]))
        ⟨{ Users.initial with users := .arr [.obj [("name", .str "Luis")]] }, [], []⟩).calls
      = [] ++ [⟨.POST, "/users", Users.blankForm⟩, ⟨.GET, "/users", .undefined⟩]) ∧
    (Users.handleCreate (backendWith .null)
        ⟨{ Users.initial with users := .arr [.obj [("name", .str "Luis")]] }, [], []⟩).state.users
      = .arr [] ∧
    ((Users.handleCreate (rejectingWith (.obj [("userMessage", .str "Datos inválidos")]))
        ⟨{ Users.initial with users := .arr [.obj [("name", .str "Luis")]] }, [], []⟩).state.users
      = .arr [.obj [("name", .str "Luis")]] ∧
     (Users.handleCreate (rejectingWith (.obj [("userMessage", .str "Datos inválidos")]))
        ⟨{ Users.initial with users := .arr [.obj [("name", .str "Luis")]] }, [], []⟩).calls
      = [] ++ [⟨.POST, "/users", Users.blankForm⟩]) :=
  ⟨⟨(pages_fetch_fresh.2.2.2.2.2.2.2.2 (backendWith (.arr [.obj [("name", .str "Ana")]]))
      ⟨{ Users.initial with users := .arr [.obj [("name", .str "Luis")]] }, [], []⟩).2.1
      _ (.arr [.obj [("name", .str "Ana")]]) rfl rfl rfl,
    (pages_fetch_fresh.2.2.2.2.2.2.2.2 (backendWith (.arr [.obj [("name", .str "Ana")]]))
      ⟨{ Users.initial with users := .arr [.obj [("name", .str "Luis")]] }, [], []⟩).1
      _ rfl⟩,
   (pages_fetch_fresh.2.2.2.2.2.2.2.2 (backendWith .null)
      ⟨{ Users.initial with users := .arr [.obj [("name", .str "Luis")]] }, [], []⟩).2.2.1
      _ .null rfl rfl,
   (pages_fetch_fresh.2.2.2.2.2.2.2.2
      (rejectingWith (.obj [("userMessage", .str "Datos inválidos")]))
      ⟨{ Users.initial with users := .arr [.obj [("name", .str "Luis")]] }, [], []⟩).2.2.2
      _ rfl⟩

/-- C16 as stated fails: when the list fetch of the damage reports page fails
while reports are on display, the page keeps the stale reports; the list is
not emptied and no message is set (only `loading` changes). -/
theorem failed_fetch_keeps_stale_reports :
    client (failingWith (httpFailure 500 .null)) loggedIn
        ⟨.GET, "/damage-reports/my-reports", .undefined⟩
      = .error (.obj (enhancedError (httpFailure 500 .null)
          (.str "Error interno del servidor. Inténtalo más tarde"))) ∧
    (DamageReports.fetchReports (client (failingWith (httpFailure 500 .null)) loggedIn)
        ⟨{ DamageReports.initial with reports := .arr [.obj [("title", .str "Gotera")]] },
          [], []⟩).state
      = { DamageReports.initial with
          reports := .arr [.obj [("title", .str "Gotera")]], loading := false } ∧
    (DamageReports.fetchReports (client (failingWith (httpFailure 500 .null)) loggedIn)
        ⟨{ DamageReports.initial with reports := .arr [.obj [("title", .str "Gotera")]] },
          [], []⟩).state.reports ≠ .arr [] := by
  have hc : client (failingWith (httpFailure 500 .null)) loggedIn
        ⟨.GET, "/damage-reports/my-reports", .undefined⟩
      = .error (.obj (enhancedError (httpFailure 500 .null)
          (.str "Error interno del servidor. Inténtalo más tarde"))) := by
    rw [client_failure _ _ _ _ rfl]
    simp [mapError, httpFailure, lookup, prop, truthy, strictEqNum]
  refine ⟨hc, ?_, ?_⟩
  · simp [DamageReports.fetchReports, hc, Except.bind, DamageReports.initial]
  · simp [DamageReports.fetchReports, hc, Except.bind]

/-- C16 (amended): every page-level list fetch catches a failed fetch, and
after the failure the list cell is the empty list (Airbnb fetchGuests, the
three Payments fetches, Maintenance fetchMaintenances, Users fetchUsers),
with the page's error message set as well in fetchPayments,
fetchMaintenances and Users fetchUsers, or the list cell is left as it was
(Airbnb fetchActiveGuests and fetchApartments, DamageReports fetchReports
and fetchApartments). -/
theorem failed_fetch_degrades (api : Api) (e : JsObj) :
    (∀ r, api ⟨.GET, "/airbnb/guests", .undefined⟩ = .error (.obj e) →
      (Airbnb.fetchGuests api r).state.guests = .arr []) ∧
    (∀ r, api ⟨.GET, "/airbnb/guests/active", .undefined⟩ = .error (.obj e) →
      (Airbnb.fetchActiveGuests api r).state.activeGuests = r.state.activeGuests) ∧
    (∀ r, api ⟨.GET, "/apartments", .undefined⟩ = .error (.obj e) →
      (Airbnb.fetchApartments api r).state.apartments = r.state.apartments) ∧
    (∀ r, api ⟨.GET, "/damage-reports/my-reports", .undefined⟩ = .error (.obj e) →
      (DamageReports.fetchReports api r).state.reports = r.state.reports) ∧
    (∀ r, api ⟨.GET, "/apartments", .undefined⟩ = .error (.obj e) →
      (DamageReports.fetchApartments api r).state.apartments = r.state.apartments) ∧
    (∀ r, api ⟨.GET, "/maintenance", .undefined⟩ = .error (.obj e) →
      (Maintenance.fetchMaintenances api r).state.maintenances = .arr [] ∧
      (Maintenance.fetchMaintenances api r).state.error
        = jsOr (lookup e "userMessage") (.str "Error al cargar eventos") ∧
      truthy (Maintenance.fetchMaintenances api r).state.error = true) ∧
    (∀ r err, (getPayments api .undefined).result = .error err →
      (Payments.fetchPayments api r).state.payments = .arr [] ∧
      (Payments.fetchPayments api r).state.error
        = jsOr (prop err "userMessage") (.str "Error al cargar pagos") ∧
      truthy (Payments.fetchPayments api r).state.error = true) ∧
    (∀ r err, (getUsers api).result = .error err →
      (Payments.fetchUsers api r).state.users = .arr []) ∧
    (∀ r err, (getApartments api).result = .error err →
      (Payments.fetchApartments api r).state.apartments = .arr []) ∧
    (∀ r, api ⟨.GET, "/users", .undefined⟩ = .error (.obj e) →
      (Users.fetchUsers api r).state.users = .arr [] ∧
      (Users.fetchUsers api r).state.error
        = jsOr (lookup e "userMessage") (.str "Error al cargar usuarios") ∧
      truthy (Users.fetchUsers api r).state.error = true) := by
  refine ⟨?_, ?_, ?_, ?_, ?_, ?_, ?_, ?_, ?_, ?_⟩
  · intro r h
    simp [Airbnb.fetchGuests, h, Except.bind]
  · intro r h
    simp [Airbnb.fetchActiveGuests, h, Except.bind]
  · intro r h
    simp [Airbnb.fetchApartments, h, Except.bind]
  · intro r h
    simp [DamageReports.fetchReports, h, Except.bind]
  · intro r h
    simp [DamageReports.fetchApartments, h, Except.bind]
  · intro r h
    have hs : (Maintenance.fetchMaintenances api r).state
        = { r.state with
            error := jsOr (lookup e "userMessage") (.str "Error al cargar eventos"),
            maintenances := .arr [], loading := false } := by
      simp [Maintenance.fetchMaintenances, h, Except.bind, member, prop]
    rw [hs]
    exact ⟨rfl, rfl, truthy_jsOr_str _ _ (by decide)⟩
  · intro r err h
    have ht : truthy err = true := resourceCall_error_truthy _ _ _ _ _ h
    have hs : (Payments.fetchPayments api r).state
        = { r.state with
            error := jsOr (prop err "userMessage") (.str "Error al cargar pagos"),
            payments := .arr [], loading := false } := by
      simp [Payments.fetchPayments, h, member_of_truthy err "userMessage" ht]
    rw [hs]
    exact ⟨rfl, rfl, truthy_jsOr_str _ _ (by decide)⟩
  · intro r err h
    simp [Payments.fetchUsers, h]
  · intro r err h
    simp [Payments.fetchApartments, h]
  · intro r h
    have hs : (Users.fetchUsers api r).state
        = { r.state with
            error := jsOr (lookup e "userMessage") (.str "Error al cargar usuarios"),
            users := .arr [], loading := false } := by
      simp [Users.fetchUsers, h, Except.bind, member, prop]
    rw [hs]
    exact ⟨rfl, rfl, truthy_jsOr_str _ _ (by decide)⟩

/-- Witness for C16: a rejected list fetch on the residents page empties the
list and sets the message carried by the rejection. -/
theorem failed_fetch_degrades_witness :
    (Users.fetchUsers (rejectingWith (.obj [("userMessage", .str "Recurso no encontrado")]))
        ⟨{ Users.initial with users := .arr [.obj [("name", .str "Luis")]] }, [], []⟩).state.users
      = .arr [] ∧
    (Users.fetchUsers (rejectingWith (.obj [("userMessage", .str "Recurso no encontrado")]))
        ⟨{ Users.initial with users := .arr [.obj [("name", .str "Luis")]] }, [], []⟩).state.error
      = jsOr (lookup [("userMessage", .str "Recurso no encontrado")] "userMessage")
          (.str "Error al cargar usuarios") :=
  have h := (failed_fetch_degrades
    (rejectingWith (.obj [("userMessage", .str "Recurso no encontrado")]))
    [("userMessage", .str "Recurso no encontrado")]).2.2.2.2.2.2.2.2.2
    ⟨{ Users.initial with users := .arr [.obj [("name", .str "Luis")]] }, [], []⟩ rfl
  ⟨h.1, h.2.1⟩

/-- C17: for every event type string, getIcon and getIconColor classify the
lower-cased type by substring with the priority 'manten' -> (Build,
'#ee9738'), else 'fiesta' -> (Celebration, '#5c3eee'), else 'reuni' ->
(People, '#3eb063'), else (Event, '#2586b8'); a missing or empty type is
(Event, '#2586b8'); the two functions always return the icon and the colour
of the same class, and types with the same lower-cased form get the same
class. -/
theorem event_type_classification (toLowerCase : String → String) :
    (∀ s : String, s ≠ "" →
      (includes (toLowerCase s) "manten" = true →
        Maintenance.getIcon toLowerCase (.str s) = .ok .Build ∧
        Maintenance.getIconColor toLowerCase (.str s) = .ok "#ee9738") ∧
      (includes (toLowerCase s) "manten" = false →
        includes (toLowerCase s) "fiesta" = true →
        Maintenance.getIcon toLowerCase (.str s) = .ok .Celebration ∧
        Maintenance.getIconColor toLowerCase (.str s) = .ok "#5c3eee") ∧
      (includes (toLowerCase s) "manten" = false →
        includes (toLowerCase s) "fiesta" = false →
        includes (toLowerCase s) "reuni" = true →
        Maintenance.getIcon toLowerCase (.str s) = .ok .People ∧
        Maintenance.getIconColor toLowerCase (.str s) = .ok "#3eb063") ∧
      (includes (toLowerCase s) "manten" = false →
        includes (toLowerCase s) "fiesta" = false →
        includes (toLowerCase s) "reuni" = false →
        Maintenance.getIcon toLowerCase (.str s) = .ok .Event ∧
        Maintenance.getIconColor toLowerCase (.str s) = .ok "#2586b8")) ∧
    (∀ type : JsVal, type = .undefined ∨ type = .null ∨ type = .str "" →
      Maintenance.getIcon toLowerCase type = .ok .Event ∧
      Maintenance.getIconColor toLowerCase type = .ok "#2586b8") ∧
    (∀ type : JsVal, (∃ s, type = .str s) ∨ type = .undefined ∨ type = .null →
      ∃ icon, Maintenance.getIcon toLowerCase type = .ok icon ∧
        Maintenance.getIconColor toLowerCase type = .ok (Maintenance.classColor icon)) ∧
    (∀ s s' : String, s ≠ "" → s' ≠ "" → toLowerCase s = toLowerCase s' →
      Maintenance.getIcon toLowerCase (.str s) = Maintenance.getIcon toLowerCase (.str s') ∧
      Maintenance.getIconColor toLowerCase (.str s)
        = Maintenance.getIconColor toLowerCase (.str s')) := by
  have hfalsy : ∀ type : JsVal, type = .undefined ∨ type = .null ∨ type = .str "" →
      Maintenance.getIcon toLowerCase type = .ok .Event ∧
      Maintenance.getIconColor toLowerCase type = .ok "#2586b8" := by
    intro type h
    apply Maintenance.getIcon_falsy
    rcases h with h | h | h <;> subst h <;> rfl
  refine ⟨?_, hfalsy, ?_, ?_⟩
  · intro s hs
    rw [Maintenance.getIcon_str _ _ hs, Maintenance.getIconColor_str _ _ hs]
    refine ⟨?_, ?_, ?_, ?_⟩
    · intro h1
      simp [h1]
    · intro h1 h2
      simp [h1, h2]
    · intro h1 h2 h3
      simp [h1, h2, h3]
    · intro h1 h2 h3
      simp [h1, h2, h3]
  · intro type h
    rcases h with ⟨s, h⟩ | h | h
    · subst h
      by_cases hs : s = ""
      · subst hs
        exact ⟨.Event, (hfalsy _ (Or.inr (Or.inr rfl))).1, (hfalsy _ (Or.inr (Or.inr rfl))).2⟩
      · rw [Maintenance.getIcon_str _ _ hs, Maintenance.getIconColor_str _ _ hs]
        refine ⟨_, rfl, ?_⟩
        split_ifs <;> rfl
    · exact ⟨.Event, (hfalsy _ (Or.inl h)).1, (hfalsy _ (Or.inl h)).2⟩
    · exact ⟨.Event, (hfalsy _ (Or.inr (Or.inl h))).1, (hfalsy _ (Or.inr (Or.inl h))).2⟩
  · intro s s' hs hs' h
    rw [Maintenance.getIcon_str _ _ hs, Maintenance.getIconColor_str _ _ hs,
      Maintenance.getIcon_str _ _ hs', Maintenance.getIconColor_str _ _ hs', h]
    exact ⟨rfl, rfl⟩

/-- Witness for C17: 'MANTENIMIENTO General' is a maintenance event, 'Fiesta de
reunión' a party (the earlier class wins). -/
theorem event_type_classification_witness :
    (Maintenance.getIcon asciiLowerCase (.str "MANTENIMIENTO General") = .ok .Build ∧
     Maintenance.getIconColor asciiLowerCase (.str "MANTENIMIENTO General") = .ok "#ee9738") ∧
    (Maintenance.getIcon asciiLowerCase (.str "Fiesta de reunión") = .ok .Celebration ∧
     Maintenance.getIconColor asciiLowerCase (.str "Fiesta de reunión") = .ok "#5c3eee") :=
  ⟨((event_type_classification asciiLowerCase).1 "MANTENIMIENTO General" (by decide)).1 rfl,
   ((event_type_classification asciiLowerCase).1 "Fiesta de reunión" (by decide)).2.1 rfl rfl⟩

/-- C18: the success handler of the response interceptor returns the response
it was given, the very same value, and leaves storage, pathname and location
untouched; the client instance hands a successful response to its caller
as the transport produced it. -/
theorem success_passes_through (response : JsVal) (w : Browser) :
    (onResponseSuccess response w).1 = .ok response ∧
    (onResponseSuccess response w).2 = w ∧
    (∀ (net : Transport) (call : HttpCall), net call = .ok response →
      client net w call = .ok response) := by
  refine ⟨rfl, rfl, ?_⟩
  intro net call h
  simp [client, h, onResponseSuccess]

/-- C19: the base URL is the value of REACT_APP_API_URL when that is set and
non-empty, and 'http://localhost:3001/api' when it is unset or empty; the
Content-Type header is 'application/json' and the timeout 10000 ms. -/
theorem client_configuration :
    (∀ url : String, url ≠ "" →
      API_BASE_URL (.str url) = .str url ∧
      lookup (createConfig (.str url)) "baseURL" = .str url) ∧
    API_BASE_URL .undefined = .str "http://localhost:3001/api" ∧
    API_BASE_URL (.str "") = .str "http://localhost:3001/api" ∧
    (∀ envValue : JsVal,
      lookup (createConfig envValue) "baseURL" = API_BASE_URL envValue ∧
      prop (lookup (createConfig envValue) "headers") "Content-Type"
        = .str "application/json" ∧
      lookup (createConfig envValue) "timeout" = .num 10000) := by
  refine ⟨?_, rfl, rfl, ?_⟩
  · intro url h
    simp [API_BASE_URL, createConfig, lookup, jsOr, truthy, h]
  · intro envValue
    simp [createConfig, lookup, prop]

/-- Witness for C19: a configured backend address is used as the base URL. -/
theorem client_configuration_witness :
    API_BASE_URL (.str "https://api.conjunto.co") = .str "https://api.conjunto.co" ∧
    lookup (createConfig (.str "https://api.conjunto.co")) "baseURL"
      = .str "https://api.conjunto.co" :=
  client_configuration.1 "https://api.conjunto.co" (by decide)

/-- Witness for C18: a 200 response reaches the caller of the client as is. -/
theorem success_passes_through_witness :
    client (fun _ => .ok (.obj [("status", .num 200), ("data", .obj [])])) loggedIn
        ⟨.GET, "/users", .undefined⟩
      = .ok (.obj [("status", .num 200), ("data", .obj [])]) :=
  (success_passes_through (.obj [("status", .num 200), ("data", .obj [])]) loggedIn).2.2
    (fun _ => .ok (.obj [("status", .num 200), ("data", .obj [])]))
    ⟨.GET, "/users", .undefined⟩ rfl

/-- C20: for every list of users that all have a name, every role filter and
every search term, filteredUsers is the order-preserving sublist of exactly
those users whose role equals the filter (any role when the filter is
'all') and whose lower-cased name contains the trimmed, lower-cased search
term; with filter 'all' and an empty or whitespace-only search term it is
the whole list. -/
theorem users_filter (toLowerCase : String → String) (users : List JsVal)
    (filter searchTerm : String) (hnames : ∀ u, u ∈ users → Users.hasName u = true) :
    Users.filteredUsers toLowerCase users filter searchTerm
      = .ok (users.filter (Users.selected toLowerCase filter searchTerm)) ∧
    (users.filter (Users.selected toLowerCase filter searchTerm)).Sublist users ∧
    (∀ u, u ∈ users.filter (Users.selected toLowerCase filter searchTerm) ↔
      u ∈ users ∧ Users.selected toLowerCase filter searchTerm u = true) ∧
    (∀ (o : JsObj) (name : String), lookup o "name" = .str name →
      Users.selected toLowerCase filter searchTerm (.obj o)
        = ((filter == "all" || strictEqStr (lookup o "role") filter) &&
            includes (toLowerCase name) (toLowerCase (trim searchTerm)))) ∧
    (filter = "all" → toLowerCase "" = "" →
      (∀ c, c ∈ searchTerm.data → isTrimmed c = true) →
      Users.filteredUsers toLowerCase users filter searchTerm = .ok users) := by
  have hmain : Users.filteredUsers toLowerCase users filter searchTerm
      = .ok (users.filter (Users.selected toLowerCase filter searchTerm)) :=
    filterArray_ok _ _ _
      (fun u hu => Users.matchesUser_of_hasName toLowerCase filter searchTerm u (hnames u hu))
  refine ⟨hmain, List.filter_sublist _, ?_, ?_, ?_⟩
  · intro u
    exact List.mem_filter
  · intro o name hn
    simp [Users.selected, prop, hn]
  · intro hf hl ht
    rw [hmain]
    congr 1
    apply List.filter_eq_self.2
    intro u hu
    have hu' := hnames u hu
    cases u <;> simp [Users.hasName] at hu'
    rename_i o
    cases hn : lookup o "name" <;> simp [hn] at hu'
    simp [Users.selected, prop, hn, hf, trim_of_all_trimmed searchTerm ht, hl, includes_empty]

/-- Witness for C20: among Ana (owner) and Luis (tenant), the filter 'owner'
with the search ' AN ' keeps Ana only. -/
theorem users_filter_witness :
    Users.filteredUsers asciiLowerCase
        [.obj [("name", .str "Ana"), ("role", .str "owner")],
         .obj [("name", .str "Luis"), ("role", .str "tenant")]] "owner" " AN "
      = .ok ([.obj [("name", .str "Ana"), ("role", .str "owner")],
              .obj [("name", .str "Luis"), ("role", .str "tenant")]].filter
            (Users.selected asciiLowerCase "owner" " AN ")) ∧
    [JsVal.obj [("name", .str "Ana"), ("role", .str "owner")],
      .obj [("name", .str "Luis"), ("role", .str "tenant")]].filter
        (Users.selected asciiLowerCase "owner" " AN ")
      = [.obj [("name", .str "Ana"), ("role", .str "owner")]] :=
  ⟨(users_filter asciiLowerCase
      [.obj [("name", .str "Ana"), ("role", .str "owner")],
       .obj [("name", .str "Luis"), ("role", .str "tenant")]] "owner" " AN "
      (by simp [Users.hasName, lookup])).1,
   rfl⟩

/-! ## Pages: list filters -/

/-- C21 as stated fails: on a guest list holding a guest whose cédula is a
number, the search 'luis' makes the filter raise; there is no filtered
list. -/
theorem guests_filter_raises_on_numeric_cedula :
    Airbnb.filteredGuests asciiLowerCase
        [.obj [("guestName", .str "Ana"), ("guestCedula", .num 1032456789),
               ("status", .str "pending")]] "luis" ""
      = .error typeError ∧
    returnsList (Airbnb.filteredGuests asciiLowerCase
        [.obj [("guestName", .str "Ana"), ("guestCedula", .num 1032456789),
               ("status", .str "pending")]] "luis" "") = false := by
  constructor <;> rfl

/-- C21 (amended): for every list of guests (resp. damage reports) whose
first and second text fields (guestName/guestCedula, resp.
title/description) are strings or missing, every search term and every
status filter, the filtered list is the order-preserving sublist of the
records that (a) match the status filter, the empty filter matching every
status and a non-empty one only the records whose status equals it, and
(b) match the search: the lower-cased first or second text field contains
the lower-cased search term, or the apartment number rendered as a string
contains the search term as typed. -/
theorem guests_and_reports_filter (toLowerCase : String → String)
    (searchTerm statusFilter : String) :
    (∀ guests : List JsVal, (∀ g, g ∈ guests → Airbnb.textFieldsOk g = true) →
      Airbnb.filteredGuests toLowerCase guests searchTerm statusFilter
        = .ok (guests.filter (Airbnb.selected toLowerCase searchTerm statusFilter)) ∧
      (guests.filter (Airbnb.selected toLowerCase searchTerm statusFilter)).Sublist guests ∧
      (∀ g, g ∈ guests.filter (Airbnb.selected toLowerCase searchTerm statusFilter) ↔
        g ∈ guests ∧ Airbnb.selected toLowerCase searchTerm statusFilter g = true)) ∧
    (∀ reports : List JsVal, (∀ r, r ∈ reports → DamageReports.textFieldsOk r = true) →
      DamageReports.filteredReports toLowerCase reports searchTerm statusFilter
        = .ok (reports.filter (DamageReports.selected toLowerCase searchTerm statusFilter)) ∧
      (reports.filter
        (DamageReports.selected toLowerCase searchTerm statusFilter)).Sublist reports ∧
      (∀ r, r ∈ reports.filter (DamageReports.selected toLowerCase searchTerm statusFilter) ↔
        r ∈ reports ∧ DamageReports.selected toLowerCase searchTerm statusFilter r = true)) := by
  constructor
  · intro guests h
    exact ⟨filterArray_ok _ _ _ (fun g hg => Airbnb.matchesGuest_typed _ _ _ g (h g hg)),
      List.filter_sublist _, fun g => List.mem_filter⟩
  · intro reports h
    exact ⟨filterArray_ok _ _ _ (fun r hr => DamageReports.matchesReport_typed _ _ _ r (h r hr)),
      List.filter_sublist _, fun r => List.mem_filter⟩

/-- Witness for C21: the search 'AN' with status 'pending' keeps Ana and drops
Luis (checked in) and the guest of apartment 502. -/
theorem guests_and_reports_filter_witness :
    Airbnb.filteredGuests asciiLowerCase
        [.obj [("guestName", .str "Ana"), ("status", .str "pending")],
         .obj [("guestName", .str "Luis Anaya"), ("status", .str "checked_in")],
         .obj [("apartment", .obj [("number", .num 502)]), ("status", .str "pending")]]
        "AN" "pending"
      = .ok ([.obj [("guestName", .str "Ana"), ("status", .str "pending")],
         .obj [("guestName", .str "Luis Anaya"), ("status", .str "checked_in")],
         .obj [("apartment", .obj [("number", .num 502)]), ("status", .str "pending")]].filter
          (Airbnb.selected asciiLowerCase "AN" "pending")) ∧
    [JsVal.obj [("guestName", .str "Ana"), ("status", .str "pending")],
         .obj [("guestName", .str "Luis Anaya"), ("status", .str "checked_in")],
         .obj [("apartment", .obj [("number", .num 502)]), ("status", .str "pending")]].filter
          (Airbnb.selected asciiLowerCase "AN" "pending")
      = [.obj [("guestName", .str "Ana"), ("status", .str "pending")]] :=
  ⟨((guests_and_reports_filter asciiLowerCase "AN" "pending").1 _
      (by intro g hg; simp at hg; rcases hg with h | h | h <;> subst h <;> rfl)).1,
   rfl⟩

/-- C22: for every list of payments whose searched text fields are strings
(or missing) and every search term, filteredPayments is the order-preserving
sublist of exactly those payments for which at least one of concept,
user.name, user.email, apartment.number, apartment.tower, lower-cased,
contains the lower-cased search term; search terms with the same
lower-cased form give the same result. -/
theorem payments_filter (toLowerCase : String → String) (payments : List JsVal)
    (searchTerm : String) (h : ∀ p, p ∈ payments → Payments.textFieldsOk p = true) :
    Payments.filteredPayments toLowerCase payments searchTerm
      = .ok (payments.filter (Payments.selected toLowerCase searchTerm)) ∧
    (payments.filter (Payments.selected toLowerCase searchTerm)).Sublist payments ∧
    (∀ p, p ∈ payments.filter (Payments.selected toLowerCase searchTerm) ↔
      p ∈ payments ∧ Payments.selected toLowerCase searchTerm p = true) ∧
    (∀ other : String, toLowerCase other = toLowerCase searchTerm →
      Payments.filteredPayments toLowerCase payments other
        = Payments.filteredPayments toLowerCase payments searchTerm) := by
  have hmain : ∀ term, Payments.filteredPayments toLowerCase payments term
      = .ok (payments.filter (Payments.selected toLowerCase term)) := fun term =>
    filterArray_ok _ _ _ (fun p hp => Payments.matchesPayment_typed _ term p (h p hp))
  refine ⟨hmain _, List.filter_sublist _, fun p => List.mem_filter, ?_⟩
  intro other ho
  rw [hmain, hmain]
  have : Payments.selected toLowerCase other = Payments.selected toLowerCase searchTerm := by
    funext p
    simp only [Payments.selected, containsLower, ho]
  rw [this]

/-- Witness for C22: 'ADMIN' and 'admin' both keep the administration payment
and drop the parking payment of tower B. -/
theorem payments_filter_witness :
    Payments.filteredPayments asciiLowerCase
        [.obj [("concept", .str "Pago de administración"),
               ("user", .obj [("name", .str "Ana"), ("email", .str "ana@mail.co")]),
               ("apartment", .obj [("number", .str "101"), ("tower", .str "A")])],
         .obj [("concept", .str "Parqueadero"),
               ("apartment", .obj [("number", .str "202"), ("tower", .str "B")])]] "ADMIN"
      = Payments.filteredPayments asciiLowerCase
        [.obj [("concept", .str "Pago de administración"),
               ("user", .obj [("name", .str "Ana"), ("email", .str "ana@mail.co")]),
               ("apartment", .obj [("number", .str "101"), ("tower", .str "A")])],
         .obj [("concept", .str "Parqueadero"),
               ("apartment", .obj [("number", .str "202"), ("tower", .str "B")])]] "admin" ∧
    Payments.filteredPayments asciiLowerCase
        [.obj [("concept", .str "Pago de administración"),
               ("user", .obj [("name", .str "Ana"), ("email", .str "ana@mail.co")]),
               ("apartment", .obj [("number", .str "101"), ("tower", .str "A")])],
         .obj [("concept", .str "Parqueadero"),
               ("apartment", .obj [("number", .str "202"), ("tower", .str "B")])]] "admin"
      = .ok [.obj [("concept", .str "Pago de administración"),
               ("user", .obj [("name", .str "Ana"), ("email", .str "ana@mail.co")]),
               ("apartment", .obj [("number", .str "101"), ("tower", .str "A")])]] :=
  ⟨(payments_filter asciiLowerCase _ "admin"
      (by intro p hp; simp at hp; rcases hp with h | h <;> subst h <;> rfl)).2.2.2 "ADMIN" rfl,
   rfl⟩

/-! ## Pages: presentation and dialog -/

/-- C23: getStatusColor, getStatusLabel and getStatusIcon map 'paid' to
('#39c079', 'AL DÍA', 'checkmark-circle'), 'pending' to ('#eac73f',
'PENDIENTE', 'alert-circle'), 'late' to ('#ed4b4b', 'MORA',
'close-circle') and every other value to ('#4a6373', the value itself,
'help-circle'); the 'Registrar pago' action is offered exactly for the
payments whose status is 'pending' or 'late', never for 'paid'. -/
theorem payment_status_presentation :
    (Payments.getStatusColor (.str "paid") = "#39c079" ∧
     Payments.getStatusLabel (.str "paid") = .str "AL DÍA" ∧
     Payments.getStatusIcon (.str "paid") = "checkmark-circle") ∧
    (Payments.getStatusColor (.str "pending") = "#eac73f" ∧
     Payments.getStatusLabel (.str "pending") = .str "PENDIENTE" ∧
     Payments.getStatusIcon (.str "pending") = "alert-circle") ∧
    (Payments.getStatusColor (.str "late") = "#ed4b4b" ∧
     Payments.getStatusLabel (.str "late") = .str "MORA" ∧
     Payments.getStatusIcon (.str "late") = "close-circle") ∧
    (∀ status : JsVal, status ≠ .str "paid" → status ≠ .str "pending" →
      status ≠ .str "late" →
        Payments.getStatusColor status = "#4a6373" ∧
        Payments.getStatusLabel status = status ∧
        Payments.getStatusIcon status = "help-circle") ∧
    (∀ payment : JsVal, Payments.offersRegistrarPago payment = true ↔
      (prop payment "status" = .str "pending" ∨ prop payment "status" = .str "late")) ∧
    (∀ payment : JsVal, prop payment "status" = .str "paid" →
      Payments.offersRegistrarPago payment = false) := by
  refine ⟨⟨rfl, rfl, rfl⟩, ⟨rfl, rfl, rfl⟩, ⟨rfl, rfl, rfl⟩, ?_, ?_, ?_⟩
  · intro status h1 h2 h3
    have e1 : strictEqStr status "paid" = false := by
      cases hq : strictEqStr status "paid"
      · rfl
      · exact absurd ((strictEqStr_iff _ _).1 hq) h1
    have e2 : strictEqStr status "pending" = false := by
      cases hq : strictEqStr status "pending"
      · rfl
      · exact absurd ((strictEqStr_iff _ _).1 hq) h2
    have e3 : strictEqStr status "late" = false := by
      cases hq : strictEqStr status "late"
      · rfl
      · exact absurd ((strictEqStr_iff _ _).1 hq) h3
    simp [Payments.getStatusColor, Payments.getStatusLabel, Payments.getStatusIcon, e1, e2, e3]
  · intro payment
    simp only [Payments.offersRegistrarPago, Bool.or_eq_true, strictEqStr_iff]
  · intro payment h
    simp [Payments.offersRegistrarPago, h, strictEqStr]

/-- Witness for C23: an unknown status 'refunded' is shown as itself, and a late
payment offers 'Registrar pago'. -/
theorem payment_status_presentation_witness :
    (Payments.getStatusColor (.str "refunded") = "#4a6373" ∧
     Payments.getStatusLabel (.str "refunded") = .str "refunded" ∧
     Payments.getStatusIcon (.str "refunded") = "help-circle") ∧
    Payments.offersRegistrarPago (.obj [("id", .num 3), ("status", .str "late")]) = true :=
  ⟨payment_status_presentation.2.2.2.1 (.str "refunded") (by simp) (by simp) (by simp),
   (payment_status_presentation.2.2.2.2.1 (.obj [("id", .num 3), ("status", .str "late")])).2
     (Or.inr rfl)⟩

/-- C24 as stated fails: a guest whose apartmentId is the number 0 has an
apartmentId, yet handleEdit puts '' into the form. -/
theorem edit_drops_zero_apartment :
    prop (sampleGuest (.num 0)) "apartmentId" = .num 0 ∧
    prop (Airbnb.handleEdit (sampleGuest (.num 0)) Airbnb.initial).formData "apartmentId"
      = .str "" ∧
    prop (Airbnb.handleEdit (sampleGuest (.num 0)) Airbnb.initial).formData "apartmentId"
      ≠ .num 0 := by
  refine ⟨rfl, rfl, ?_⟩
  have h : prop (Airbnb.handleEdit (sampleGuest (.num 0)) Airbnb.initial).formData
      "apartmentId" = .str "" := rfl
  rw [h]
  simp

/-- C24 (amended): for every guest whose checkInDate and checkOutDate are
strings, handleEdit sets the form's checkInDate and checkOutDate to the part
of each string before its first 'T' (the whole string when it has no 'T',
so a value in 'YYYY-MM-DD' form is unchanged), copies guestName, guestCedula
and numberOfGuests unchanged, sets apartmentId to the guest's apartmentId
when that is truthy and to '' when it is missing, empty, 0 or otherwise
falsy, records the guest as the one being edited and opens the dialog. -/
theorem edit_fills_form (guest : JsVal) (s : Airbnb.State) (checkIn checkOut : String)
    (hg : isDefined guest = true) (hin : prop guest "checkInDate" = .str checkIn)
    (hout : prop guest "checkOutDate" = .str checkOut) :
    prop (Airbnb.handleEdit guest s).formData "checkInDate" = .str (beforeFirstT checkIn) ∧
    prop (Airbnb.handleEdit guest s).formData "checkOutDate" = .str (beforeFirstT checkOut) ∧
    (∀ a b : String, (∀ c, c ∈ a.data → c ≠ 'T') → beforeFirstT (a ++ "T" ++ b) = a) ∧
    (∀ t : String, (∀ c, c ∈ t.data → c ≠ 'T') → beforeFirstT t = t) ∧
    (∀ t : String, isDateForm t = true → beforeFirstT t = t) ∧
    prop (Airbnb.handleEdit guest s).formData "guestName" = prop guest "guestName" ∧
    prop (Airbnb.handleEdit guest s).formData "guestCedula" = prop guest "guestCedula" ∧
    prop (Airbnb.handleEdit guest s).formData "numberOfGuests"
      = prop guest "numberOfGuests" ∧
    (truthy (prop guest "apartmentId") = true →
      prop (Airbnb.handleEdit guest s).formData "apartmentId" = prop guest "apartmentId") ∧
    (truthy (prop guest "apartmentId") = false →
      prop (Airbnb.handleEdit guest s).formData "apartmentId" = .str "") ∧
    (Airbnb.handleEdit guest s).editing = guest ∧
    (Airbnb.handleEdit guest s).dialogOpen = true := by
  have hform : Airbnb.editForm guest = .ok (.obj
      [("apartmentId", jsOr (prop guest "apartmentId") (.str "")),
       ("guestName", prop guest "guestName"),
       ("guestCedula", prop guest "guestCedula"),
       ("numberOfGuests", prop guest "numberOfGuests"),
       ("checkInDate", .str (beforeFirstT checkIn)),
       ("checkOutDate", .str (beforeFirstT checkOut))]) := by
    simp [Airbnb.editForm, member_of_isDefined _ _ hg, hin, hout, splitAtT, Except.bind]
  have hs : Airbnb.handleEdit guest s = { s with
      editing := guest,
      formData := .obj
        [("apartmentId", jsOr (prop guest "apartmentId") (.str "")),
         ("guestName", prop guest "guestName"),
         ("guestCedula", prop guest "guestCedula"),
         ("numberOfGuests", prop guest "numberOfGuests"),
         ("checkInDate", .str (beforeFirstT checkIn)),
         ("checkOutDate", .str (beforeFirstT checkOut))],
      dialogOpen := true } := by
    simp [Airbnb.handleEdit, hform]
  rw [hs]
  refine ⟨by simp [prop, lookup], by simp [prop, lookup], beforeFirstT_append,
    beforeFirstT_of_no_T, beforeFirstT_dateForm, by simp [prop, lookup], by simp [prop, lookup],
    by simp [prop, lookup], ?_, ?_, rfl, rfl⟩
  · intro ht
    show jsOr (prop guest "apartmentId") (.str "") = prop guest "apartmentId"
    simp [jsOr, ht]
  · intro ht
    show jsOr (prop guest "apartmentId") (.str "") = .str ""
    simp [jsOr, ht]

/-- Witness for C24: an ISO timestamp is cut at its 'T', a plain date is kept,
and the apartment id 7 is copied. -/
theorem edit_fills_form_witness :
    prop (Airbnb.handleEdit (sampleGuest (.num 7)) Airbnb.initial).formData "checkInDate"
      = .str (beforeFirstT "2024-05-01T15:00:00.000Z") ∧
    beforeFirstT "2024-05-01T15:00:00.000Z" = "2024-05-01" ∧
    prop (Airbnb.handleEdit (sampleGuest (.num 7)) Airbnb.initial).formData "checkOutDate"
      = .str (beforeFirstT "2024-05-04") ∧
    beforeFirstT "2024-05-04" = "2024-05-04" ∧
    prop (Airbnb.handleEdit (sampleGuest (.num 7)) Airbnb.initial).formData "apartmentId"
      = prop (sampleGuest (.num 7)) "apartmentId" :=
  have h := edit_fills_form (sampleGuest (.num 7)) Airbnb.initial
    "2024-05-01T15:00:00.000Z" "2024-05-04" rfl rfl rfl
  ⟨h.1, by decide, h.2.1, h.2.2.2.2.1 "2024-05-04" (by decide), h.2.2.2.2.2.2.2.2.1 rfl⟩

/-- C25: for every convenience function that returns res.data.data (all but the
six delete functions), when the HTTP call succeeds with a response whose
body is null or undefined, the function does not return; it throws
{error: 'Error de conexión'}, the value it also throws when the call fails
without any server response. -/
theorem null_body_thrown_as_connection_error (inv : Invocation)
    (hnd : inv.isDelete = false) :
    (∀ (api : Api) (res : JsObj),
      (∀ c, c ∈ (invoke api inv).calls → api c = .ok (.obj res)) →
      (lookup res "data" = .null ∨ lookup res "data" = .undefined) →
        (invoke api inv).result = .error connectionError ∧
        (∀ v, (invoke api inv).result ≠ .ok v)) ∧
    (∀ (net : Transport) (w : Browser) (error : JsObj),
      (∀ c, c ∈ (invoke (client net w) inv).calls → net c = .error error) →
      hasResponse error = false →
        (invoke (client net w) inv).result = .error connectionError) := by
  have hone : ∀ (api : Api) (call : HttpCall) (unwrap : JsVal → Except JsVal JsVal)
      (label : Option String), call ∈ (resourceCall api call unwrap label).calls := by
    intro api call unwrap label
    rw [resourceCall_calls]
    exact List.mem_singleton.2 rfl
  constructor
  · intro api res hcall hbody
    have hres : (invoke api inv).result = .error connectionError := by
      cases inv <;>
        first
          | exact Bool.noConfusion hnd
          | exact resourceCall_null_body api _ _ res (hcall _ (hone _ _ _ _)) hbody
    rw [hres]
    exact ⟨rfl, fun v h => by cases h⟩
  · intro net w error hfail hnr
    have hres : (invoke (client net w) inv).result
        = .error (jsOr (responseData error) connectionError) := by
      cases inv <;>
        exact (resourceCall_failure _ _ _ _ _
          (client_failure net w _ error (hfail _ (hone _ _ _ _)))).trans
          (catchBlock_enhanced _ error _)
    rw [hres]
    simp [jsOr, responseData_of_no_response error hnr]

/-- Witness for C25: a 200 response with a null body makes getApartments throw
the connection-error object. -/
theorem null_body_thrown_as_connection_error_witness :
    (invoke (fun _ => .ok (.obj [("status", .num 200), ("data", .null)]))
        .getApartments).result = .error connectionError :=
  ((null_body_thrown_as_connection_error .getApartments rfl).1
    (fun _ => .ok (.obj [("status", .num 200), ("data", .null)]))
    [("status", .num 200), ("data", .null)] (fun _ _ => rfl) (Or.inl rfl)).1

/-- C26: 'Cancelar' and closing the dialog only set `open` to false, leaving
`editing` and `formData` as they are, and 'Registrar Huésped' only sets
`open` to true; hence after handleEdit(g), 'Cancelar' and 'Registrar
Huésped', submitting issues PUT /airbnb/guests/{g.id} followed at most by
list fetches, and no POST. `editing` is set to the guest by handleEdit, to
null by a successful submit, and changed by nothing else. -/
theorem dialog_keeps_editing (api : Api) (r : Run Airbnb.State) :
    Airbnb.act api .cancel r = { r with state := { r.state with dialogOpen := false } } ∧
    Airbnb.act api .closeDialog r = { r with state := { r.state with dialogOpen := false } } ∧
    Airbnb.act api .registrarHuesped r
      = { r with state := { r.state with dialogOpen := true } } ∧
    (∀ g : JsVal, truthy g = true →
      (Airbnb.runAll api [.edit g, .cancel, .registrarHuesped] r).state.editing = g ∧
      Airbnb.submitCall (Airbnb.runAll api [.edit g, .cancel, .registrarHuesped] r).state
        = ⟨.PUT, "/airbnb/guests/" ++ toStr (prop g "id"),
            (Airbnb.runAll api [.edit g, .cancel, .registrarHuesped] r).state.formData⟩ ∧
      ∃ rest,
        (Airbnb.runAll api [.edit g, .cancel, .registrarHuesped, .submit] r).calls
          = r.calls ++
            (⟨.PUT, "/airbnb/guests/" ++ toStr (prop g "id"),
              (Airbnb.runAll api [.edit g, .cancel, .registrarHuesped] r).state.formData⟩
              :: rest) ∧
        ∀ c, c ∈ rest → c.verb = .GET) ∧
    (∀ a : Airbnb.Action, (∀ g, a ≠ .edit g) → a ≠ .submit →
      (Airbnb.act api a r).state.editing = r.state.editing) ∧
    (∀ g : JsVal, (Airbnb.act api (.edit g) r).state.editing = g) ∧
    (∀ e, api (Airbnb.submitCall r.state) = .error e →
      (Airbnb.act api .submit r).state.editing = r.state.editing) ∧
    (∀ v, api (Airbnb.submitCall r.state) = .ok v →
      (Airbnb.act api .submit r).state.editing = .null) := by
  refine ⟨rfl, rfl, rfl, ?_, ?_, ?_, ?_, ?_⟩
  · intro g hg
    have hed : (Airbnb.runAll api [.edit g, .cancel, .registrarHuesped] r).state.editing = g := by
      simp [Airbnb.runAll, Airbnb.act, Airbnb.handleEdit_editing]
    have hcalls : (Airbnb.runAll api [.edit g, .cancel, .registrarHuesped] r).calls
        = r.calls := by
      simp [Airbnb.runAll, Airbnb.act]
    have hsub : Airbnb.submitCall
        (Airbnb.runAll api [.edit g, .cancel, .registrarHuesped] r).state
        = ⟨.PUT, "/airbnb/guests/" ++ toStr (prop g "id"),
            (Airbnb.runAll api [.edit g, .cancel, .registrarHuesped] r).state.formData⟩ := by
      simp only [Airbnb.submitCall, hed, hg, if_true]
    refine ⟨hed, hsub, ?_⟩
    obtain ⟨rest, h1, h2⟩ := Airbnb.handleCreate_calls api
      (Airbnb.runAll api [.edit g, .cancel, .registrarHuesped] r)
    refine ⟨rest, ?_, h2⟩
    rw [hsub, hcalls] at h1
    exact h1
  · intro a h1 h2
    cases a with
    | mount =>
      simp only [Airbnb.act, Airbnb.fetchApartments_editing, Airbnb.fetchActiveGuests_editing,
        Airbnb.fetchGuests_editing]
    | registrarHuesped => rfl
    | closeDialog => rfl
    | cancel => rfl
    | submit => exact absurd rfl h2
    | edit g => exact absurd rfl (h1 g)
    | checkIn id => exact Airbnb.handleCheckIn_editing id api r
    | remove confirmed id => exact Airbnb.handleDelete_editing confirmed id api r
    | changeSearchTerm value => rfl
    | changeStatusFilter value => rfl
    | changeField field value => rfl
  · intro g
    exact Airbnb.handleEdit_editing g r.state
  · intro e he
    simp [Airbnb.act, Airbnb.handleCreate, he]
  · intro v hv
    simp [Airbnb.act, Airbnb.handleCreate, hv, Airbnb.fetchActiveGuests_editing,
      Airbnb.fetchGuests_editing]

/-- Witness for C26: editing guest 12, cancelling, reopening with 'Registrar
Huésped' and submitting sends PUT /airbnb/guests/12. -/
theorem dialog_keeps_editing_witness :
    (Airbnb.runAll (backendWith (.arr [])) [.edit (sampleGuest (.num 7)), .cancel,
        .registrarHuesped] ⟨Airbnb.initial, [], []⟩).state.editing = sampleGuest (.num 7) ∧
    (Airbnb.submitCall (Airbnb.runAll (backendWith (.arr [])) [.edit (sampleGuest (.num 7)),
        .cancel, .registrarHuesped] ⟨Airbnb.initial, [], []⟩).state).path
      = "/airbnb/guests/12" :=
  have h := (dialog_keeps_editing (backendWith (.arr [])) ⟨Airbnb.initial, [], []⟩).2.2.2.1
    (sampleGuest (.num 7)) rfl
  ⟨h.1, by rw [h.2.1]; decide⟩

/-- C27 as stated fails: a guest whose only defined field is a numeric cédula
has one of the three fields defined, yet with the empty search term and the
empty status filter the filter raises instead of keeping the guest. -/
theorem empty_search_raises_on_numeric_cedula :
    isDefined (prop (.obj [("guestCedula", .num 1032456789)]) "guestCedula") = true ∧
    Airbnb.filteredGuests asciiLowerCase [.obj [("guestCedula", .num 1032456789)]] "" ""
      = .error typeError ∧
    (∀ kept, Airbnb.filteredGuests asciiLowerCase [.obj [("guestCedula", .num 1032456789)]]
      "" "" ≠ .ok kept) := by
  have h : Airbnb.filteredGuests asciiLowerCase [.obj [("guestCedula", .num 1032456789)]]
      "" "" = .error typeError := rfl
  refine ⟨rfl, h, ?_⟩
  intro kept
  rw [h]
  simp

/-- C27 (amended): on a list of guests whose guestName and guestCedula are
strings or missing, with the empty search term and the empty status filter
filteredGuests contains every guest that has at least one of guestName,
guestCedula or apartment.number defined; a guest with none of the three
defined is excluded for every search term and status filter, the empty ones
included, so the filtered list can be strictly shorter than the fetched
list even when no filter is applied. -/
theorem empty_search_drops_blank_guests (toLowerCase : String → String)
    (hempty : toLowerCase "" = "") :
    (∀ guests : List JsVal, (∀ g, g ∈ guests → Airbnb.textFieldsOk g = true) →
      ∃ kept, Airbnb.filteredGuests toLowerCase guests "" "" = .ok kept ∧
        ∀ g, g ∈ guests →
          (isDefined (prop g "guestName") = true ∨ isDefined (prop g "guestCedula") = true ∨
            isDefined (optChain (prop g "apartment") "number") = true) →
          g ∈ kept) ∧
    (∀ (guests : List JsVal) (searchTerm statusFilter : String),
      (∀ g, g ∈ guests → Airbnb.textFieldsOk g = true) →
      ∃ kept, Airbnb.filteredGuests toLowerCase guests searchTerm statusFilter = .ok kept ∧
        ∀ g, isDefined (prop g "guestName") = false →
          isDefined (prop g "guestCedula") = false →
          isDefined (optChain (prop g "apartment") "number") = false →
          g ∉ kept) ∧
    (∃ guests kept : List JsVal, (∀ g, g ∈ guests → Airbnb.textFieldsOk g = true) ∧
      Airbnb.filteredGuests toLowerCase guests "" "" = .ok kept ∧
      kept.length < guests.length) := by
  have hmain : ∀ (guests : List JsVal) (searchTerm statusFilter : String),
      (∀ g, g ∈ guests → Airbnb.textFieldsOk g = true) →
      Airbnb.filteredGuests toLowerCase guests searchTerm statusFilter
        = .ok (guests.filter (Airbnb.selected toLowerCase searchTerm statusFilter)) :=
    fun guests searchTerm statusFilter h =>
      filterArray_ok _ _ _ (fun g hg => Airbnb.matchesGuest_typed _ _ _ g (h g hg))
  refine ⟨?_, ?_, ?_⟩
  · intro guests h
    refine ⟨_, hmain guests "" "" h, ?_⟩
    intro g hg hdef
    apply List.mem_filter.2
    refine ⟨hg, ?_⟩
    have ht := h g hg
    simp only [Airbnb.textFieldsOk, Bool.and_eq_true] at ht
    obtain ⟨⟨_, t1⟩, t2⟩ := ht
    rcases hdef with d | d | d
    · simp [Airbnb.selected, containsLower_empty toLowerCase _ hempty t1 d]
    · simp [Airbnb.selected, containsLower_empty toLowerCase _ hempty t2 d]
    · simp [Airbnb.selected, renderedContains_empty _ d]
  · intro guests searchTerm statusFilter h
    refine ⟨_, hmain guests searchTerm statusFilter h, ?_⟩
    intro g d1 d2 d3 hmem
    have hsel := (List.mem_filter.1 hmem).2
    simp [Airbnb.selected, containsLower_missing _ _ _ d1, containsLower_missing _ _ _ d2,
      renderedContains_missing _ _ d3] at hsel
  · refine ⟨[.obj [("id", .num 1)]], [], ?_, ?_, by decide⟩
    · intro g hg
      simp only [List.mem_singleton] at hg
      subst hg
      rfl
    · rw [hmain _ _ _ (by intro g hg; simp only [List.mem_singleton] at hg; subst hg; rfl)]
      rfl

/-- Witness for C27: with no filter applied, a guest that has only an id is
not listed next to a named guest. -/
theorem empty_search_drops_blank_guests_witness :
    ∃ kept, Airbnb.filteredGuests asciiLowerCase
        [.obj [("id", .num 1)], .obj [("id", .num 2), ("guestName", .str "Ana")]] "" ""
      = .ok kept ∧
      JsVal.obj [("id", .num 2), ("guestName", .str "Ana")] ∈ kept :=
  have h := (empty_search_drops_blank_guests asciiLowerCase rfl).1
    [.obj [("id", .num 1)], .obj [("id", .num 2), ("guestName", .str "Ana")]]
    (by intro g hg; simp at hg; rcases hg with h | h <;> subst h <;> rfl)
  h.elim fun kept hk =>
    ⟨kept, hk.1, hk.2 _ (by simp) (Or.inl rfl)⟩

/-- C29: for every event whose type is missing or empty, the card caption shows
'MANTENIMIENTO' while getIcon and getIconColor return the 'other' class
(Event icon, '#2586b8'), not the maintenance class (Build icon, '#ee9738');
for every event with a non-empty type the caption shows the type
upper-cased. -/
theorem untyped_event_card (toLowerCase toUpperCase : String → String)
    (maintenance : JsVal) :
    ((prop maintenance "type" = .undefined ∨ prop maintenance "type" = .null ∨
        prop maintenance "type" = .str "") →
      Maintenance.captionType toUpperCase maintenance = .ok "MANTENIMIENTO" ∧
      Maintenance.getIcon toLowerCase (prop maintenance "type") = .ok .Event ∧
      Maintenance.getIconColor toLowerCase (prop maintenance "type") = .ok "#2586b8" ∧
      Maintenance.getIcon toLowerCase (prop maintenance "type") ≠ .ok .Build ∧
      Maintenance.getIconColor toLowerCase (prop maintenance "type") ≠ .ok "#ee9738") ∧
    (∀ s : String, s ≠ "" → prop maintenance "type" = .str s →
      Maintenance.captionType toUpperCase maintenance = .ok (toUpperCase s)) := by
  constructor
  · intro h
    have hf : truthy (prop maintenance "type") = false := by
      rcases h with h | h | h <;> rw [h] <;> rfl
    obtain ⟨h1, h2⟩ := Maintenance.getIcon_falsy toLowerCase _ hf
    refine ⟨by simp [Maintenance.captionType, hf], h1, h2, ?_, ?_⟩
    · rw [h1]
      simp
    · rw [h2]
      simp
  · intro s hs ht
    simp [Maintenance.captionType, ht, truthy, hs]

/-- Witness for C29: an event without a type is captioned 'MANTENIMIENTO' but
drawn with the Event icon. -/
theorem untyped_event_card_witness :
    Maintenance.captionType String.toUpper (.obj [("title", .str "Poda")])
      = .ok "MANTENIMIENTO" ∧
    Maintenance.getIcon asciiLowerCase (prop (.obj [("title", .str "Poda")]) "type")
      = .ok .Event :=
  have h := (untyped_event_card asciiLowerCase String.toUpper
    (.obj [("title", .str "Poda")])).1 (Or.inl rfl)
  ⟨h.1, h.2.1⟩

/-! ## Response interceptor: unclassified failures -/

/-- C28: a failure with neither a server response nor a request gets the
default userMessage 'Ha ocurrido un error inesperado' and is still rejected
with userMessage and originalError attached; a failure with a server
response gets the userMessage of the status mapping whatever its code: the
message of any failure carrying the same response, and never the timeout
message unless the server's own error text is that message. -/
theorem unclassified_failure_message (error : JsObj) (w : Browser) :
    (hasResponse error = false → hasRequest error = false →
      userMessageOf (onResponseError error w).1 = .str "Ha ocurrido un error inesperado" ∧
      (onResponseError error w).1
        = .error (.obj (enhancedError error (.str "Ha ocurrido un error inesperado"))) ∧
      lookup (enhancedError error (.str "Ha ocurrido un error inesperado")) "userMessage"
        = .str "Ha ocurrido un error inesperado" ∧
      lookup (enhancedError error (.str "Ha ocurrido un error inesperado")) "originalError"
        = .obj error) ∧
    (hasResponse error = true →
      (∀ code : JsVal,
        userMessageOf (onResponseError (setProp error "code" code) w).1
          = userMessageOf (onResponseError error w).1) ∧
      (∀ other : JsObj, lookup other "response" = lookup error "response" →
        userMessageOf (onResponseError other w).1
          = userMessageOf (onResponseError error w).1) ∧
      (serverError error ≠ .str "La solicitud ha tardado demasiado. Verifica tu conexión" →
        userMessageOf (onResponseError error w).1
          ≠ .str "La solicitud ha tardado demasiado. Verifica tu conexión")) := by
  constructor
  · intro hr hq
    simp only [hasResponse] at hr
    simp only [hasRequest] at hq
    have hm : (mapError error w).1 = .str "Ha ocurrido un error inesperado" := by
      simp [mapError, hr, hq]
    refine ⟨by rw [userMessageOf_onResponseError, hm], by simp [onResponseError, hm],
      by simp [enhancedError, lookup_setProp], lookup_enhancedError_originalError _ _⟩
  · intro hr
    refine ⟨?_, ?_, ?_⟩
    · intro code
      rw [userMessageOf_onResponseError, userMessageOf_onResponseError]
      apply mapError_of_response _ _ _ hr
      simp [lookup_setProp]
    · intro other h
      rw [userMessageOf_onResponseError, userMessageOf_onResponseError]
      exact mapError_of_response _ _ _ hr h
    · intro hse
      rw [userMessageOf_onResponseError]
      simp only [hasResponse] at hr
      simp only [serverError, bodyOf] at hse
      simp only [mapError, hr, if_true]
      have hj : ∀ fallback : String,
          fallback ≠ "La solicitud ha tardado demasiado. Verifica tu conexión" →
          jsOr (optChain (prop (lookup error "response") "data") "error") (.str fallback)
            ≠ .str "La solicitud ha tardado demasiado. Verifica tu conexión" := by
        intro fallback hf
        simp only [jsOr]
        split
        · exact hse
        · simpa using hf
      split_ifs <;>
        first
          | exact hj "Datos inválidos" (by decide)
          | exact hj "Datos de entrada inválidos" (by decide)
          | exact hj _ (error_prefix_ne _)
          | simp

/-- Witness for C28: an error raised while setting up the request gets the
default message; a 500 that carries the code 'ECONNABORTED' gets the message
of the same 500 without a code. -/
theorem unclassified_failure_message_witness :
    userMessageOf (onResponseError [("message", .str "Invalid URL")] loggedIn).1
      = .str "Ha ocurrido un error inesperado" ∧
    userMessageOf (onResponseError
        (setProp (httpFailure 500 .null) "code" (.str "ECONNABORTED")) loggedIn).1
      = userMessageOf (onResponseError (httpFailure 500 .null) loggedIn).1 :=
  ⟨((unclassified_failure_message [("message", .str "Invalid URL")] loggedIn).1 rfl rfl).1,
   ((unclassified_failure_message (httpFailure 500 .null) loggedIn).2 rfl).1
     (.str "ECONNABORTED")⟩

/-! ## Pages: totality of the filters -/

/-- C30: the Airbnb, DamageReports and Maintenance filters never raise on
records whose searched text fields are strings or missing; the Users filter
returns a list exactly when every user has a string name (a user with a
missing name makes it raise); the Payments filter never raises when concept,
user.name, user.email, apartment.number and apartment.tower are strings or
missing, and it is total only then: an apartment.number (resp.
apartment.tower) that is present and not a string makes it raise whenever
none of the fields searched before it contains the search term, and, for a
case mapping that leaves strings of digits unchanged, the filter returns a
list for every search term exactly when every payment has the five fields
as strings or missing, so a payment with a numeric apartment number makes
the filter raise for some search term. -/
theorem filters_totality (toLowerCase : String → String) :
    (∀ (guests : List JsVal) (searchTerm statusFilter : String),
      (∀ g, g ∈ guests → Airbnb.textFieldsOk g = true) →
      returnsList (Airbnb.filteredGuests toLowerCase guests searchTerm statusFilter) = true) ∧
    (∀ (reports : List JsVal) (searchTerm statusFilter : String),
      (∀ r, r ∈ reports → DamageReports.textFieldsOk r = true) →
      returnsList (DamageReports.filteredReports toLowerCase reports searchTerm statusFilter)
        = true) ∧
    (∀ (maintenances : List JsVal) (searchTerm : String),
      (∀ m, m ∈ maintenances → Maintenance.textFieldsOk m = true) →
      returnsList (Maintenance.filteredMaintenances toLowerCase maintenances searchTerm)
        = true) ∧
    (∀ (users : List JsVal) (filter searchTerm : String),
      returnsList (Users.filteredUsers toLowerCase users filter searchTerm) = true ↔
        ∀ u, u ∈ users → Users.hasName u = true) ∧
    (∀ (users : List JsVal) (filter searchTerm : String) (u : JsVal), u ∈ users →
      isDefined (prop u "name") = false →
      returnsList (Users.filteredUsers toLowerCase users filter searchTerm) = false) ∧
    (∀ (payments : List JsVal) (searchTerm : String),
      (∀ p, p ∈ payments → Payments.textFieldsOk p = true) →
      returnsList (Payments.filteredPayments toLowerCase payments searchTerm) = true) ∧
    (∀ (payments : List JsVal) (searchTerm : String) (p : JsVal), p ∈ payments →
      isDefined p = true →
      textOrMissing (prop p "concept") = true →
      textOrMissing (optChain (prop p "user") "name") = true →
      textOrMissing (optChain (prop p "user") "email") = true →
      containsLower toLowerCase (prop p "concept") searchTerm = false →
      containsLower toLowerCase (optChain (prop p "user") "name") searchTerm = false →
      containsLower toLowerCase (optChain (prop p "user") "email") searchTerm = false →
      textOrMissing (optChain (prop p "apartment") "number") = false →
      returnsList (Payments.filteredPayments toLowerCase payments searchTerm) = false) ∧
    (∀ (payments : List JsVal) (searchTerm : String) (p : JsVal), p ∈ payments →
      isDefined p = true →
      textOrMissing (prop p "concept") = true →
      textOrMissing (optChain (prop p "user") "name") = true →
      textOrMissing (optChain (prop p "user") "email") = true →
      textOrMissing (optChain (prop p "apartment") "number") = true →
      containsLower toLowerCase (prop p "concept") searchTerm = false →
      containsLower toLowerCase (optChain (prop p "user") "name") searchTerm = false →
      containsLower toLowerCase (optChain (prop p "user") "email") searchTerm = false →
      containsLower toLowerCase (optChain (prop p "apartment") "number") searchTerm = false →
      textOrMissing (optChain (prop p "apartment") "tower") = false →
      returnsList (Payments.filteredPayments toLowerCase payments searchTerm) = false) ∧
    ((∀ s : String, (∀ c, c ∈ s.data → c.isDigit = true) → toLowerCase s = s) →
      (∀ payments : List JsVal,
        (∀ searchTerm,
          returnsList (Payments.filteredPayments toLowerCase payments searchTerm) = true) ↔
        ∀ p, p ∈ payments → Payments.textFieldsOk p = true) ∧
      (∀ (payments : List JsVal) (p : JsVal), p ∈ payments →
        (textOrMissing (optChain (prop p "apartment") "number") = false ∨
         textOrMissing (optChain (prop p "apartment") "tower") = false) →
        ∃ searchTerm,
          returnsList (Payments.filteredPayments toLowerCase payments searchTerm) = false)) := by
  have hraise : ∀ (callback : JsVal → Except JsVal Bool) (items : List JsVal) (item : JsVal),
      item ∈ items → (∃ e, callback item = .error e) →
      returnsList (filterArray callback items) = false := by
    intro callback items item hi he
    obtain ⟨e, h⟩ := filterArray_error callback items ⟨item, hi, he⟩
    rw [h]
    rfl
  have husers : ∀ (users : List JsVal) (filter searchTerm : String),
      returnsList (Users.filteredUsers toLowerCase users filter searchTerm) = true ↔
        ∀ u, u ∈ users → Users.hasName u = true := by
    intro users filter searchTerm
    constructor
    · intro h u hu
      by_contra hn
      have hn' : Users.hasName u = false := by simpa using hn
      have := hraise (Users.matchesUser toLowerCase filter searchTerm) users u hu
        (Users.matchesUser_raises _ _ _ u hn')
      simp only [Users.filteredUsers] at h
      rw [this] at h
      cases h
    · intro h
      simp only [Users.filteredUsers]
      rw [filterArray_ok _ (Users.selected toLowerCase filter searchTerm) _
        (fun u hu => Users.matchesUser_of_hasName _ _ _ u (h u hu))]
      rfl
  have hpay : ∀ (payments : List JsVal) (searchTerm : String),
      (∀ p, p ∈ payments → Payments.textFieldsOk p = true) →
      returnsList (Payments.filteredPayments toLowerCase payments searchTerm) = true := by
    intro payments searchTerm h
    simp only [Payments.filteredPayments]
    rw [filterArray_ok _ _ _ (fun p hp => Payments.matchesPayment_typed _ _ p (h p hp))]
    rfl
  have hsome : (∀ s : String, (∀ c, c ∈ s.data → c.isDigit = true) → toLowerCase s = s) →
      ∀ (payments : List JsVal) (p : JsVal), p ∈ payments →
      Payments.textFieldsOk p = false →
      ∃ searchTerm,
        returnsList (Payments.filteredPayments toLowerCase payments searchTerm) = false := by
    intro hdigits payments p hp hbad
    obtain ⟨searchTerm, hterm⟩ := Payments.exists_raising_term toLowerCase hdigits p hbad
    exact ⟨searchTerm, hraise _ _ p hp ⟨_, hterm⟩⟩
  refine ⟨?_, ?_, ?_, husers, ?_, hpay, ?_, ?_, fun hdigits => ⟨fun payments => ⟨?_, ?_⟩, ?_⟩⟩
  · intro guests searchTerm statusFilter h
    simp only [Airbnb.filteredGuests]
    rw [filterArray_ok _ _ _ (fun g hg => Airbnb.matchesGuest_typed _ _ _ g (h g hg))]
    rfl
  · intro reports searchTerm statusFilter h
    simp only [DamageReports.filteredReports]
    rw [filterArray_ok _ _ _ (fun r hr => DamageReports.matchesReport_typed _ _ _ r (h r hr))]
    rfl
  · intro maintenances searchTerm h
    obtain ⟨kept, hk⟩ := filterArray_returns
      (Maintenance.matchesMaintenance toLowerCase searchTerm) maintenances
      (fun m hm => Maintenance.matchesMaintenance_typed _ _ m (h m hm))
    simp only [Maintenance.filteredMaintenances, hk]
    rfl
  · intro users filter searchTerm u hu hd
    apply hraise _ _ u hu
    apply Users.matchesUser_raises
    cases u with
    | obj o =>
      simp only [prop] at hd
      simp only [Users.hasName]
      cases hn : lookup o "name" <;> simp [hn, isDefined] at hd <;> rfl
    | _ => rfl
  · intro payments searchTerm p hp hd h1 h2 h3 n1 n2 n3 h4
    exact hraise _ _ p hp
      ⟨_, Payments.matchesPayment_raises_number _ _ p hd h1 h2 h3 n1 n2 n3 h4⟩
  · intro payments searchTerm p hp hd h1 h2 h3 h4 n1 n2 n3 n4 h5
    exact hraise _ _ p hp
      ⟨_, Payments.matchesPayment_raises_tower _ _ p hd h1 h2 h3 h4 n1 n2 n3 n4 h5⟩
  · intro h p hp
    cases hbad : Payments.textFieldsOk p
    · obtain ⟨searchTerm, hterm⟩ := hsome hdigits payments p hp hbad
      rw [h searchTerm] at hterm
      cases hterm
    · rfl
  · intro h searchTerm
    exact hpay payments searchTerm h
  · intro payments p hp hbad
    apply hsome hdigits payments p hp
    simp only [Payments.textFieldsOk]
    rcases hbad with hb | hb <;> simp [hb]

/-- Witness for C30: a user without a name makes the Users filter raise, the
search 'torre' makes a payment with the numeric apartment number 101 raise
in the Payments filter, and so the Payments filter is not total on that
list. -/
theorem filters_totality_witness :
    returnsList (Users.filteredUsers asciiLowerCase
        [.obj [("name", .str "Ana")], .obj [("email", .str "x@mail.co")]] "all" "") = false ∧
    returnsList (Payments.filteredPayments asciiLowerCase
        [.obj [("concept", .str "Pago de administración"),
               ("apartment", .obj [("number", .num 101), ("tower", .str "A")])]] "torre")
      = false ∧
    ∃ searchTerm, returnsList (Payments.filteredPayments asciiLowerCase
        [.obj [("concept", .str "Pago de administración"),
               ("apartment", .obj [("number", .num 101), ("tower", .str "A")])]] searchTerm)
      = false :=
  ⟨(filters_totality asciiLowerCase).2.2.2.2.1
      [.obj [("name", .str "Ana")], .obj [("email", .str "x@mail.co")]] "all" ""
      (.obj [("email", .str "x@mail.co")]) (by simp) rfl,
   (filters_totality asciiLowerCase).2.2.2.2.2.2.1
      [.obj [("concept", .str "Pago de administración"),
             ("apartment", .obj [("number", .num 101), ("tower", .str "A")])]] "torre"
      (.obj [("concept", .str "Pago de administración"),
             ("apartment", .obj [("number", .num 101), ("tower", .str "A")])])
      (by simp) rfl rfl rfl rfl rfl rfl rfl rfl,
   ((filters_totality asciiLowerCase).2.2.2.2.2.2.2.2 asciiLowerCase_digits).2
      [.obj [("concept", .str "Pago de administración"),
             ("apartment", .obj [("number", .num 101), ("tower", .str "A")])]]
      (.obj [("concept", .str "Pago de administración"),
             ("apartment", .obj [("number", .num 101), ("tower", .str "A")])])
      (by simp) (Or.inl rfl)⟩

end ResidentialComplex
